import Mathlib

set_option maxRecDepth 40000

/-!
Shallow embedding of the three transient heat-conduction solvers of
`HTSv8.2.py` (`simulate_square_bar_fast`, `simulate_cylindrical_bar_fast`,
`simulate_conical_tip_bar_fast`).  Grids are lists of lists of exact
rationals (the cylindrical and square solvers use only field arithmetic);
the conical solver uses `Real` because its tip update calls `exp`.
The histories are stored newest-first: the Python code appends at the end
and reads `history[-1]`, here we cons at the head and read `headD`.
-/

/-- Value of a 2-D list grid at row `i`, column `j` (0 outside the lists). -/
def val2 (L : List (List ℚ)) (i j : ℕ) : ℚ := (L.getD i []).getD j 0

/-- Value of a 1-D list grid at index `i` (0 outside the list). -/
noncomputable def val1 (L : List ℝ) (i : ℕ) : ℝ := L.getD i 0

/-- History update shared by all three solvers: store the first sample
unconditionally, afterwards store `(t2, c2)` only when at least 0.5 s have
passed since the last stored sample (`if len(time_history) == 0 or
t - time_history[-1] >= 0.5`).  Newest sample first. -/
def histUpd {α : Type} [LinearOrderedField α] (t2 c2 : α) (hist : List (α × α)) :
    List (α × α) :=
  match hist with
  | [] => [(t2, c2)]
  | h :: t => if (0.5 : α) ≤ t2 - h.1 then (t2, c2) :: h :: t else h :: t

/-- Parameters of the square-bar solver `simulate_square_bar_fast`
(material, cooling conditions, geometry, and the grid-point counts the
resolution policy supplies; the solver clamps the counts to at least 3). -/
structure SqP where
  k : ℚ
  rho : ℚ
  cp : ℚ
  hj : ℚ
  hn : ℚ
  Tc : ℚ
  Ti : ℚ
  tEnd : ℚ
  w : ℚ
  h : ℚ
  nzArg : ℕ
  nxArg : ℕ
deriving DecidableEq

/-- `nz = max(3, nz)` in the source. -/
def SqP.nz (p : SqP) : ℕ := max 3 p.nzArg

/-- `nx = max(3, nx)` in the source. -/
def SqP.nx (p : SqP) : ℕ := max 3 p.nxArg

/-- `dz = height / (nz - 1)`. -/
def SqP.dz (p : SqP) : ℚ := p.h / ((p.nz : ℚ) - 1)

/-- `dx = width / (nx - 1)`. -/
def SqP.dx (p : SqP) : ℚ := p.w / ((p.nx : ℚ) - 1)

/-- `alpha = k / (rho * cp)`. -/
def SqP.alpha (p : SqP) : ℚ := p.k / (p.rho * p.cp)

/-- `dt = max(0.001, 0.25 * min(dx**2, dz**2) / (4 * alpha))`. -/
def SqP.dt (p : SqP) : ℚ :=
  max 0.001 (0.25 * min (p.dx ^ 2) (p.dz ^ 2) / (4 * p.alpha))

/-- `rx = alpha * dt / dx**2`. -/
def SqP.rx (p : SqP) : ℚ := p.alpha * p.dt / p.dx ^ 2

/-- `rz = alpha * dt / dz**2`. -/
def SqP.rz (p : SqP) : ℚ := p.alpha * p.dt / p.dz ^ 2

/-- The factor `h_waterjet * dz / k` of the bottom-face update. -/
def SqP.Hj (p : SqP) : ℚ := p.hj * p.dz / p.k

/-- The factor `h_natural * dx / k` of the side-face updates. -/
def SqP.Hnx (p : SqP) : ℚ := p.hn * p.dx / p.k

/-- The factor `h_natural * dz / k` of the top-face update. -/
def SqP.Hnz (p : SqP) : ℚ := p.hn * p.dz / p.k

/-- Index set written by `T_new[0, :]` (waterjet at the bottom face). -/
def sqBottomR (p : SqP) (i j : ℕ) : Prop := i = 0 ∧ j < p.nx

/-- Index set written by `T_new[1:-1, 0]` (natural convection, left face). -/
def sqLeftR (p : SqP) (i j : ℕ) : Prop := 1 ≤ i ∧ i ≤ p.nz - 2 ∧ j = 0

/-- Index set written by `T_new[1:-1, -1]` (natural convection, right face). -/
def sqRightR (p : SqP) (i j : ℕ) : Prop := 1 ≤ i ∧ i ≤ p.nz - 2 ∧ j = p.nx - 1

/-- Index set written by `T_new[1:-1, 1:-1]` (interior update). -/
def sqIntR (p : SqP) (i j : ℕ) : Prop :=
  1 ≤ i ∧ i ≤ p.nz - 2 ∧ 1 ≤ j ∧ j ≤ p.nx - 2

/-- Index set written by `T_new[-1, 1:-1]` (natural convection, top face). -/
def sqTopR (p : SqP) (i j : ℕ) : Prop := i = p.nz - 1 ∧ 1 ≤ j ∧ j ≤ p.nx - 2

instance (p : SqP) (i j : ℕ) : Decidable (sqBottomR p i j) := by
  unfold sqBottomR; infer_instance

instance (p : SqP) (i j : ℕ) : Decidable (sqLeftR p i j) := by
  unfold sqLeftR; infer_instance

instance (p : SqP) (i j : ℕ) : Decidable (sqRightR p i j) := by
  unfold sqRightR; infer_instance

instance (p : SqP) (i j : ℕ) : Decidable (sqIntR p i j) := by
  unfold sqIntR; infer_instance

instance (p : SqP) (i j : ℕ) : Decidable (sqTopR p i j) := by
  unfold sqTopR; infer_instance

/-- Bottom-face value: `T[0,:] + 2*rz*(T[1,:] - T[0,:] - (h_waterjet*dz/k)*(T[0,:] - T_coolant))`. -/
def sqBottomV (p : SqP) (f : ℕ → ℕ → ℚ) (j : ℕ) : ℚ :=
  f 0 j + 2 * p.rz * (f 1 j - f 0 j - p.Hj * (f 0 j - p.Tc))

/-- Left-face value: `T[1:-1,0] + 2*rx*(T[1:-1,1] - T[1:-1,0] - (h_natural*dx/k)*(T[1:-1,0] - T_coolant))`. -/
def sqLeftV (p : SqP) (f : ℕ → ℕ → ℚ) (i : ℕ) : ℚ :=
  f i 0 + 2 * p.rx * (f i 1 - f i 0 - p.Hnx * (f i 0 - p.Tc))

/-- Right-face value, mirror of the left face at column `nx-1`. -/
def sqRightV (p : SqP) (f : ℕ → ℕ → ℚ) (i : ℕ) : ℚ :=
  f i (p.nx - 1) +
    2 * p.rx * (f i (p.nx - 2) - f i (p.nx - 1) - p.Hnx * (f i (p.nx - 1) - p.Tc))

/-- Interior five-point value:
`T + rx*(T[.,j+1] - 2T + T[.,j-1]) + rz*(T[i+1,.] - 2T + T[i-1,.])`. -/
def sqIntV (p : SqP) (f : ℕ → ℕ → ℚ) (i j : ℕ) : ℚ :=
  f i j + p.rx * (f i (j + 1) - 2 * f i j + f i (j - 1)) +
    p.rz * (f (i + 1) j - 2 * f i j + f (i - 1) j)

/-- Top-face value at row `nz-1`. -/
def sqTopV (p : SqP) (f : ℕ → ℕ → ℚ) (j : ℕ) : ℚ :=
  f (p.nz - 1) j +
    2 * p.rz * (f (p.nz - 2) j - f (p.nz - 1) j - p.Hnz * (f (p.nz - 1) j - p.Tc))

/-- Per-node value of one synchronous step of the square solver; every read
is from the old field `f`.  The write regions are pairwise disjoint (the
clamped `nz, nx ≥ 3` make the slices non-overlapping), and indices covered
by no slice — in particular the two top corners — keep their old value,
mirroring `T_new = T.copy()`. -/
def sqNode (p : SqP) (f : ℕ → ℕ → ℚ) (i j : ℕ) : ℚ :=
  if sqBottomR p i j then sqBottomV p f j
  else if sqLeftR p i j then sqLeftV p f i
  else if sqRightR p i j then sqRightV p f i
  else if sqIntR p i j then sqIntV p f i j
  else if sqTopR p i j then sqTopV p f j
  else f i j

/-- One synchronous Jacobi step of the square solver on the list grid. -/
def sqStepL (p : SqP) (L : List (List ℚ)) : List (List ℚ) :=
  List.ofFn fun i : Fin p.nz => List.ofFn fun j : Fin p.nx => sqNode p (val2 L) i j

/-- Representative (center) node `T[min(nz//2, nz-1), min(nx//2, nx-1)]`. -/
def sqCenter (p : SqP) (L : List (List ℚ)) : ℚ :=
  val2 L (min (p.nz / 2) (p.nz - 1)) (min (p.nx / 2) (p.nx - 1))

/-- Loop state of the square solver: grid, elapsed time, stored history. -/
structure SqS where
  T : List (List ℚ)
  t : ℚ
  hist : List (ℚ × ℚ)
deriving DecidableEq

/-- `T = np.ones((nz, nx)) * T_init`. -/
def sqInit (p : SqP) : List (List ℚ) := List.replicate p.nz (List.replicate p.nx p.Ti)

/-- One iteration of the square solver's `while` body: step the grid,
advance time by `dt`, maybe store a sample. -/
def sqBody (p : SqP) (s : SqS) : SqS :=
  let T2 := sqStepL p s.T
  let t2 := s.t + p.dt
  ⟨T2, t2, histUpd t2 (sqCenter p T2) s.hist⟩

/-- The guarded iteration: run the body while `t < sim_time`. -/
def sqNext (p : SqP) (s : SqS) : SqS := if s.t < p.tEnd then sqBody p s else s

/-- State of the square solver after `n` loop iterations. -/
def sqRun (p : SqP) : ℕ → SqS
  | 0 => ⟨sqInit p, 0, []⟩
  | n + 1 => sqNext p (sqRun p n)

/-- Parameters of the cylindrical solver `simulate_cylindrical_bar_fast`. -/
structure CylP where
  k : ℚ
  rho : ℚ
  cp : ℚ
  hj : ℚ
  hn : ℚ
  Tc : ℚ
  Ti : ℚ
  tEnd : ℚ
  diam : ℚ
  height : ℚ
  nrArg : ℕ
  nzArg : ℕ
deriving DecidableEq

/-- `radius = diameter / 2.0`. -/
def CylP.radius (p : CylP) : ℚ := p.diam / 2

/-- `nr = max(3, nr)`. -/
def CylP.nr (p : CylP) : ℕ := max 3 p.nrArg

/-- `nz = max(3, nz)`. -/
def CylP.nz (p : CylP) : ℕ := max 3 p.nzArg

/-- `dr = radius / (nr - 1)`. -/
def CylP.dr (p : CylP) : ℚ := p.radius / ((p.nr : ℚ) - 1)

/-- `dz = height / (nz - 1)`. -/
def CylP.dz (p : CylP) : ℚ := p.height / ((p.nz : ℚ) - 1)

/-- `alpha = k / (rho * cp)`. -/
def CylP.alpha (p : CylP) : ℚ := p.k / (p.rho * p.cp)

/-- `dt = 0.1 * min(dr**2, dz**2) / (4 * alpha); dt = max(0.001, min(dt, 0.1))`. -/
def CylP.dt (p : CylP) : ℚ :=
  max 0.001 (min (0.1 * min (p.dr ^ 2) (p.dz ^ 2) / (4 * p.alpha)) 0.1)

/-- Index set of the bottom-surface loop (`j = 0`, waterjet). -/
def cylBotR (p : CylP) (i j : ℕ) : Prop := j = 0 ∧ i < p.nr

/-- Index set of the top-surface loop (`j = nz-1`, natural convection). -/
def cylTopR (p : CylP) (i j : ℕ) : Prop := j = p.nz - 1 ∧ i < p.nr

/-- Index set of the centerline loop (`i = 0`, interior axial rows). -/
def cylCLR (p : CylP) (i j : ℕ) : Prop := i = 0 ∧ 1 ≤ j ∧ j ≤ p.nz - 2

/-- Index set of the interior double loop. -/
def cylIntR (p : CylP) (i j : ℕ) : Prop :=
  1 ≤ i ∧ i ≤ p.nr - 2 ∧ 1 ≤ j ∧ j ≤ p.nz - 2

/-- Index set of the outer-surface loop (`i = nr-1`, natural convection). -/
def cylOutR (p : CylP) (i j : ℕ) : Prop := i = p.nr - 1 ∧ 1 ≤ j ∧ j ≤ p.nz - 2

instance (p : CylP) (i j : ℕ) : Decidable (cylBotR p i j) := by
  unfold cylBotR; infer_instance

instance (p : CylP) (i j : ℕ) : Decidable (cylTopR p i j) := by
  unfold cylTopR; infer_instance

instance (p : CylP) (i j : ℕ) : Decidable (cylCLR p i j) := by
  unfold cylCLR; infer_instance

instance (p : CylP) (i j : ℕ) : Decidable (cylIntR p i j) := by
  unfold cylIntR; infer_instance

instance (p : CylP) (i j : ℕ) : Decidable (cylOutR p i j) := by
  unfold cylOutR; infer_instance

/-- Bottom-surface value: one-sided conduction plus linearized convection,
`T + alpha*dt*((T[i,1]-T[i,0])/dz**2 + h_waterjet*(T_coolant-T[i,0])/(k*dz))`. -/
def cylBotV (p : CylP) (f : ℕ → ℕ → ℚ) (i : ℕ) : ℚ :=
  f i 0 + p.alpha * p.dt *
    ((f i 1 - f i 0) / p.dz ^ 2 + p.hj * (p.Tc - f i 0) / (p.k * p.dz))

/-- Top-surface value, same form with `h_natural` at `j = nz-1`. -/
def cylTopV (p : CylP) (f : ℕ → ℕ → ℚ) (i : ℕ) : ℚ :=
  f i (p.nz - 1) + p.alpha * p.dt *
    ((f i (p.nz - 2) - f i (p.nz - 1)) / p.dz ^ 2 +
      p.hn * (p.Tc - f i (p.nz - 1)) / (p.k * p.dz))

/-- Centerline value (L'Hopital limit at `r = 0`):
`T + alpha*dt*(2*(T[1,j]-T[0,j])/dr**2 + (T[0,j+1]-2*T[0,j]+T[0,j-1])/dz**2)`. -/
def cylCLV (p : CylP) (f : ℕ → ℕ → ℚ) (j : ℕ) : ℚ :=
  f 0 j + p.alpha * p.dt *
    (2 * (f 1 j - f 0 j) / p.dr ^ 2 +
      (f 0 (j + 1) - 2 * f 0 j + f 0 (j - 1)) / p.dz ^ 2)

/-- Interior value in cylindrical coordinates at radius `r = i*dr`
(`r_safe[i]` of the source):
`T + alpha*dt*(d2T_dr2 + (1/r)*dT_dr + d2T_dz2)` with central differences. -/
def cylIntV (p : CylP) (f : ℕ → ℕ → ℚ) (i j : ℕ) : ℚ :=
  f i j + p.alpha * p.dt *
    ((f (i + 1) j - 2 * f i j + f (i - 1) j) / p.dr ^ 2 +
      1 / ((i : ℚ) * p.dr) * ((f (i + 1) j - f (i - 1) j) / (2 * p.dr)) +
      (f i (j + 1) - 2 * f i j + f i (j - 1)) / p.dz ^ 2)

/-- Outer-surface value at `i = nr-1`: one-sided conduction, the `1/R`
curvature term, and linearized convection with `h_natural`. -/
def cylOutV (p : CylP) (f : ℕ → ℕ → ℚ) (j : ℕ) : ℚ :=
  f (p.nr - 1) j + p.alpha * p.dt *
    ((f (p.nr - 2) j - f (p.nr - 1) j) / p.dr ^ 2 +
      1 / p.radius * ((f (p.nr - 1) j - f (p.nr - 2) j) / p.dr) +
      p.hn * (p.Tc - f (p.nr - 1) j) / (p.k * p.dr))

/-- Per-node value of one synchronous step of the cylindrical solver; every
read is from the old field.  The five write regions are pairwise disjoint,
all other indices keep their old value (`T_new = T.copy()`). -/
def cylNode (p : CylP) (f : ℕ → ℕ → ℚ) (i j : ℕ) : ℚ :=
  if cylBotR p i j then cylBotV p f i
  else if cylTopR p i j then cylTopV p f i
  else if cylCLR p i j then cylCLV p f j
  else if cylIntR p i j then cylIntV p f i j
  else if cylOutR p i j then cylOutV p f j
  else f i j

/-- One synchronous Jacobi step of the cylindrical solver on the list grid. -/
def cylStepL (p : CylP) (L : List (List ℚ)) : List (List ℚ) :=
  List.ofFn fun i : Fin p.nr => List.ofFn fun j : Fin p.nz => cylNode p (val2 L) i j

/-- Representative node `T[min(nr//2, nr-1), min(nz//2, nz-1)]`. -/
def cylCenter (p : CylP) (L : List (List ℚ)) : ℚ :=
  val2 L (min (p.nr / 2) (p.nr - 1)) (min (p.nz / 2) (p.nz - 1))

/-- Early-termination test of the cylindrical solver, evaluated after the
step with the post-increment time and the updated history:
`t > 10 and len(temp_history) > 1 and abs(temp_history[-1]-temp_history[-2]) < 0.1`
and then `temp_history[-1] < T_coolant + 50`. -/
def cylBreak (p : CylP) (t2 : ℚ) (h2 : List (ℚ × ℚ)) : Bool :=
  if 10 < t2 ∧ 1 < h2.length ∧
      |(h2.headD (0, 0)).2 - (h2.getD 1 (0, 0)).2| < 0.1 ∧
      (h2.headD (0, 0)).2 < p.Tc + 50 then true else false

/-- Loop state of the cylindrical solver; `done` records that the `break`
was taken (the loop is left and the state frozen). -/
structure CylS where
  T : List (List ℚ)
  t : ℚ
  hist : List (ℚ × ℚ)
  done : Bool
deriving DecidableEq

/-- `T = np.ones((nr, nz)) * T_init`. -/
def cylInit (p : CylP) : List (List ℚ) :=
  List.replicate p.nr (List.replicate p.nz p.Ti)

/-- One iteration of the cylindrical solver's `while` body: step, advance
time, maybe store a sample, then evaluate the break test. -/
def cylBody (p : CylP) (s : CylS) : CylS :=
  let T2 := cylStepL p s.T
  let t2 := s.t + p.dt
  let h2 := histUpd t2 (cylCenter p T2) s.hist
  ⟨T2, t2, h2, cylBreak p t2 h2⟩

/-- The guarded iteration: run the body while `t < sim_time` and the break
has not been taken. -/
def cylNext (p : CylP) (s : CylS) : CylS :=
  if s.t < p.tEnd ∧ s.done = false then cylBody p s else s

/-- State of the cylindrical solver after `n` loop iterations. -/
def cylRun (p : CylP) : ℕ → CylS
  | 0 => ⟨cylInit p, 0, [], false⟩
  | n + 1 => cylNext p (cylRun p n)

/-- Parameters of the conical-tip solver `simulate_conical_tip_bar_fast`
after the very first line `total_length = cyl_height + cone_height`;
`len` is that total length.  Real-valued because the tip update uses `exp`. -/
structure ConP where
  k : ℝ
  rho : ℝ
  cp : ℝ
  hj : ℝ
  hn : ℝ
  Tc : ℝ
  Ti : ℝ
  tEnd : ℝ
  len : ℝ
  npArg : ℕ

/-- `n_points = max(3, n_points)`. -/
def ConP.np (p : ConP) : ℕ := max 3 p.npArg

/-- `dx = total_length / (n_points - 1)`. -/
noncomputable def ConP.dx (p : ConP) : ℝ := p.len / ((p.np : ℝ) - 1)

/-- `alpha = k / (rho * cp)`. -/
noncomputable def ConP.alpha (p : ConP) : ℝ := p.k / (p.rho * p.cp)

/-- `dt = max(0.001, 0.3 * dx**2 / (4 * alpha))`. -/
noncomputable def ConP.dt (p : ConP) : ℝ :=
  max 0.001 (0.3 * p.dx ^ 2 / (4 * p.alpha))

/-- Per-node value of one step of the conical solver.  Index 0 is the free
end (`T_new[0] = T[0] - alpha*dt*(h_natural/(k*dx))*(T[0]-T_coolant)`), the
last index is the jet-cooled tip
(`T_new[-1] = T_coolant + (T[-1]-T_coolant)*exp(-h_waterjet*dx/k)`), and
interior nodes get the three-point Laplacian followed by the subtracted
distributed sink `alpha*dt*(h_natural/(k*dx))*(T-T_coolant)`, both read
from the old field. -/
noncomputable def conNode (p : ConP) (f : ℕ → ℝ) (i : ℕ) : ℝ :=
  if i = 0 then f 0 - p.alpha * p.dt * (p.hn / (p.k * p.dx)) * (f 0 - p.Tc)
  else if i = p.np - 1 then
    p.Tc + (f (p.np - 1) - p.Tc) * Real.exp (-(p.hj * p.dx / p.k))
  else if 1 ≤ i ∧ i ≤ p.np - 2 then
    f i + p.alpha * p.dt * ((f (i + 1) - 2 * f i + f (i - 1)) / p.dx ^ 2) -
      p.alpha * p.dt * (p.hn / (p.k * p.dx)) * (f i - p.Tc)
  else f i

/-- One synchronous step of the conical solver on the list grid. -/
noncomputable def conStepL (p : ConP) (L : List ℝ) : List ℝ :=
  List.ofFn fun i : Fin p.np => conNode p (val1 L) i

/-- Representative node `T[min(n_points//2, n_points-1)]`. -/
noncomputable def conCenter (p : ConP) (L : List ℝ) : ℝ :=
  val1 L (min (p.np / 2) (p.np - 1))

/-- Loop state of the conical solver. -/
structure ConS where
  T : List ℝ
  t : ℝ
  hist : List (ℝ × ℝ)

/-- `T = np.ones(n_points) * T_init`. -/
def conInit (p : ConP) : List ℝ := List.replicate p.np p.Ti

/-- One iteration of the conical solver's `while` body. -/
noncomputable def conBody (p : ConP) (s : ConS) : ConS :=
  let T2 := conStepL p s.T
  let t2 := s.t + p.dt
  ⟨T2, t2, histUpd t2 (conCenter p T2) s.hist⟩

/-- The guarded iteration: run the body while `t < sim_time`. -/
noncomputable def conNext (p : ConP) (s : ConS) : ConS :=
  if s.t < p.tEnd then conBody p s else s

/-- State of the conical solver after `n` loop iterations. -/
noncomputable def conRun (p : ConP) : ℕ → ConS
  | 0 => ⟨conInit p, 0, []⟩
  | n + 1 => conNext p (conRun p n)

/-- The conical solver with the source function's full signature
`(k, rho, cp, h_waterjet, h_natural, T_coolant, T_init, sim_time,
cyl_diameter, cyl_height, cone_height, cone_angle)` plus the resolution
count; the body uses only `total_length = cyl_height + cone_height` of the
four geometry arguments (`cyl_diameter` and `cone_angle` feed only the
plotting code, which returns nothing into the histories). -/
noncomputable def conSim (k rho cp hj hn Tc Ti tEnd cylDiameter cylHeight
    coneHeight coneAngle : ℝ) (npArg : ℕ) (n : ℕ) : ConS :=
  conRun ⟨k, rho, cp, hj, hn, Tc, Ti, tEnd, cylHeight + coneHeight, npArg⟩ n

/-- Overwrite combinator: write the value `v` on the region `P` of the
field `g` (one numpy slice assignment on the new field). -/
def wr2 (P : ℕ → ℕ → Prop) [∀ i j, Decidable (P i j)] (v g : ℕ → ℕ → ℚ) :
    ℕ → ℕ → ℚ :=
  fun i j => if P i j then v i j else g i j

/-- The square step as the source writes it: start from the copy of the old
field, then apply the five slice assignments in program order (interior,
bottom, left, right, top — later writes outermost), every right-hand side
reading the old field `f`. -/
def sqImp (p : SqP) (f : ℕ → ℕ → ℚ) : ℕ → ℕ → ℚ :=
  wr2 (sqTopR p) (fun _ j => sqTopV p f j)
    (wr2 (sqRightR p) (fun i _ => sqRightV p f i)
      (wr2 (sqLeftR p) (fun i _ => sqLeftV p f i)
        (wr2 (sqBottomR p) (fun _ j => sqBottomV p f j)
          (wr2 (sqIntR p) (fun i j => sqIntV p f i j) f))))

/-- The same five writes applied in the reverse order. -/
def sqImpRev (p : SqP) (f : ℕ → ℕ → ℚ) : ℕ → ℕ → ℚ :=
  wr2 (sqIntR p) (fun i j => sqIntV p f i j)
    (wr2 (sqBottomR p) (fun _ j => sqBottomV p f j)
      (wr2 (sqLeftR p) (fun i _ => sqLeftV p f i)
        (wr2 (sqRightR p) (fun i _ => sqRightV p f i)
          (wr2 (sqTopR p) (fun _ j => sqTopV p f j) f))))

/-- The cylindrical step as the source writes it: the five loop nests in
program order (interior, centerline, bottom, top, outer), every right-hand
side reading the old field `f`. -/
def cylImp (p : CylP) (f : ℕ → ℕ → ℚ) : ℕ → ℕ → ℚ :=
  wr2 (cylOutR p) (fun _ j => cylOutV p f j)
    (wr2 (cylTopR p) (fun i _ => cylTopV p f i)
      (wr2 (cylBotR p) (fun i _ => cylBotV p f i)
        (wr2 (cylCLR p) (fun _ j => cylCLV p f j)
          (wr2 (cylIntR p) (fun i j => cylIntV p f i j) f))))

/-- The same five loop nests applied in the reverse order. -/
def cylImpRev (p : CylP) (f : ℕ → ℕ → ℚ) : ℕ → ℕ → ℚ :=
  wr2 (cylIntR p) (fun i j => cylIntV p f i j)
    (wr2 (cylCLR p) (fun _ j => cylCLV p f j)
      (wr2 (cylBotR p) (fun i _ => cylBotV p f i)
        (wr2 (cylTopR p) (fun i _ => cylTopV p f i)
          (wr2 (cylOutR p) (fun _ j => cylOutV p f j) f))))

/-- Boundary nodes of the square grid. -/
def sqBoundary (p : SqP) (i j : ℕ) : Prop :=
  i < p.nz ∧ j < p.nx ∧ (i = 0 ∨ i = p.nz - 1 ∨ j = 0 ∨ j = p.nx - 1)

/-- Nodes written by at least one of the four face updates of the square
solver (jet at the bottom, natural convection on the two sides and the
top). -/
def coveredSq (p : SqP) (i j : ℕ) : Prop :=
  sqBottomR p i j ∨ sqLeftR p i j ∨ sqRightR p i j ∨ sqTopR p i j

instance (p : SqP) (i j : ℕ) : Decidable (sqBoundary p i j) := by
  unfold sqBoundary; infer_instance

instance (p : SqP) (i j : ℕ) : Decidable (coveredSq p i j) := by
  unfold coveredSq; infer_instance

/-- Nonnegative-coefficient (discrete maximum principle) conditions for the
square solver: with them every per-node update is a convex combination of
old values and `T_coolant`. -/
def SqStable (p : SqP) : Prop :=
  0 ≤ p.rx ∧ 0 ≤ p.rz ∧ 0 ≤ p.Hj ∧ 0 ≤ p.Hnx ∧ 0 ≤ p.Hnz ∧ p.Tc ≤ p.Ti ∧
  2 * p.rz * (1 + p.Hj) ≤ 1 ∧ 2 * p.rx * (1 + p.Hnx) ≤ 1 ∧
  2 * p.rz * (1 + p.Hnz) ≤ 1 ∧ 2 * p.rx + 2 * p.rz ≤ 1

/-- Nonnegative-coefficient conditions for the cylindrical solver, written
on the grouped coefficients `a = alpha*dt`, `a/dr²`, `a/dz²`, the
convective factors `a*h/(k*spacing)` and the curvature factor
`a/(radius*dr)`. -/
def CylStable (p : CylP) : Prop :=
  0 ≤ p.alpha * p.dt ∧ 0 ≤ p.alpha * p.dt / p.dr ^ 2 ∧
  0 ≤ p.alpha * p.dt / p.dz ^ 2 ∧
  0 ≤ p.alpha * p.dt * p.hj / (p.k * p.dz) ∧
  0 ≤ p.alpha * p.dt * p.hn / (p.k * p.dz) ∧
  0 ≤ p.alpha * p.dt * p.hn / (p.k * p.dr) ∧
  0 ≤ p.alpha * p.dt / (p.radius * p.dr) ∧
  p.alpha * p.dt / (p.radius * p.dr) ≤ p.alpha * p.dt / p.dr ^ 2 ∧
  p.Tc ≤ p.Ti ∧
  2 * (p.alpha * p.dt / p.dr ^ 2) + 2 * (p.alpha * p.dt / p.dz ^ 2) ≤ 1 ∧
  p.alpha * p.dt / p.dz ^ 2 + p.alpha * p.dt * p.hj / (p.k * p.dz) ≤ 1 ∧
  p.alpha * p.dt / p.dz ^ 2 + p.alpha * p.dt * p.hn / (p.k * p.dz) ≤ 1 ∧
  p.alpha * p.dt / p.dr ^ 2 + p.alpha * p.dt * p.hn / (p.k * p.dr) ≤ 1

/-- Nonnegative-coefficient conditions for the conical solver. -/
def ConStable (p : ConP) : Prop :=
  0 ≤ p.alpha * p.dt / p.dx ^ 2 ∧
  0 ≤ p.alpha * p.dt * (p.hn / (p.k * p.dx)) ∧
  2 * (p.alpha * p.dt / p.dx ^ 2) + p.alpha * p.dt * (p.hn / (p.k * p.dx)) ≤ 1 ∧
  0 ≤ p.hj * p.dx / p.k ∧ p.Tc ≤ p.Ti

/-- Square-solver input with `k = rho = 1, cp = 2` (`alpha = 1/2`), Low-tier
15x15 grid, 28 m square (`dx = dz = 2`, hence `dt = 1/2`, every step
sampled), strong jet `h_jet = 100`, no natural convection.  `dt = 1/2`
makes the bottom-face update coefficient `1 - 2*rz*(1+Hj) = -24.125`:
an unstable, oscillating run that the dt selector nevertheless accepts. -/
def sqPa : SqP := ⟨1, 1, 2, 100, 0, 0, 100, 10, 28, 28, 15, 15⟩

/-- The same unstable square-solver input with `t_end = 100`. -/
def sqPb : SqP := ⟨1, 1, 2, 100, 0, 0, 100, 100, 28, 28, 15, 15⟩

/-- Square-solver input on a fine grid: `alpha = 1`, width = height =
0.014 m, 15x15 grid, so `dx = dz = 0.001` and the unclamped candidate
`0.25*min(dx²,dz²)/(4*alpha) = 6.25e-8` falls below the 0.001 floor. -/
def sqPfine : SqP := ⟨1, 1, 1, 0, 0, 0, 1, 1, 0.014, 0.014, 15, 15⟩

/-- Square-solver input satisfying `SqStable`: `alpha = 1/2`, `dx = dz = 2`,
`dt = 1/2`, `rx = rz = 1/16`, moderate convection `h_jet = h_natural = 1`. -/
def sqPst : SqP := ⟨1, 1, 2, 1, 1, 0, 100, 10, 28, 28, 15, 15⟩

/-- Cylindrical-solver input satisfying `CylStable`: `alpha = 1`,
diameter 44 m (`radius = 22`, `dr = 2` at `nr = 12`), height 48 m
(`dz = 2` at `nz = 25`), `dt = 0.1`. -/
def cylPst : CylP := ⟨1, 1, 1, 1, 1, 0, 100, 10, 44, 48, 12, 25⟩

/-- Cylindrical-solver input with no convection at all (`h_jet =
h_natural = 0`) and `T_init = T_coolant + 1`: the grid stays exactly at
`T_init`, consecutive samples are equal, and once `t` passes the 10 s
warm-up the break test fires.  `nr = nz = 3`, `dr = dz = 2`, `dt = 0.1`. -/
def cylPbr : CylP := ⟨1, 1, 1, 0, 0, 0, 1, 1000, 8, 4, 3, 3⟩

/-- Conical-solver input satisfying `ConStable`: `alpha = 1`, total length
48 m at 25 points (`dx = 2`), `dt = 0.3`. -/
noncomputable def conPst : ConP := ⟨1, 1, 1, 1, 1, 0, 100, 10, 48, 25⟩
theorem SqP.three_le_nz_sq (p : SqP) : 3 ≤ p.nz := Nat.le_max_left 3 p.nzArg

theorem SqP.three_le_nx (p : SqP) : 3 ≤ p.nx := Nat.le_max_left 3 p.nxArg

theorem CylP.three_le_nr (p : CylP) : 3 ≤ p.nr := Nat.le_max_left 3 p.nrArg

theorem CylP.three_le_nz_cyl (p : CylP) : 3 ≤ p.nz := Nat.le_max_left 3 p.nzArg

theorem ConP.three_le_np (p : ConP) : 3 ≤ p.np := Nat.le_max_left 3 p.npArg

theorem sqStepL_val (p : SqP) (L : List (List ℚ)) (i j : ℕ)
    (hi : i < p.nz) (hj2 : j < p.nx) :
    val2 (sqStepL p L) i j = sqNode p (val2 L) i j := by
  simp [sqStepL, val2, List.getD_eq_getElem?_getD, List.getElem?_ofFn, hi, hj2]

theorem cylStepL_val (p : CylP) (L : List (List ℚ)) (i j : ℕ)
    (hi : i < p.nr) (hj2 : j < p.nz) :
    val2 (cylStepL p L) i j = cylNode p (val2 L) i j := by
  simp [cylStepL, val2, List.getD_eq_getElem?_getD, List.getElem?_ofFn, hi, hj2]

theorem conStepL_val (p : ConP) (L : List ℝ) (i : ℕ) (hi : i < p.np) :
    val1 (conStepL p L) i = conNode p (val1 L) i := by
  simp [conStepL, val1, List.getD_eq_getElem?_getD, List.getElem?_ofFn, hi]

theorem sqInit_val (p : SqP) (i j : ℕ) (hi : i < p.nz) (hj2 : j < p.nx) :
    val2 (sqInit p) i j = p.Ti := by
  simp [sqInit, val2, List.getD_eq_getElem?_getD, List.getElem?_replicate, hi, hj2]

theorem cylInit_val (p : CylP) (i j : ℕ) (hi : i < p.nr) (hj2 : j < p.nz) :
    val2 (cylInit p) i j = p.Ti := by
  simp [cylInit, val2, List.getD_eq_getElem?_getD, List.getElem?_replicate, hi, hj2]

theorem conInit_val (p : ConP) (i : ℕ) (hi : i < p.np) :
    val1 (conInit p) i = p.Ti := by
  simp [conInit, val1, List.getD_eq_getElem?_getD, List.getElem?_replicate, hi]

theorem sqImp_eq_sqNode (p : SqP) (f : ℕ → ℕ → ℚ) (i j : ℕ) :
    sqImp p f i j = sqNode p f i j := by
  have h3z : 3 ≤ p.nz := p.three_le_nz_sq
  have h3x : 3 ≤ p.nx := p.three_le_nx
  unfold sqImp wr2 sqNode
  unfold sqBottomR sqLeftR sqRightR sqIntR sqTopR
  split_ifs <;> first | rfl | omega

theorem sqImpRev_eq_sqNode (p : SqP) (f : ℕ → ℕ → ℚ) (i j : ℕ) :
    sqImpRev p f i j = sqNode p f i j := by
  have h3z : 3 ≤ p.nz := p.three_le_nz_sq
  have h3x : 3 ≤ p.nx := p.three_le_nx
  unfold sqImpRev wr2 sqNode
  unfold sqBottomR sqLeftR sqRightR sqIntR sqTopR
  split_ifs <;> first | rfl | omega

theorem cylImp_eq_cylNode (p : CylP) (f : ℕ → ℕ → ℚ) (i j : ℕ) :
    cylImp p f i j = cylNode p f i j := by
  have h3r : 3 ≤ p.nr := p.three_le_nr
  have h3z : 3 ≤ p.nz := p.three_le_nz_cyl
  unfold cylImp wr2 cylNode
  unfold cylBotR cylTopR cylCLR cylIntR cylOutR
  split_ifs <;> first | rfl | omega

theorem cylImpRev_eq_cylNode (p : CylP) (f : ℕ → ℕ → ℚ) (i j : ℕ) :
    cylImpRev p f i j = cylNode p f i j := by
  have h3r : 3 ≤ p.nr := p.three_le_nr
  have h3z : 3 ≤ p.nz := p.three_le_nz_cyl
  unfold cylImpRev wr2 cylNode
  unfold cylBotR cylTopR cylCLR cylIntR cylOutR
  split_ifs <;> first | rfl | omega
/-- In-range pointwise order between two square-solver grids. -/
def sqLE (p : SqP) (L M : List (List ℚ)) : Prop :=
  ∀ i j, i < p.nz → j < p.nx → val2 L i j ≤ val2 M i j

/-- In-range box bounds for a square-solver grid. -/
def sqBox (p : SqP) (L : List (List ℚ)) : Prop :=
  ∀ i j, i < p.nz → j < p.nx → p.Tc ≤ val2 L i j ∧ val2 L i j ≤ p.Ti

theorem sqNode_mono (p : SqP) (hs : SqStable p) (f g : ℕ → ℕ → ℚ)
    (hfg : ∀ a b, a < p.nz → b < p.nx → f a b ≤ g a b) :
    ∀ i j, i < p.nz → j < p.nx → sqNode p f i j ≤ sqNode p g i j := by
  obtain ⟨hrx, hrz, hHj, hHnx, hHnz, hTT, hbz, hbx, htz, hint⟩ := hs
  have h3z := p.three_le_nz_sq
  have h3x := p.three_le_nx
  have hc0 : 0 ≤ 1 - 2 * p.rz - 2 * p.rz * p.Hj := by linarith
  have hc1 : 0 ≤ 1 - 2 * p.rx - 2 * p.rx * p.Hnx := by linarith
  have hc2 : 0 ≤ 1 - 2 * p.rz - 2 * p.rz * p.Hnz := by linarith
  have hc3 : 0 ≤ 1 - 2 * p.rx - 2 * p.rz := by linarith
  intro i j hi hj2
  unfold sqNode
  split_ifs with h1 h2 h3 h4 h5
  · obtain ⟨hi0, hjx⟩ := h1
    subst hi0
    have d0 := hfg 0 j (by omega) hj2
    have d1 := hfg 1 j (by omega) hj2
    unfold sqBottomV
    linarith [mul_nonneg hc0 (sub_nonneg.mpr d0), mul_nonneg hrz (sub_nonneg.mpr d1)]
  · obtain ⟨hi1, hi2, hj0⟩ := h2
    subst hj0
    have d0 := hfg i 0 hi (by omega)
    have d1 := hfg i 1 hi (by omega)
    unfold sqLeftV
    linarith [mul_nonneg hc1 (sub_nonneg.mpr d0), mul_nonneg hrx (sub_nonneg.mpr d1)]
  · obtain ⟨hi1, hi2, hjr⟩ := h3
    subst hjr
    have d0 := hfg i (p.nx - 1) hi (by omega)
    have d1 := hfg i (p.nx - 2) hi (by omega)
    unfold sqRightV
    linarith [mul_nonneg hc1 (sub_nonneg.mpr d0), mul_nonneg hrx (sub_nonneg.mpr d1)]
  · obtain ⟨hi1, hi2, hj1, hjx⟩ := h4
    have dc := hfg i j hi hj2
    have dE := hfg i (j + 1) hi (by omega)
    have dW := hfg i (j - 1) hi (by omega)
    have dN := hfg (i + 1) j (by omega) hj2
    have dS := hfg (i - 1) j (by omega) hj2
    unfold sqIntV
    linarith [mul_nonneg hc3 (sub_nonneg.mpr dc), mul_nonneg hrx (sub_nonneg.mpr dE),
      mul_nonneg hrx (sub_nonneg.mpr dW), mul_nonneg hrz (sub_nonneg.mpr dN),
      mul_nonneg hrz (sub_nonneg.mpr dS)]
  · obtain ⟨hitop, hj1, hjx⟩ := h5
    have d0 := hfg (p.nz - 1) j (by omega) hj2
    have d1 := hfg (p.nz - 2) j (by omega) hj2
    unfold sqTopV
    linarith [mul_nonneg hc2 (sub_nonneg.mpr d0), mul_nonneg hrz (sub_nonneg.mpr d1)]
  · exact hfg i j hi hj2

theorem sqNode_box (p : SqP) (hs : SqStable p) (f : ℕ → ℕ → ℚ)
    (hf : ∀ a b, a < p.nz → b < p.nx → p.Tc ≤ f a b ∧ f a b ≤ p.Ti) :
    ∀ i j, i < p.nz → j < p.nx →
      p.Tc ≤ sqNode p f i j ∧ sqNode p f i j ≤ p.Ti := by
  obtain ⟨hrx, hrz, hHj, hHnx, hHnz, hTT, hbz, hbx, htz, hint⟩ := hs
  have h3z := p.three_le_nz_sq
  have h3x := p.three_le_nx
  have hc0 : 0 ≤ 1 - 2 * p.rz - 2 * p.rz * p.Hj := by linarith
  have hc1 : 0 ≤ 1 - 2 * p.rx - 2 * p.rx * p.Hnx := by linarith
  have hc2 : 0 ≤ 1 - 2 * p.rz - 2 * p.rz * p.Hnz := by linarith
  have hc3 : 0 ≤ 1 - 2 * p.rx - 2 * p.rz := by linarith
  intro i j hi hj2
  unfold sqNode
  split_ifs with h1 h2 h3 h4 h5
  · obtain ⟨hi0, hjx⟩ := h1
    subst hi0
    obtain ⟨l0, u0⟩ := hf 0 j (by omega) hj2
    obtain ⟨l1, u1⟩ := hf 1 j (by omega) hj2
    unfold sqBottomV
    constructor
    · linarith [mul_nonneg hc0 (sub_nonneg.mpr l0), mul_nonneg hrz (sub_nonneg.mpr l1)]
    · linarith [mul_nonneg hc0 (sub_nonneg.mpr u0), mul_nonneg hrz (sub_nonneg.mpr u1),
        mul_nonneg (mul_nonneg hrz hHj) (sub_nonneg.mpr u0),
        mul_nonneg (mul_nonneg hrz hHj) (sub_nonneg.mpr l0)]
  · obtain ⟨hi1, hi2, hj0⟩ := h2
    subst hj0
    obtain ⟨l0, u0⟩ := hf i 0 hi (by omega)
    obtain ⟨l1, u1⟩ := hf i 1 hi (by omega)
    unfold sqLeftV
    constructor
    · linarith [mul_nonneg hc1 (sub_nonneg.mpr l0), mul_nonneg hrx (sub_nonneg.mpr l1)]
    · linarith [mul_nonneg hc1 (sub_nonneg.mpr u0), mul_nonneg hrx (sub_nonneg.mpr u1),
        mul_nonneg (mul_nonneg hrx hHnx) (sub_nonneg.mpr u0),
        mul_nonneg (mul_nonneg hrx hHnx) (sub_nonneg.mpr l0)]
  · obtain ⟨hi1, hi2, hjr⟩ := h3
    obtain ⟨l0, u0⟩ := hf i (p.nx - 1) hi (by omega)
    obtain ⟨l1, u1⟩ := hf i (p.nx - 2) hi (by omega)
    unfold sqRightV
    constructor
    · linarith [mul_nonneg hc1 (sub_nonneg.mpr l0), mul_nonneg hrx (sub_nonneg.mpr l1)]
    · linarith [mul_nonneg hc1 (sub_nonneg.mpr u0), mul_nonneg hrx (sub_nonneg.mpr u1),
        mul_nonneg (mul_nonneg hrx hHnx) (sub_nonneg.mpr u0),
        mul_nonneg (mul_nonneg hrx hHnx) (sub_nonneg.mpr l0)]
  · obtain ⟨hi1, hi2, hj1, hjx⟩ := h4
    obtain ⟨lc, uc⟩ := hf i j hi hj2
    obtain ⟨lE, uE⟩ := hf i (j + 1) hi (by omega)
    obtain ⟨lW, uW⟩ := hf i (j - 1) hi (by omega)
    obtain ⟨lN, uN⟩ := hf (i + 1) j (by omega) hj2
    obtain ⟨lS, uS⟩ := hf (i - 1) j (by omega) hj2
    unfold sqIntV
    constructor
    · linarith [mul_nonneg hc3 (sub_nonneg.mpr lc), mul_nonneg hrx (sub_nonneg.mpr lE),
        mul_nonneg hrx (sub_nonneg.mpr lW), mul_nonneg hrz (sub_nonneg.mpr lN),
        mul_nonneg hrz (sub_nonneg.mpr lS)]
    · linarith [mul_nonneg hc3 (sub_nonneg.mpr uc), mul_nonneg hrx (sub_nonneg.mpr uE),
        mul_nonneg hrx (sub_nonneg.mpr uW), mul_nonneg hrz (sub_nonneg.mpr uN),
        mul_nonneg hrz (sub_nonneg.mpr uS)]
  · obtain ⟨hitop, hj1, hjx⟩ := h5
    obtain ⟨l0, u0⟩ := hf (p.nz - 1) j (by omega) hj2
    obtain ⟨l1, u1⟩ := hf (p.nz - 2) j (by omega) hj2
    unfold sqTopV
    constructor
    · linarith [mul_nonneg hc2 (sub_nonneg.mpr l0), mul_nonneg hrz (sub_nonneg.mpr l1)]
    · linarith [mul_nonneg hc2 (sub_nonneg.mpr u0), mul_nonneg hrz (sub_nonneg.mpr u1),
        mul_nonneg (mul_nonneg hrz hHnz) (sub_nonneg.mpr u0),
        mul_nonneg (mul_nonneg hrz hHnz) (sub_nonneg.mpr l0)]
  · exact hf i j hi hj2

theorem sqNode_init_le (p : SqP) (hs : SqStable p) :
    ∀ i j, i < p.nz → j < p.nx →
      sqNode p (val2 (sqInit p)) i j ≤ val2 (sqInit p) i j := by
  obtain ⟨hrx, hrz, hHj, hHnx, hHnz, hTT, hbz, hbx, htz, hint⟩ := hs
  have h3z := p.three_le_nz_sq
  have h3x := p.three_le_nx
  intro i j hi hj2
  unfold sqNode
  split_ifs with h1 h2 h3 h4 h5
  · obtain ⟨hi0, hjx⟩ := h1
    subst hi0
    unfold sqBottomV
    rw [sqInit_val p 0 j (by omega) hj2, sqInit_val p 1 j (by omega) hj2]
    linarith [mul_nonneg (mul_nonneg hrz hHj) (sub_nonneg.mpr hTT)]
  · obtain ⟨hi1, hi2, hj0⟩ := h2
    subst hj0
    unfold sqLeftV
    rw [sqInit_val p i 0 hi (by omega), sqInit_val p i 1 hi (by omega)]
    linarith [mul_nonneg (mul_nonneg hrx hHnx) (sub_nonneg.mpr hTT)]
  · obtain ⟨hi1, hi2, hjr⟩ := h3
    subst hjr
    unfold sqRightV
    rw [sqInit_val p i (p.nx - 1) hi (by omega), sqInit_val p i (p.nx - 2) hi (by omega)]
    linarith [mul_nonneg (mul_nonneg hrx hHnx) (sub_nonneg.mpr hTT)]
  · obtain ⟨hi1, hi2, hj1, hjx⟩ := h4
    unfold sqIntV
    rw [sqInit_val p i j hi hj2, sqInit_val p i (j + 1) hi (by omega),
      sqInit_val p i (j - 1) hi (by omega), sqInit_val p (i + 1) j (by omega) hj2,
      sqInit_val p (i - 1) j (by omega) hj2]
    linarith
  · obtain ⟨hitop, hj1, hjx⟩ := h5
    unfold sqTopV
    rw [sqInit_val p (p.nz - 1) j (by omega) hj2,
      sqInit_val p (p.nz - 2) j (by omega) hj2]
    subst hitop
    rw [sqInit_val p (p.nz - 1) j (by omega) hj2]
    linarith [mul_nonneg (mul_nonneg hrz hHnz) (sub_nonneg.mpr hTT)]
  · exact le_refl _
theorem histUpd_all_chain {α : Type} [LinearOrderedField α] (t2 c2 cOld : α)
    (hist : List (α × α)) (hc : c2 ≤ cOld) (hall : ∀ x ∈ hist, cOld ≤ x.2)
    (hch : List.Chain' (fun a b => a.2 ≤ b.2) hist) :
    (∀ x ∈ histUpd t2 c2 hist, c2 ≤ x.2) ∧
      List.Chain' (fun a b => a.2 ≤ b.2) (histUpd t2 c2 hist) := by
  match hist with
  | [] => simp [histUpd]
  | h :: t =>
    simp only [histUpd]
    split_ifs with hcond
    · refine ⟨?_, ?_⟩
      · intro x hx
        rcases List.mem_cons.mp hx with hx1 | hx2
        · rw [hx1]
        · exact le_trans hc (hall x hx2)
      · rw [List.chain'_cons]
        exact ⟨le_trans hc (hall h (List.mem_cons_self h t)), hch⟩
    · exact ⟨fun x hx => le_trans hc (hall x hx), hch⟩

theorem histUpd_gap {α : Type} [LinearOrderedField α] (t2 c2 : α)
    (hist : List (α × α))
    (hch : List.Chain' (fun a b => b.1 + 0.5 ≤ a.1) hist) :
    List.Chain' (fun a b => b.1 + 0.5 ≤ a.1) (histUpd t2 c2 hist) := by
  match hist with
  | [] => simp [histUpd]
  | h :: t =>
    simp only [histUpd]
    split_ifs with hcond
    · rw [List.chain'_cons]
      exact ⟨by linarith, hch⟩
    · exact hch

theorem histUpd_suffix {α : Type} [LinearOrderedField α] (t2 c2 : α)
    (hist : List (α × α)) : hist <:+ histUpd t2 c2 hist := by
  match hist with
  | [] => exact List.nil_suffix
  | h :: t =>
    simp only [histUpd]
    split_ifs with hcond
    · exact List.suffix_cons _ _
    · exact List.suffix_refl _

theorem sqStepL_mono (p : SqP) (hs : SqStable p) (L M : List (List ℚ))
    (h : sqLE p L M) : sqLE p (sqStepL p L) (sqStepL p M) := by
  intro i j hi hj2
  rw [sqStepL_val p L i j hi hj2, sqStepL_val p M i j hi hj2]
  exact sqNode_mono p hs _ _ h i j hi hj2

theorem sqStepL_box (p : SqP) (hs : SqStable p) (L : List (List ℚ))
    (h : sqBox p L) : sqBox p (sqStepL p L) := by
  intro i j hi hj2
  rw [sqStepL_val p L i j hi hj2]
  exact sqNode_box p hs _ h i j hi hj2

theorem sqInit_box (p : SqP) (hTT : p.Tc ≤ p.Ti) : sqBox p (sqInit p) := by
  intro i j hi hj2
  rw [sqInit_val p i j hi hj2]
  exact ⟨hTT, le_refl _⟩

theorem sqRun_succ (p : SqP) (n : ℕ) : sqRun p (n + 1) = sqNext p (sqRun p n) := rfl

theorem sqRun_stepdec (p : SqP) (hs : SqStable p) :
    ∀ n, sqLE p (sqStepL p (sqRun p n).T) (sqRun p n).T := by
  intro n
  induction n with
  | zero =>
    intro i j hi hj2
    rw [sqStepL_val p _ i j hi hj2]
    exact sqNode_init_le p hs i j hi hj2
  | succ m ih =>
    rw [sqRun_succ]
    unfold sqNext
    split_ifs with hg
    · simp only [sqBody]
      exact sqStepL_mono p hs _ _ ih
    · exact ih

theorem sqRun_T_dec (p : SqP) (hs : SqStable p) (n : ℕ) :
    sqLE p (sqRun p (n + 1)).T (sqRun p n).T := by
  rw [sqRun_succ]
  unfold sqNext
  split_ifs with hg
  · simp only [sqBody]
    exact sqRun_stepdec p hs n
  · exact fun i j _ _ => le_refl _

theorem sqRun_box (p : SqP) (hs : SqStable p) : ∀ n, sqBox p (sqRun p n).T := by
  intro n
  induction n with
  | zero => exact sqInit_box p hs.2.2.2.2.2.1
  | succ m ih =>
    rw [sqRun_succ]
    unfold sqNext
    split_ifs with hg
    · simp only [sqBody]
      exact sqStepL_box p hs _ ih
    · exact ih

theorem sqCenter_in_range (p : SqP) :
    min (p.nz / 2) (p.nz - 1) < p.nz ∧ min (p.nx / 2) (p.nx - 1) < p.nx := by
  have h3z := p.three_le_nz_sq
  have h3x := p.three_le_nx
  omega

theorem sqCenter_dec (p : SqP) (hs : SqStable p) (n : ℕ) :
    sqCenter p (sqRun p (n + 1)).T ≤ sqCenter p (sqRun p n).T := by
  obtain ⟨hz, hx⟩ := sqCenter_in_range p
  exact sqRun_T_dec p hs n _ _ hz hx

theorem sqRun_hist_inv (p : SqP) (hs : SqStable p) :
    ∀ n, (∀ x ∈ (sqRun p n).hist, sqCenter p (sqRun p n).T ≤ x.2) ∧
      List.Chain' (fun a b => a.2 ≤ b.2) (sqRun p n).hist := by
  intro n
  induction n with
  | zero => simp [sqRun]
  | succ m ih =>
    obtain ⟨hall, hch⟩ := ih
    rw [sqRun_succ]
    unfold sqNext
    split_ifs with hg
    · simp only [sqBody]
      have hc : sqCenter p (sqStepL p (sqRun p m).T) ≤ sqCenter p (sqRun p m).T := by
        obtain ⟨hz, hx⟩ := sqCenter_in_range p
        exact sqRun_stepdec p hs m _ _ hz hx
      exact histUpd_all_chain _ _ _ _ hc hall hch
    · exact ⟨hall, hch⟩

theorem sqRun_hist_gap (p : SqP) :
    ∀ n, List.Chain' (fun a b => b.1 + 0.5 ≤ a.1) (sqRun p n).hist := by
  intro n
  induction n with
  | zero => simp [sqRun]
  | succ m ih =>
    rw [sqRun_succ]
    unfold sqNext
    split_ifs with hg
    · simp only [sqBody]
      exact histUpd_gap _ _ _ ih
    · exact ih

theorem sqRun_hist_suffix (p : SqP) (n : ℕ) :
    (sqRun p n).hist <:+ (sqRun p (n + 1)).hist := by
  rw [sqRun_succ]
  unfold sqNext
  split_ifs with hg
  · simp only [sqBody]
    exact histUpd_suffix _ _ _
  · exact List.suffix_refl _

theorem sqRun_first_sample (p : SqP) (h0 : 0 < p.tEnd) :
    (sqRun p 1).hist = [(p.dt, sqCenter p (sqStepL p (sqInit p)))] := by
  rw [sqRun_succ]
  unfold sqNext
  rw [if_pos (by simpa [sqRun] using h0)]
  simp [sqRun, sqBody, histUpd]

theorem sqRun_hist_ne (p : SqP) (h0 : 0 < p.tEnd) :
    ∀ n, 1 ≤ n → (sqRun p n).hist ≠ [] := by
  intro n
  induction n with
  | zero => omega
  | succ m ih =>
    intro _
    by_cases hm : 1 ≤ m
    · have h1 := ih hm
      obtain ⟨pre, hpre⟩ := sqRun_hist_suffix p m
      intro hnil
      rw [hnil] at hpre
      exact h1 (List.append_eq_nil.mp hpre).2
    · have hm0 : m = 0 := by omega
      subst hm0
      rw [sqRun_first_sample p h0]
      simp
theorem combo5_mono {α : Type} [LinearOrderedField α]
    (w0 w1 w2 w3 w4 a0 a1 a2 a3 a4 b0 b1 b2 b3 b4 : α)
    (hw0 : 0 ≤ w0) (hw1 : 0 ≤ w1) (hw2 : 0 ≤ w2) (hw3 : 0 ≤ w3) (hw4 : 0 ≤ w4)
    (h0 : a0 ≤ b0) (h1 : a1 ≤ b1) (h2 : a2 ≤ b2) (h3 : a3 ≤ b3) (h4 : a4 ≤ b4) :
    w0 * a0 + w1 * a1 + w2 * a2 + w3 * a3 + w4 * a4 ≤
      w0 * b0 + w1 * b1 + w2 * b2 + w3 * b3 + w4 * b4 := by
  have p0 := mul_le_mul_of_nonneg_left h0 hw0
  have p1 := mul_le_mul_of_nonneg_left h1 hw1
  have p2 := mul_le_mul_of_nonneg_left h2 hw2
  have p3 := mul_le_mul_of_nonneg_left h3 hw3
  have p4 := mul_le_mul_of_nonneg_left h4 hw4
  linarith

theorem combo5_box {α : Type} [LinearOrderedField α]
    (w0 w1 w2 w3 w4 a0 a1 a2 a3 a4 lo hi : α)
    (hw0 : 0 ≤ w0) (hw1 : 0 ≤ w1) (hw2 : 0 ≤ w2) (hw3 : 0 ≤ w3) (hw4 : 0 ≤ w4)
    (hsum : w0 + w1 + w2 + w3 + w4 = 1)
    (h0 : lo ≤ a0 ∧ a0 ≤ hi) (h1 : lo ≤ a1 ∧ a1 ≤ hi) (h2 : lo ≤ a2 ∧ a2 ≤ hi)
    (h3 : lo ≤ a3 ∧ a3 ≤ hi) (h4 : lo ≤ a4 ∧ a4 ≤ hi) :
    lo ≤ w0 * a0 + w1 * a1 + w2 * a2 + w3 * a3 + w4 * a4 ∧
      w0 * a0 + w1 * a1 + w2 * a2 + w3 * a3 + w4 * a4 ≤ hi := by
  have hlo : w0 * lo + w1 * lo + w2 * lo + w3 * lo + w4 * lo = lo := by
    rw [show w0 * lo + w1 * lo + w2 * lo + w3 * lo + w4 * lo =
      (w0 + w1 + w2 + w3 + w4) * lo from by ring, hsum, one_mul]
  have hhi : w0 * hi + w1 * hi + w2 * hi + w3 * hi + w4 * hi = hi := by
    rw [show w0 * hi + w1 * hi + w2 * hi + w3 * hi + w4 * hi =
      (w0 + w1 + w2 + w3 + w4) * hi from by ring, hsum, one_mul]
  constructor
  · have p0 := mul_le_mul_of_nonneg_left h0.1 hw0
    have p1 := mul_le_mul_of_nonneg_left h1.1 hw1
    have p2 := mul_le_mul_of_nonneg_left h2.1 hw2
    have p3 := mul_le_mul_of_nonneg_left h3.1 hw3
    have p4 := mul_le_mul_of_nonneg_left h4.1 hw4
    linarith
  · have p0 := mul_le_mul_of_nonneg_left h0.2 hw0
    have p1 := mul_le_mul_of_nonneg_left h1.2 hw1
    have p2 := mul_le_mul_of_nonneg_left h2.2 hw2
    have p3 := mul_le_mul_of_nonneg_left h3.2 hw3
    have p4 := mul_le_mul_of_nonneg_left h4.2 hw4
    linarith

/-- In-range pointwise order between two cylindrical-solver grids. -/
def cylLE (p : CylP) (L M : List (List ℚ)) : Prop :=
  ∀ i j, i < p.nr → j < p.nz → val2 L i j ≤ val2 M i j

/-- In-range box bounds for a cylindrical-solver grid. -/
def cylBox (p : CylP) (L : List (List ℚ)) : Prop :=
  ∀ i j, i < p.nr → j < p.nz → p.Tc ≤ val2 L i j ∧ val2 L i j ≤ p.Ti

theorem cylBotV_combo (p : CylP) (f : ℕ → ℕ → ℚ) (i : ℕ) :
    cylBotV p f i =
      (1 - p.alpha * p.dt / p.dz ^ 2 - p.alpha * p.dt * p.hj / (p.k * p.dz)) * f i 0 +
        (p.alpha * p.dt / p.dz ^ 2) * f i 1 +
        (p.alpha * p.dt * p.hj / (p.k * p.dz)) * p.Tc + 0 * p.Tc + 0 * p.Tc := by
  unfold cylBotV; ring

theorem cylTopV_combo (p : CylP) (f : ℕ → ℕ → ℚ) (i : ℕ) :
    cylTopV p f i =
      (1 - p.alpha * p.dt / p.dz ^ 2 - p.alpha * p.dt * p.hn / (p.k * p.dz)) *
          f i (p.nz - 1) +
        (p.alpha * p.dt / p.dz ^ 2) * f i (p.nz - 2) +
        (p.alpha * p.dt * p.hn / (p.k * p.dz)) * p.Tc + 0 * p.Tc + 0 * p.Tc := by
  unfold cylTopV; ring

theorem cylCLV_combo (p : CylP) (f : ℕ → ℕ → ℚ) (j : ℕ) :
    cylCLV p f j =
      (1 - 2 * (p.alpha * p.dt / p.dr ^ 2) - 2 * (p.alpha * p.dt / p.dz ^ 2)) * f 0 j +
        (2 * (p.alpha * p.dt / p.dr ^ 2)) * f 1 j +
        (p.alpha * p.dt / p.dz ^ 2) * f 0 (j + 1) +
        (p.alpha * p.dt / p.dz ^ 2) * f 0 (j - 1) + 0 * p.Tc := by
  unfold cylCLV; ring

theorem cylIntV_combo (p : CylP) (f : ℕ → ℕ → ℚ) (i j : ℕ) :
    cylIntV p f i j =
      (1 - 2 * (p.alpha * p.dt / p.dr ^ 2) - 2 * (p.alpha * p.dt / p.dz ^ 2)) * f i j +
        (p.alpha * p.dt / p.dr ^ 2 + p.alpha * p.dt / (2 * (i : ℚ) * p.dr ^ 2)) *
          f (i + 1) j +
        (p.alpha * p.dt / p.dr ^ 2 - p.alpha * p.dt / (2 * (i : ℚ) * p.dr ^ 2)) *
          f (i - 1) j +
        (p.alpha * p.dt / p.dz ^ 2) * f i (j + 1) +
        (p.alpha * p.dt / p.dz ^ 2) * f i (j - 1) := by
  unfold cylIntV; ring

theorem cylOutV_combo (p : CylP) (f : ℕ → ℕ → ℚ) (j : ℕ) :
    cylOutV p f j =
      (1 - p.alpha * p.dt / p.dr ^ 2 + p.alpha * p.dt / (p.radius * p.dr) -
          p.alpha * p.dt * p.hn / (p.k * p.dr)) * f (p.nr - 1) j +
        (p.alpha * p.dt / p.dr ^ 2 - p.alpha * p.dt / (p.radius * p.dr)) *
          f (p.nr - 2) j +
        (p.alpha * p.dt * p.hn / (p.k * p.dr)) * p.Tc + 0 * p.Tc + 0 * p.Tc := by
  unfold cylOutV; ring

theorem cylInt_weight_facts (p : CylP) (ha : 0 ≤ p.alpha * p.dt)
    (hA : 0 ≤ p.alpha * p.dt / p.dr ^ 2) (i : ℕ) (hi1 : 1 ≤ i) :
    0 ≤ p.alpha * p.dt / (2 * (i : ℚ) * p.dr ^ 2) ∧
      p.alpha * p.dt / (2 * (i : ℚ) * p.dr ^ 2) ≤ p.alpha * p.dt / p.dr ^ 2 := by
  have hia : (1 : ℚ) ≤ (i : ℚ) := by exact_mod_cast hi1
  constructor
  · apply div_nonneg ha
    positivity
  · rw [show p.alpha * p.dt / (2 * (i : ℚ) * p.dr ^ 2) =
      (p.alpha * p.dt / p.dr ^ 2) / (2 * (i : ℚ)) from by ring]
    exact div_le_self hA (by linarith)

theorem cylNode_mono (p : CylP) (hs : CylStable p) (f g : ℕ → ℕ → ℚ)
    (hfg : ∀ a b, a < p.nr → b < p.nz → f a b ≤ g a b) :
    ∀ i j, i < p.nr → j < p.nz → cylNode p f i j ≤ cylNode p g i j := by
  obtain ⟨ha, hA, hC, hDj, hDn, hDr, hE, hEA, hTT, hcc, hbj, hbn, hor⟩ := hs
  have h3r := p.three_le_nr
  have h3z := p.three_le_nz_cyl
  intro i j hi hj2
  unfold cylNode
  split_ifs with h1 h2 h3 h4 h5
  · obtain ⟨hj0, hir⟩ := h1
    subst hj0
    rw [cylBotV_combo p f i, cylBotV_combo p g i]
    exact combo5_mono _ _ _ _ _ _ _ _ _ _ _ _ _ _ _ (by linarith) hC hDj le_rfl le_rfl
      (hfg i 0 hi (by omega)) (hfg i 1 hi (by omega)) le_rfl le_rfl le_rfl
  · obtain ⟨hjz, hir⟩ := h2
    rw [cylTopV_combo p f i, cylTopV_combo p g i]
    exact combo5_mono _ _ _ _ _ _ _ _ _ _ _ _ _ _ _ (by linarith) hC hDn le_rfl le_rfl
      (hfg i (p.nz - 1) hi (by omega)) (hfg i (p.nz - 2) hi (by omega))
      le_rfl le_rfl le_rfl
  · obtain ⟨hi0, hj1, hjz⟩ := h3
    subst hi0
    rw [cylCLV_combo p f j, cylCLV_combo p g j]
    exact combo5_mono _ _ _ _ _ _ _ _ _ _ _ _ _ _ _ (by linarith) (by linarith) hC hC
      le_rfl (hfg 0 j (by omega) hj2) (hfg 1 j (by omega) hj2)
      (hfg 0 (j + 1) (by omega) (by omega)) (hfg 0 (j - 1) (by omega) (by omega)) le_rfl
  · obtain ⟨hi1, hi2, hj1, hjz⟩ := h4
    obtain ⟨hB, hBA⟩ := cylInt_weight_facts p ha hA i hi1
    rw [cylIntV_combo p f i j, cylIntV_combo p g i j]
    exact combo5_mono _ _ _ _ _ _ _ _ _ _ _ _ _ _ _ (by linarith) (by linarith)
      (by linarith) hC hC (hfg i j hi hj2) (hfg (i + 1) j (by omega) hj2)
      (hfg (i - 1) j (by omega) hj2) (hfg i (j + 1) hi (by omega))
      (hfg i (j - 1) hi (by omega))
  · obtain ⟨hio, hj1, hjz⟩ := h5
    rw [cylOutV_combo p f j, cylOutV_combo p g j]
    exact combo5_mono _ _ _ _ _ _ _ _ _ _ _ _ _ _ _ (by linarith) (by linarith) hDr
      le_rfl le_rfl (hfg (p.nr - 1) j (by omega) hj2)
      (hfg (p.nr - 2) j (by omega) hj2) le_rfl le_rfl le_rfl
  · exact hfg i j hi hj2
theorem cylNode_box (p : CylP) (hs : CylStable p) (f : ℕ → ℕ → ℚ)
    (hf : ∀ a b, a < p.nr → b < p.nz → p.Tc ≤ f a b ∧ f a b ≤ p.Ti) :
    ∀ i j, i < p.nr → j < p.nz →
      p.Tc ≤ cylNode p f i j ∧ cylNode p f i j ≤ p.Ti := by
  obtain ⟨ha, hA, hC, hDj, hDn, hDr, hE, hEA, hTT, hcc, hbj, hbn, hor⟩ := hs
  have h3r := p.three_le_nr
  have h3z := p.three_le_nz_cyl
  have hTc : p.Tc ≤ p.Tc ∧ p.Tc ≤ p.Ti := ⟨le_rfl, hTT⟩
  intro i j hi hj2
  unfold cylNode
  split_ifs with h1 h2 h3 h4 h5
  · obtain ⟨hj0, hir⟩ := h1
    subst hj0
    rw [cylBotV_combo p f i]
    exact combo5_box _ _ _ _ _ _ _ _ _ _ _ _ (by linarith) hC hDj le_rfl le_rfl
      (by ring) (hf i 0 hi (by omega)) (hf i 1 hi (by omega)) hTc hTc hTc
  · obtain ⟨hjz, hir⟩ := h2
    rw [cylTopV_combo p f i]
    exact combo5_box _ _ _ _ _ _ _ _ _ _ _ _ (by linarith) hC hDn le_rfl le_rfl
      (by ring) (hf i (p.nz - 1) hi (by omega)) (hf i (p.nz - 2) hi (by omega))
      hTc hTc hTc
  · obtain ⟨hi0, hj1, hjz⟩ := h3
    subst hi0
    rw [cylCLV_combo p f j]
    exact combo5_box _ _ _ _ _ _ _ _ _ _ _ _ (by linarith) (by linarith) hC hC le_rfl
      (by ring) (hf 0 j (by omega) hj2) (hf 1 j (by omega) hj2)
      (hf 0 (j + 1) (by omega) (by omega)) (hf 0 (j - 1) (by omega) (by omega)) hTc
  · obtain ⟨hi1, hi2, hj1, hjz⟩ := h4
    obtain ⟨hB, hBA⟩ := cylInt_weight_facts p ha hA i hi1
    rw [cylIntV_combo p f i j]
    exact combo5_box _ _ _ _ _ _ _ _ _ _ _ _ (by linarith) (by linarith) (by linarith)
      hC hC (by ring) (hf i j hi hj2) (hf (i + 1) j (by omega) hj2)
      (hf (i - 1) j (by omega) hj2) (hf i (j + 1) hi (by omega))
      (hf i (j - 1) hi (by omega))
  · obtain ⟨hio, hj1, hjz⟩ := h5
    rw [cylOutV_combo p f j]
    exact combo5_box _ _ _ _ _ _ _ _ _ _ _ _ (by linarith) (by linarith) hDr le_rfl
      le_rfl (by ring) (hf (p.nr - 1) j (by omega) hj2)
      (hf (p.nr - 2) j (by omega) hj2) hTc hTc hTc
  · exact hf i j hi hj2

theorem cylNode_init_le (p : CylP) (hs : CylStable p) :
    ∀ i j, i < p.nr → j < p.nz →
      cylNode p (val2 (cylInit p)) i j ≤ val2 (cylInit p) i j := by
  obtain ⟨ha, hA, hC, hDj, hDn, hDr, hE, hEA, hTT, hcc, hbj, hbn, hor⟩ := hs
  have h3r := p.three_le_nr
  have h3z := p.three_le_nz_cyl
  intro i j hi hj2
  unfold cylNode
  split_ifs with h1 h2 h3 h4 h5
  · obtain ⟨hj0, hir⟩ := h1
    subst hj0
    rw [cylBotV_combo p _ i, cylInit_val p i 0 hi (by omega),
      cylInit_val p i 1 hi (by omega)]
    linarith [mul_nonneg hDj (sub_nonneg.mpr hTT)]
  · obtain ⟨hjz, hir⟩ := h2
    subst hjz
    rw [cylTopV_combo p _ i, cylInit_val p i (p.nz - 1) hi (by omega),
      cylInit_val p i (p.nz - 2) hi (by omega)]
    linarith [mul_nonneg hDn (sub_nonneg.mpr hTT)]
  · obtain ⟨hi0, hj1, hjz⟩ := h3
    subst hi0
    rw [cylCLV_combo p _ j, cylInit_val p 0 j (by omega) hj2,
      cylInit_val p 1 j (by omega) hj2, cylInit_val p 0 (j + 1) (by omega) (by omega),
      cylInit_val p 0 (j - 1) (by omega) (by omega)]
    linarith
  · obtain ⟨hi1, hi2, hj1, hjz⟩ := h4
    rw [cylIntV_combo p _ i j, cylInit_val p i j hi hj2,
      cylInit_val p (i + 1) j (by omega) hj2, cylInit_val p (i - 1) j (by omega) hj2,
      cylInit_val p i (j + 1) hi (by omega), cylInit_val p i (j - 1) hi (by omega)]
    linarith
  · obtain ⟨hio, hj1, hjz⟩ := h5
    subst hio
    rw [cylOutV_combo p _ j, cylInit_val p (p.nr - 1) j (by omega) hj2,
      cylInit_val p (p.nr - 2) j (by omega) hj2]
    linarith [mul_nonneg hDr (sub_nonneg.mpr hTT)]
  · exact le_refl _

theorem cylStepL_mono (p : CylP) (hs : CylStable p) (L M : List (List ℚ))
    (h : cylLE p L M) : cylLE p (cylStepL p L) (cylStepL p M) := by
  intro i j hi hj2
  rw [cylStepL_val p L i j hi hj2, cylStepL_val p M i j hi hj2]
  exact cylNode_mono p hs _ _ h i j hi hj2

theorem cylStepL_box (p : CylP) (hs : CylStable p) (L : List (List ℚ))
    (h : cylBox p L) : cylBox p (cylStepL p L) := by
  intro i j hi hj2
  rw [cylStepL_val p L i j hi hj2]
  exact cylNode_box p hs _ h i j hi hj2

theorem cylInit_box (p : CylP) (hTT : p.Tc ≤ p.Ti) : cylBox p (cylInit p) := by
  intro i j hi hj2
  rw [cylInit_val p i j hi hj2]
  exact ⟨hTT, le_refl _⟩

theorem cylRun_succ (p : CylP) (n : ℕ) :
    cylRun p (n + 1) = cylNext p (cylRun p n) := rfl

theorem cylRun_stepdec (p : CylP) (hs : CylStable p) :
    ∀ n, cylLE p (cylStepL p (cylRun p n).T) (cylRun p n).T := by
  intro n
  induction n with
  | zero =>
    intro i j hi hj2
    rw [cylStepL_val p _ i j hi hj2]
    exact cylNode_init_le p hs i j hi hj2
  | succ m ih =>
    rw [cylRun_succ]
    unfold cylNext
    split_ifs with hg
    · simp only [cylBody]
      exact cylStepL_mono p hs _ _ ih
    · exact ih

theorem cylRun_T_dec (p : CylP) (hs : CylStable p) (n : ℕ) :
    cylLE p (cylRun p (n + 1)).T (cylRun p n).T := by
  rw [cylRun_succ]
  unfold cylNext
  split_ifs with hg
  · simp only [cylBody]
    exact cylRun_stepdec p hs n
  · exact fun i j _ _ => le_refl _

theorem cylRun_box (p : CylP) (hs : CylStable p) : ∀ n, cylBox p (cylRun p n).T := by
  intro n
  induction n with
  | zero => exact cylInit_box p hs.2.2.2.2.2.2.2.2.1
  | succ m ih =>
    rw [cylRun_succ]
    unfold cylNext
    split_ifs with hg
    · simp only [cylBody]
      exact cylStepL_box p hs _ ih
    · exact ih

theorem cylCenter_in_range (p : CylP) :
    min (p.nr / 2) (p.nr - 1) < p.nr ∧ min (p.nz / 2) (p.nz - 1) < p.nz := by
  have h3r := p.three_le_nr
  have h3z := p.three_le_nz_cyl
  omega

theorem cylRun_hist_inv (p : CylP) (hs : CylStable p) :
    ∀ n, (∀ x ∈ (cylRun p n).hist, cylCenter p (cylRun p n).T ≤ x.2) ∧
      List.Chain' (fun a b => a.2 ≤ b.2) (cylRun p n).hist := by
  intro n
  induction n with
  | zero => simp [cylRun]
  | succ m ih =>
    obtain ⟨hall, hch⟩ := ih
    rw [cylRun_succ]
    unfold cylNext
    split_ifs with hg
    · simp only [cylBody]
      have hc : cylCenter p (cylStepL p (cylRun p m).T) ≤ cylCenter p (cylRun p m).T := by
        obtain ⟨hr, hz⟩ := cylCenter_in_range p
        exact cylRun_stepdec p hs m _ _ hr hz
      exact histUpd_all_chain _ _ _ _ hc hall hch
    · exact ⟨hall, hch⟩

theorem cylRun_hist_gap (p : CylP) :
    ∀ n, List.Chain' (fun a b => b.1 + 0.5 ≤ a.1) (cylRun p n).hist := by
  intro n
  induction n with
  | zero => simp [cylRun]
  | succ m ih =>
    rw [cylRun_succ]
    unfold cylNext
    split_ifs with hg
    · simp only [cylBody]
      exact histUpd_gap _ _ _ ih
    · exact ih

theorem cylRun_hist_suffix (p : CylP) (n : ℕ) :
    (cylRun p n).hist <:+ (cylRun p (n + 1)).hist := by
  rw [cylRun_succ]
  unfold cylNext
  split_ifs with hg
  · simp only [cylBody]
    exact histUpd_suffix _ _ _
  · exact List.suffix_refl _

theorem cylRun_first_sample (p : CylP) (h0 : 0 < p.tEnd) :
    (cylRun p 1).hist = [(p.dt, cylCenter p (cylStepL p (cylInit p)))] := by
  have hg : (cylRun p 0).t < p.tEnd ∧ (cylRun p 0).done = false := by
    constructor
    · simpa [cylRun] using h0
    · rfl
  rw [cylRun_succ]
  unfold cylNext
  rw [if_pos hg]
  simp [cylRun, cylBody, histUpd]

theorem cylRun_hist_ne (p : CylP) (h0 : 0 < p.tEnd) :
    ∀ n, 1 ≤ n → (cylRun p n).hist ≠ [] := by
  intro n
  induction n with
  | zero => omega
  | succ m ih =>
    intro _
    by_cases hm : 1 ≤ m
    · have h1 := ih hm
      obtain ⟨pre, hpre⟩ := cylRun_hist_suffix p m
      intro hnil
      rw [hnil] at hpre
      exact h1 (List.append_eq_nil.mp hpre).2
    · have hm0 : m = 0 := by omega
      subst hm0
      rw [cylRun_first_sample p h0]
      simp

theorem cylDt_pos (p : CylP) : 0 < p.dt :=
  lt_of_lt_of_le (by norm_num) (le_max_left _ _)

theorem cylBreak_true_iff (p : CylP) (t2 : ℚ) (h2 : List (ℚ × ℚ)) :
    cylBreak p t2 h2 = true ↔
      10 < t2 ∧ 1 < h2.length ∧
        |(h2.headD (0, 0)).2 - (h2.getD 1 (0, 0)).2| < 0.1 ∧
        (h2.headD (0, 0)).2 < p.Tc + 50 := by
  unfold cylBreak
  split_ifs with hcond
  · simpa using hcond
  · simpa using hcond

theorem cylRun_done_conds (p : CylP) :
    ∀ n, (cylRun p n).done = true →
      10 < (cylRun p n).t ∧ 1 < (cylRun p n).hist.length ∧
        |((cylRun p n).hist.headD (0, 0)).2 - ((cylRun p n).hist.getD 1 (0, 0)).2| < 0.1 ∧
        ((cylRun p n).hist.headD (0, 0)).2 < p.Tc + 50 := by
  intro n
  induction n with
  | zero => simp [cylRun]
  | succ m ih =>
    rw [cylRun_succ]
    unfold cylNext
    split_ifs with hg
    · simp only [cylBody]
      intro hdone
      exact (cylBreak_true_iff p _ _).mp hdone
    · exact ih

theorem cylRun_t_invariant (p : CylP) :
    ∀ n, (cylRun p n).t = (n : ℚ) * p.dt ∨ p.tEnd ≤ (cylRun p n).t ∨
      (cylRun p n).done = true := by
  intro n
  induction n with
  | zero => left; simp [cylRun]
  | succ m ih =>
    rw [cylRun_succ]
    unfold cylNext
    split_ifs with hg
    · obtain ⟨hlt, hdone⟩ := hg
      rcases ih with ht | ht | ht
      · left
        simp only [cylBody]
        rw [ht]
        push_cast
        ring
      · exact absurd hlt (not_lt.mpr ht)
      · rw [ht] at hdone; cases hdone
    · rcases not_and_or.mp hg with h | h
      · right; left
        exact not_lt.mp h
      · right; right
        cases hbd : (cylRun p m).done
        · exact absurd hbd h
        · rfl

theorem cylRun_frozen (p : CylP) (n : ℕ) (hfr : cylRun p (n + 1) = cylRun p n) :
    (cylRun p n).done = true ∨ p.tEnd ≤ (cylRun p n).t := by
  by_contra hcon
  push_neg at hcon
  obtain ⟨hd, ht⟩ := hcon
  have hg : (cylRun p n).t < p.tEnd ∧ (cylRun p n).done = false :=
    ⟨ht, Bool.eq_false_iff.mpr hd⟩
  have hb : cylRun p (n + 1) = cylBody p (cylRun p n) := by
    rw [cylRun_succ]
    unfold cylNext
    rw [if_pos hg]
  have ht2 : (cylRun p (n + 1)).t = (cylRun p n).t + p.dt := by
    rw [hb]; rfl
  rw [hfr] at ht2
  have := cylDt_pos p
  linarith
/-- In-range pointwise order between two conical-solver grids. -/
def conLE (p : ConP) (L M : List ℝ) : Prop :=
  ∀ i, i < p.np → val1 L i ≤ val1 M i

/-- In-range box bounds for a conical-solver grid. -/
def conBox (p : ConP) (L : List ℝ) : Prop :=
  ∀ i, i < p.np → p.Tc ≤ val1 L i ∧ val1 L i ≤ p.Ti

theorem conNode_endV_combo (p : ConP) (f : ℕ → ℝ) :
    f 0 - p.alpha * p.dt * (p.hn / (p.k * p.dx)) * (f 0 - p.Tc) =
      (1 - p.alpha * p.dt * (p.hn / (p.k * p.dx))) * f 0 +
        (p.alpha * p.dt * (p.hn / (p.k * p.dx))) * p.Tc := by
  ring

theorem conNode_intV_combo (p : ConP) (f : ℕ → ℝ) (i : ℕ) :
    f i + p.alpha * p.dt * ((f (i + 1) - 2 * f i + f (i - 1)) / p.dx ^ 2) -
        p.alpha * p.dt * (p.hn / (p.k * p.dx)) * (f i - p.Tc) =
      (1 - 2 * (p.alpha * p.dt / p.dx ^ 2) -
          p.alpha * p.dt * (p.hn / (p.k * p.dx))) * f i +
        (p.alpha * p.dt / p.dx ^ 2) * f (i + 1) +
        (p.alpha * p.dt / p.dx ^ 2) * f (i - 1) +
        (p.alpha * p.dt * (p.hn / (p.k * p.dx))) * p.Tc + 0 * p.Tc := by
  ring

theorem conExp_mem (p : ConP) (hexp : 0 ≤ p.hj * p.dx / p.k) :
    0 ≤ Real.exp (-(p.hj * p.dx / p.k)) ∧
      Real.exp (-(p.hj * p.dx / p.k)) ≤ 1 := by
  constructor
  · exact (Real.exp_pos _).le
  · rw [Real.exp_le_one_iff]
    linarith

theorem conNode_mono (p : ConP) (hs : ConStable p) (f g : ℕ → ℝ)
    (hfg : ∀ a, a < p.np → f a ≤ g a) :
    ∀ i, i < p.np → conNode p f i ≤ conNode p g i := by
  obtain ⟨hA, hS, hcc, hexp, hTT⟩ := hs
  obtain ⟨hE0, hE1⟩ := conExp_mem p hexp
  have h3 := p.three_le_np
  intro i hi
  unfold conNode
  split_ifs with h1 h2 h3b
  · subst h1
    rw [conNode_endV_combo p f, conNode_endV_combo p g]
    have d0 := hfg 0 (by omega)
    have hw : 0 ≤ 1 - p.alpha * p.dt * (p.hn / (p.k * p.dx)) := by linarith
    linarith [mul_le_mul_of_nonneg_left d0 hw]
  · have dT := hfg (p.np - 1) (by omega)
    have := mul_le_mul_of_nonneg_right (sub_le_sub_right dT p.Tc) hE0
    linarith
  · obtain ⟨hi1, hi2⟩ := h3b
    rw [conNode_intV_combo p f i, conNode_intV_combo p g i]
    have dc := hfg i hi
    have dp := hfg (i + 1) (by omega)
    have dm := hfg (i - 1) (by omega)
    have hw : 0 ≤ 1 - 2 * (p.alpha * p.dt / p.dx ^ 2) -
        p.alpha * p.dt * (p.hn / (p.k * p.dx)) := by linarith
    linarith [mul_le_mul_of_nonneg_left dc hw, mul_le_mul_of_nonneg_left dp hA,
      mul_le_mul_of_nonneg_left dm hA]
  · exact hfg i hi

theorem conNode_box (p : ConP) (hs : ConStable p) (f : ℕ → ℝ)
    (hf : ∀ a, a < p.np → p.Tc ≤ f a ∧ f a ≤ p.Ti) :
    ∀ i, i < p.np → p.Tc ≤ conNode p f i ∧ conNode p f i ≤ p.Ti := by
  obtain ⟨hA, hS, hcc, hexp, hTT⟩ := hs
  obtain ⟨hE0, hE1⟩ := conExp_mem p hexp
  have h3 := p.three_le_np
  intro i hi
  unfold conNode
  split_ifs with h1 h2 h3b
  · subst h1
    rw [conNode_endV_combo p f]
    obtain ⟨l0, u0⟩ := hf 0 (by omega)
    have hw : 0 ≤ 1 - p.alpha * p.dt * (p.hn / (p.k * p.dx)) := by linarith
    constructor
    · nlinarith
    · nlinarith
  · obtain ⟨lT, uT⟩ := hf (p.np - 1) (by omega)
    constructor
    · nlinarith
    · nlinarith [mul_le_of_le_one_right (sub_nonneg.mpr lT) hE1]
  · obtain ⟨hi1, hi2⟩ := h3b
    rw [conNode_intV_combo p f i]
    obtain ⟨lc, uc⟩ := hf i hi
    obtain ⟨lp, up⟩ := hf (i + 1) (by omega)
    obtain ⟨lm, um⟩ := hf (i - 1) (by omega)
    have hw : 0 ≤ 1 - 2 * (p.alpha * p.dt / p.dx ^ 2) -
        p.alpha * p.dt * (p.hn / (p.k * p.dx)) := by linarith
    constructor
    · nlinarith
    · nlinarith
  · exact hf i hi

theorem conNode_init_le (p : ConP) (hs : ConStable p) :
    ∀ i, i < p.np → conNode p (val1 (conInit p)) i ≤ val1 (conInit p) i := by
  obtain ⟨hA, hS, hcc, hexp, hTT⟩ := hs
  obtain ⟨hE0, hE1⟩ := conExp_mem p hexp
  have h3 := p.three_le_np
  intro i hi
  unfold conNode
  split_ifs with h1 h2 h3b
  · subst h1
    rw [conInit_val p 0 (by omega)]
    nlinarith [mul_nonneg hS (sub_nonneg.mpr hTT)]
  · rw [conInit_val p (p.np - 1) (by omega), conInit_val p i hi]
    nlinarith [mul_le_of_le_one_right (sub_nonneg.mpr hTT) hE1]
  · obtain ⟨hi1, hi2⟩ := h3b
    rw [conNode_intV_combo p _ i, conInit_val p i hi,
      conInit_val p (i + 1) (by omega), conInit_val p (i - 1) (by omega)]
    linarith [mul_nonneg hS (sub_nonneg.mpr hTT)]
  · exact le_refl _
theorem conStepL_mono (p : ConP) (hs : ConStable p) (L M : List ℝ)
    (h : conLE p L M) : conLE p (conStepL p L) (conStepL p M) := by
  intro i hi
  rw [conStepL_val p L i hi, conStepL_val p M i hi]
  exact conNode_mono p hs _ _ h i hi

theorem conStepL_box (p : ConP) (hs : ConStable p) (L : List ℝ)
    (h : conBox p L) : conBox p (conStepL p L) := by
  intro i hi
  rw [conStepL_val p L i hi]
  exact conNode_box p hs _ h i hi

theorem conInit_box (p : ConP) (hTT : p.Tc ≤ p.Ti) : conBox p (conInit p) := by
  intro i hi
  rw [conInit_val p i hi]
  exact ⟨hTT, le_refl _⟩

theorem conRun_succ (p : ConP) (n : ℕ) :
    conRun p (n + 1) = conNext p (conRun p n) := rfl

theorem conRun_stepdec (p : ConP) (hs : ConStable p) :
    ∀ n, conLE p (conStepL p (conRun p n).T) (conRun p n).T := by
  intro n
  induction n with
  | zero =>
    intro i hi
    rw [conStepL_val p _ i hi]
    exact conNode_init_le p hs i hi
  | succ m ih =>
    rw [conRun_succ]
    unfold conNext
    split_ifs with hg
    · simp only [conBody]
      exact conStepL_mono p hs _ _ ih
    · exact ih

theorem conRun_T_dec (p : ConP) (hs : ConStable p) (n : ℕ) :
    conLE p (conRun p (n + 1)).T (conRun p n).T := by
  rw [conRun_succ]
  unfold conNext
  split_ifs with hg
  · simp only [conBody]
    exact conRun_stepdec p hs n
  · exact fun i _ => le_refl _

theorem conRun_box (p : ConP) (hs : ConStable p) : ∀ n, conBox p (conRun p n).T := by
  intro n
  induction n with
  | zero => exact conInit_box p hs.2.2.2.2
  | succ m ih =>
    rw [conRun_succ]
    unfold conNext
    split_ifs with hg
    · simp only [conBody]
      exact conStepL_box p hs _ ih
    · exact ih

theorem conCenter_in_range (p : ConP) : min (p.np / 2) (p.np - 1) < p.np := by
  have h3 := p.three_le_np
  omega

theorem conRun_hist_inv (p : ConP) (hs : ConStable p) :
    ∀ n, (∀ x ∈ (conRun p n).hist, conCenter p (conRun p n).T ≤ x.2) ∧
      List.Chain' (fun a b => a.2 ≤ b.2) (conRun p n).hist := by
  intro n
  induction n with
  | zero => simp [conRun]
  | succ m ih =>
    obtain ⟨hall, hch⟩ := ih
    rw [conRun_succ]
    unfold conNext
    split_ifs with hg
    · simp only [conBody]
      have hc : conCenter p (conStepL p (conRun p m).T) ≤ conCenter p (conRun p m).T :=
        conRun_stepdec p hs m _ (conCenter_in_range p)
      exact histUpd_all_chain _ _ _ _ hc hall hch
    · exact ⟨hall, hch⟩

theorem conRun_hist_gap (p : ConP) :
    ∀ n, List.Chain' (fun a b => b.1 + 0.5 ≤ a.1) (conRun p n).hist := by
  intro n
  induction n with
  | zero => simp [conRun]
  | succ m ih =>
    rw [conRun_succ]
    unfold conNext
    split_ifs with hg
    · simp only [conBody]
      exact histUpd_gap _ _ _ ih
    · exact ih

theorem conRun_hist_suffix (p : ConP) (n : ℕ) :
    (conRun p n).hist <:+ (conRun p (n + 1)).hist := by
  rw [conRun_succ]
  unfold conNext
  split_ifs with hg
  · simp only [conBody]
    exact histUpd_suffix _ _ _
  · exact List.suffix_refl _

theorem conRun_first_sample (p : ConP) (h0 : 0 < p.tEnd) :
    (conRun p 1).hist = [(p.dt, conCenter p (conStepL p (conInit p)))] := by
  rw [conRun_succ]
  unfold conNext
  rw [if_pos (by simpa [conRun] using h0)]
  simp [conRun, conBody, histUpd]

theorem conRun_hist_ne (p : ConP) (h0 : 0 < p.tEnd) :
    ∀ n, 1 ≤ n → (conRun p n).hist ≠ [] := by
  intro n
  induction n with
  | zero => omega
  | succ m ih =>
    intro _
    by_cases hm : 1 ≤ m
    · have h1 := ih hm
      obtain ⟨pre, hpre⟩ := conRun_hist_suffix p m
      intro hnil
      rw [hnil] at hpre
      exact h1 (List.append_eq_nil.mp hpre).2
    · have hm0 : m = 0 := by omega
      subst hm0
      rw [conRun_first_sample p h0]
      simp

theorem conTip_step (p : ConP) (L : List ℝ) :
    val1 (conStepL p L) (p.np - 1) =
      p.Tc + (val1 L (p.np - 1) - p.Tc) * Real.exp (-(p.hj * p.dx / p.k)) := by
  have h3 := p.three_le_np
  rw [conStepL_val p L (p.np - 1) (by omega)]
  unfold conNode
  rw [if_neg (by omega), if_pos rfl]

theorem conTip_iter (p : ConP) :
    ∀ m, val1 ((conStepL p)^[m] (conInit p)) (p.np - 1) =
      p.Tc + (p.Ti - p.Tc) * Real.exp (-(p.hj * p.dx / p.k)) ^ m := by
  have h3 := p.three_le_np
  intro m
  induction m with
  | zero =>
    rw [Function.iterate_zero_apply, conInit_val p (p.np - 1) (by omega)]
    ring
  | succ m ih =>
    rw [Function.iterate_succ_apply', conTip_step p, ih]
    ring

theorem conRun_T_iterate (p : ConP) :
    ∀ n, ∃ m, m ≤ n ∧ (conRun p n).T = (conStepL p)^[m] (conInit p) := by
  intro n
  induction n with
  | zero => exact ⟨0, le_refl _, rfl⟩
  | succ n ih =>
    obtain ⟨m, hm, hT⟩ := ih
    rw [conRun_succ]
    unfold conNext
    split_ifs with hg
    · refine ⟨m + 1, by omega, ?_⟩
      simp only [conBody]
      rw [Function.iterate_succ_apply', hT]
    · exact ⟨m, by omega, hT⟩
theorem sqPa_nz : sqPa.nz = 15 := rfl

theorem sqPa_nx : sqPa.nx = 15 := rfl

theorem sqPa_dt : sqPa.dt = 1/2 := by
  norm_num [SqP.dt, SqP.dx, SqP.dz, SqP.alpha, SqP.nz, SqP.nx, sqPa]

theorem sqPa_rz : sqPa.rz = 1/16 := by
  rw [SqP.rz, sqPa_dt]
  norm_num [SqP.dz, SqP.alpha, SqP.nz, sqPa]

theorem sqPa_Hj : sqPa.Hj = 200 := by
  norm_num [SqP.Hj, SqP.dz, SqP.nz, sqPa]

theorem sqPa_T1 : (sqRun sqPa 1).T = sqStepL sqPa (sqInit sqPa) := by
  rw [show (1 : ℕ) = 0 + 1 from rfl, sqRun_succ]
  unfold sqNext
  rw [if_pos (by norm_num [sqRun, sqPa])]
  rfl

theorem sqPa_val : val2 (sqRun sqPa 1).T 0 0 = -2400 := by
  rw [sqPa_T1, sqStepL_val sqPa _ 0 0 (by norm_num [sqPa_nz]) (by norm_num [sqPa_nx])]
  unfold sqNode
  rw [if_pos (show sqBottomR sqPa 0 0 by simp [sqBottomR, sqPa_nx])]
  unfold sqBottomV
  rw [sqInit_val sqPa 0 0 (by norm_num [sqPa_nz]) (by norm_num [sqPa_nx]),
    sqInit_val sqPa 1 0 (by norm_num [sqPa_nz]) (by norm_num [sqPa_nx]),
    sqPa_rz, sqPa_Hj]
  norm_num [sqPa]
theorem sqPb_nz : sqPb.nz = 15 := rfl

theorem sqPb_nx : sqPb.nx = 15 := rfl

theorem sqPb_dt : sqPb.dt = 1/2 := by
  norm_num [SqP.dt, SqP.dx, SqP.dz, SqP.alpha, SqP.nz, SqP.nx, sqPb]

theorem sqPb_rx : sqPb.rx = 1/16 := by
  rw [SqP.rx, sqPb_dt]
  norm_num [SqP.dx, SqP.alpha, SqP.nx, sqPb]

theorem sqPb_rz : sqPb.rz = 1/16 := by
  rw [SqP.rz, sqPb_dt]
  norm_num [SqP.dz, SqP.alpha, SqP.nz, sqPb]

theorem sqPb_Hj : sqPb.Hj = 200 := by
  norm_num [SqP.Hj, SqP.dz, SqP.nz, sqPb]

theorem sqPb_Hnx : sqPb.Hnx = 0 := by
  norm_num [SqP.Hnx, SqP.dx, SqP.nx, sqPb]

theorem sqPb_Hnz : sqPb.Hnz = 0 := by
  norm_num [SqP.Hnz, SqP.dz, SqP.nz, sqPb]

theorem sqPb_Tc : sqPb.Tc = 0 := rfl

theorem sqPb_Ti : sqPb.Ti = 100 := rfl

theorem sqPb_center (L : List (List ℚ)) : sqCenter sqPb L = val2 L 7 7 := by
  unfold sqCenter
  norm_num [sqPb_nz, sqPb_nx]

theorem c3t : ∀ n, n ≤ 199 → (sqRun sqPb n).t = (n : ℚ) * (1/2) := by
  intro n
  induction n with
  | zero => intro _; simp [sqRun]
  | succ m ih =>
    intro hm
    have hg : (sqRun sqPb m).t < sqPb.tEnd := by
      rw [ih (by omega)]
      have hc : (m : ℚ) ≤ 199 := by exact_mod_cast Nat.le_of_succ_le hm
      show (m : ℚ) * (1/2) < sqPb.tEnd
      rw [show sqPb.tEnd = 100 from rfl]
      linarith
    rw [sqRun_succ]
    unfold sqNext
    rw [if_pos hg]
    simp only [sqBody]
    rw [ih (by omega), sqPb_dt]
    push_cast
    ring

theorem c3Tsucc : ∀ n, n ≤ 198 → (sqRun sqPb (n + 1)).T = sqStepL sqPb (sqRun sqPb n).T := by
  intro n hn
  have hg : (sqRun sqPb n).t < sqPb.tEnd := by
    rw [c3t n (by omega)]
    have hc : (n : ℚ) ≤ 198 := by exact_mod_cast hn
    show (n : ℚ) * (1/2) < sqPb.tEnd
    rw [show sqPb.tEnd = 100 from rfl]
    linarith
  rw [sqRun_succ]
  unfold sqNext
  rw [if_pos hg]
  rfl

theorem c3plateau : ∀ n, n ≤ 13 → ∀ i j, n ≤ i → i < 15 → j < 15 →
    val2 (sqRun sqPb n).T i j = 100 := by
  intro n
  induction n with
  | zero =>
    intro _ i j _ hi hj2
    have := sqInit_val sqPb i j (by rw [sqPb_nz]; omega) (by rw [sqPb_nx]; omega)
    rw [show (sqRun sqPb 0).T = sqInit sqPb from rfl, this, sqPb_Ti]
  | succ m ih =>
    intro hm i j hni hi hj2
    rw [c3Tsucc m (by omega),
      sqStepL_val sqPb _ i j (by rw [sqPb_nz]; omega) (by rw [sqPb_nx]; omega)]
    simp only [sqNode, sqBottomR, sqLeftR, sqRightR, sqIntR, sqTopR, sqPb_nz, sqPb_nx]
    split_ifs with h1 h2 h3 h4 h5
    · omega
    · obtain ⟨hi1, hi2, hj0⟩ := h2
      subst hj0
      unfold sqLeftV
      rw [ih (by omega) i 0 (by omega) (by omega) (by omega),
        ih (by omega) i 1 (by omega) (by omega) (by omega), sqPb_Hnx, sqPb_Tc]
      ring
    · obtain ⟨hi1, hi2, hjr⟩ := h3
      subst hjr
      unfold sqRightV
      rw [sqPb_nx]
      rw [ih (by omega) i (15 - 1) (by omega) (by omega) (by omega),
        ih (by omega) i (15 - 2) (by omega) (by omega) (by omega), sqPb_Hnx, sqPb_Tc]
      ring
    · obtain ⟨hi1, hi2, hj1, hjx⟩ := h4
      unfold sqIntV
      rw [ih (by omega) i j (by omega) (by omega) (by omega),
        ih (by omega) i (j + 1) (by omega) (by omega) (by omega),
        ih (by omega) i (j - 1) (by omega) (by omega) (by omega),
        ih (by omega) (i + 1) j (by omega) (by omega) (by omega),
        ih (by omega) (i - 1) j (by omega) (by omega) (by omega)]
      ring
    · obtain ⟨hitop, hj1, hjx⟩ := h5
      unfold sqTopV
      rw [sqPb_nz]
      rw [ih (by omega) (15 - 1) j (by omega) (by omega) (by omega),
        ih (by omega) (15 - 2) j (by omega) (by omega) (by omega), sqPb_Hnz, sqPb_Tc]
      ring
    · exact ih (by omega) i j (by omega) (by omega) (by omega)
theorem c3v1i0j6 : val2 (sqRun sqPb 1).T 0 6 = (-2400) := by
  rw [show (1:ℕ) = 0 + 1 from rfl, c3Tsucc 0 (by omega),
    sqStepL_val sqPb _ 0 6 (by rw [sqPb_nz]; omega) (by rw [sqPb_nx]; omega)]
  simp only [sqNode, sqBottomR, sqLeftR, sqRightR, sqIntR, sqTopR, sqPb_nz, sqPb_nx]
  rw [if_pos (by decide)]
  unfold sqBottomV
  rw [c3plateau 0 (by omega) 0 6 (by omega) (by omega) (by omega), c3plateau 0 (by omega) 1 6 (by omega) (by omega) (by omega), sqPb_rz, sqPb_Hj, sqPb_Tc]
  norm_num

theorem c3v1i0j7 : val2 (sqRun sqPb 1).T 0 7 = (-2400) := by
  rw [show (1:ℕ) = 0 + 1 from rfl, c3Tsucc 0 (by omega),
    sqStepL_val sqPb _ 0 7 (by rw [sqPb_nz]; omega) (by rw [sqPb_nx]; omega)]
  simp only [sqNode, sqBottomR, sqLeftR, sqRightR, sqIntR, sqTopR, sqPb_nz, sqPb_nx]
  rw [if_pos (by decide)]
  unfold sqBottomV
  rw [c3plateau 0 (by omega) 0 7 (by omega) (by omega) (by omega), c3plateau 0 (by omega) 1 7 (by omega) (by omega) (by omega), sqPb_rz, sqPb_Hj, sqPb_Tc]
  norm_num

theorem c3v1i0j8 : val2 (sqRun sqPb 1).T 0 8 = (-2400) := by
  rw [show (1:ℕ) = 0 + 1 from rfl, c3Tsucc 0 (by omega),
    sqStepL_val sqPb _ 0 8 (by rw [sqPb_nz]; omega) (by rw [sqPb_nx]; omega)]
  simp only [sqNode, sqBottomR, sqLeftR, sqRightR, sqIntR, sqTopR, sqPb_nz, sqPb_nx]
  rw [if_pos (by decide)]
  unfold sqBottomV
  rw [c3plateau 0 (by omega) 0 8 (by omega) (by omega) (by omega), c3plateau 0 (by omega) 1 8 (by omega) (by omega) (by omega), sqPb_rz, sqPb_Hj, sqPb_Tc]
  norm_num

theorem c3v2i0j7 : val2 (sqRun sqPb 2).T 0 7 = (115825/2) := by
  rw [show (2:ℕ) = 1 + 1 from rfl, c3Tsucc 1 (by omega),
    sqStepL_val sqPb _ 0 7 (by rw [sqPb_nz]; omega) (by rw [sqPb_nx]; omega)]
  simp only [sqNode, sqBottomR, sqLeftR, sqRightR, sqIntR, sqTopR, sqPb_nz, sqPb_nx]
  rw [if_pos (by decide)]
  unfold sqBottomV
  rw [c3v1i0j7, c3plateau 1 (by omega) 1 7 (by omega) (by omega) (by omega), sqPb_rz, sqPb_Hj, sqPb_Tc]
  norm_num

theorem c3v2i1j6 : val2 (sqRun sqPb 2).T 1 6 = (-(225/4)) := by
  rw [show (2:ℕ) = 1 + 1 from rfl, c3Tsucc 1 (by omega),
    sqStepL_val sqPb _ 1 6 (by rw [sqPb_nz]; omega) (by rw [sqPb_nx]; omega)]
  simp only [sqNode, sqBottomR, sqLeftR, sqRightR, sqIntR, sqTopR, sqPb_nz, sqPb_nx]
  rw [if_neg (by decide), if_neg (by decide), if_neg (by decide), if_pos (by decide)]
  unfold sqIntV
  rw [c3plateau 1 (by omega) 1 6 (by omega) (by omega) (by omega), c3plateau 1 (by omega) 1 7 (by omega) (by omega) (by omega), c3plateau 1 (by omega) 1 5 (by omega) (by omega) (by omega), c3plateau 1 (by omega) 2 6 (by omega) (by omega) (by omega), c3v1i0j6, sqPb_rx, sqPb_rz]
  norm_num

theorem c3v2i1j7 : val2 (sqRun sqPb 2).T 1 7 = (-(225/4)) := by
  rw [show (2:ℕ) = 1 + 1 from rfl, c3Tsucc 1 (by omega),
    sqStepL_val sqPb _ 1 7 (by rw [sqPb_nz]; omega) (by rw [sqPb_nx]; omega)]
  simp only [sqNode, sqBottomR, sqLeftR, sqRightR, sqIntR, sqTopR, sqPb_nz, sqPb_nx]
  rw [if_neg (by decide), if_neg (by decide), if_neg (by decide), if_pos (by decide)]
  unfold sqIntV
  rw [c3plateau 1 (by omega) 1 7 (by omega) (by omega) (by omega), c3plateau 1 (by omega) 1 8 (by omega) (by omega) (by omega), c3plateau 1 (by omega) 1 6 (by omega) (by omega) (by omega), c3plateau 1 (by omega) 2 7 (by omega) (by omega) (by omega), c3v1i0j7, sqPb_rx, sqPb_rz]
  norm_num

theorem c3v2i1j8 : val2 (sqRun sqPb 2).T 1 8 = (-(225/4)) := by
  rw [show (2:ℕ) = 1 + 1 from rfl, c3Tsucc 1 (by omega),
    sqStepL_val sqPb _ 1 8 (by rw [sqPb_nz]; omega) (by rw [sqPb_nx]; omega)]
  simp only [sqNode, sqBottomR, sqLeftR, sqRightR, sqIntR, sqTopR, sqPb_nz, sqPb_nx]
  rw [if_neg (by decide), if_neg (by decide), if_neg (by decide), if_pos (by decide)]
  unfold sqIntV
  rw [c3plateau 1 (by omega) 1 8 (by omega) (by omega) (by omega), c3plateau 1 (by omega) 1 9 (by omega) (by omega) (by omega), c3plateau 1 (by omega) 1 7 (by omega) (by omega) (by omega), c3plateau 1 (by omega) 2 8 (by omega) (by omega) (by omega), c3v1i0j8, sqPb_rx, sqPb_rz]
  norm_num

theorem c3v3i1j7 : val2 (sqRun sqPb 3).T 1 7 = (57225/16) := by
  rw [show (3:ℕ) = 2 + 1 from rfl, c3Tsucc 2 (by omega),
    sqStepL_val sqPb _ 1 7 (by rw [sqPb_nz]; omega) (by rw [sqPb_nx]; omega)]
  simp only [sqNode, sqBottomR, sqLeftR, sqRightR, sqIntR, sqTopR, sqPb_nz, sqPb_nx]
  rw [if_neg (by decide), if_neg (by decide), if_neg (by decide), if_pos (by decide)]
  unfold sqIntV
  rw [c3v2i1j7, c3v2i1j8, c3v2i1j6, c3plateau 2 (by omega) 2 7 (by omega) (by omega) (by omega), c3v2i0j7, sqPb_rx, sqPb_rz]
  norm_num

theorem c3v3i2j6 : val2 (sqRun sqPb 3).T 2 6 = (5775/64) := by
  rw [show (3:ℕ) = 2 + 1 from rfl, c3Tsucc 2 (by omega),
    sqStepL_val sqPb _ 2 6 (by rw [sqPb_nz]; omega) (by rw [sqPb_nx]; omega)]
  simp only [sqNode, sqBottomR, sqLeftR, sqRightR, sqIntR, sqTopR, sqPb_nz, sqPb_nx]
  rw [if_neg (by decide), if_neg (by decide), if_neg (by decide), if_pos (by decide)]
  unfold sqIntV
  rw [c3plateau 2 (by omega) 2 6 (by omega) (by omega) (by omega), c3plateau 2 (by omega) 2 7 (by omega) (by omega) (by omega), c3plateau 2 (by omega) 2 5 (by omega) (by omega) (by omega), c3plateau 2 (by omega) 3 6 (by omega) (by omega) (by omega), c3v2i1j6, sqPb_rx, sqPb_rz]
  norm_num

theorem c3v3i2j7 : val2 (sqRun sqPb 3).T 2 7 = (5775/64) := by
  rw [show (3:ℕ) = 2 + 1 from rfl, c3Tsucc 2 (by omega),
    sqStepL_val sqPb _ 2 7 (by rw [sqPb_nz]; omega) (by rw [sqPb_nx]; omega)]
  simp only [sqNode, sqBottomR, sqLeftR, sqRightR, sqIntR, sqTopR, sqPb_nz, sqPb_nx]
  rw [if_neg (by decide), if_neg (by decide), if_neg (by decide), if_pos (by decide)]
  unfold sqIntV
  rw [c3plateau 2 (by omega) 2 7 (by omega) (by omega) (by omega), c3plateau 2 (by omega) 2 8 (by omega) (by omega) (by omega), c3plateau 2 (by omega) 2 6 (by omega) (by omega) (by omega), c3plateau 2 (by omega) 3 7 (by omega) (by omega) (by omega), c3v2i1j7, sqPb_rx, sqPb_rz]
  norm_num

theorem c3v3i2j8 : val2 (sqRun sqPb 3).T 2 8 = (5775/64) := by
  rw [show (3:ℕ) = 2 + 1 from rfl, c3Tsucc 2 (by omega),
    sqStepL_val sqPb _ 2 8 (by rw [sqPb_nz]; omega) (by rw [sqPb_nx]; omega)]
  simp only [sqNode, sqBottomR, sqLeftR, sqRightR, sqIntR, sqTopR, sqPb_nz, sqPb_nx]
  rw [if_neg (by decide), if_neg (by decide), if_neg (by decide), if_pos (by decide)]
  unfold sqIntV
  rw [c3plateau 2 (by omega) 2 8 (by omega) (by omega) (by omega), c3plateau 2 (by omega) 2 9 (by omega) (by omega) (by omega), c3plateau 2 (by omega) 2 7 (by omega) (by omega) (by omega), c3plateau 2 (by omega) 3 8 (by omega) (by omega) (by omega), c3v2i1j8, sqPb_rx, sqPb_rz]
  norm_num

theorem c3v4i2j7 : val2 (sqRun sqPb 4).T 2 7 = (158075/512) := by
  rw [show (4:ℕ) = 3 + 1 from rfl, c3Tsucc 3 (by omega),
    sqStepL_val sqPb _ 2 7 (by rw [sqPb_nz]; omega) (by rw [sqPb_nx]; omega)]
  simp only [sqNode, sqBottomR, sqLeftR, sqRightR, sqIntR, sqTopR, sqPb_nz, sqPb_nx]
  rw [if_neg (by decide), if_neg (by decide), if_neg (by decide), if_pos (by decide)]
  unfold sqIntV
  rw [c3v3i2j7, c3v3i2j8, c3v3i2j6, c3plateau 3 (by omega) 3 7 (by omega) (by omega) (by omega), c3v3i1j7, sqPb_rx, sqPb_rz]
  norm_num

theorem c3v4i3j6 : val2 (sqRun sqPb 4).T 3 6 = (101775/1024) := by
  rw [show (4:ℕ) = 3 + 1 from rfl, c3Tsucc 3 (by omega),
    sqStepL_val sqPb _ 3 6 (by rw [sqPb_nz]; omega) (by rw [sqPb_nx]; omega)]
  simp only [sqNode, sqBottomR, sqLeftR, sqRightR, sqIntR, sqTopR, sqPb_nz, sqPb_nx]
  rw [if_neg (by decide), if_neg (by decide), if_neg (by decide), if_pos (by decide)]
  unfold sqIntV
  rw [c3plateau 3 (by omega) 3 6 (by omega) (by omega) (by omega), c3plateau 3 (by omega) 3 7 (by omega) (by omega) (by omega), c3plateau 3 (by omega) 3 5 (by omega) (by omega) (by omega), c3plateau 3 (by omega) 4 6 (by omega) (by omega) (by omega), c3v3i2j6, sqPb_rx, sqPb_rz]
  norm_num

theorem c3v4i3j7 : val2 (sqRun sqPb 4).T 3 7 = (101775/1024) := by
  rw [show (4:ℕ) = 3 + 1 from rfl, c3Tsucc 3 (by omega),
    sqStepL_val sqPb _ 3 7 (by rw [sqPb_nz]; omega) (by rw [sqPb_nx]; omega)]
  simp only [sqNode, sqBottomR, sqLeftR, sqRightR, sqIntR, sqTopR, sqPb_nz, sqPb_nx]
  rw [if_neg (by decide), if_neg (by decide), if_neg (by decide), if_pos (by decide)]
  unfold sqIntV
  rw [c3plateau 3 (by omega) 3 7 (by omega) (by omega) (by omega), c3plateau 3 (by omega) 3 8 (by omega) (by omega) (by omega), c3plateau 3 (by omega) 3 6 (by omega) (by omega) (by omega), c3plateau 3 (by omega) 4 7 (by omega) (by omega) (by omega), c3v3i2j7, sqPb_rx, sqPb_rz]
  norm_num

theorem c3v4i3j8 : val2 (sqRun sqPb 4).T 3 8 = (101775/1024) := by
  rw [show (4:ℕ) = 3 + 1 from rfl, c3Tsucc 3 (by omega),
    sqStepL_val sqPb _ 3 8 (by rw [sqPb_nz]; omega) (by rw [sqPb_nx]; omega)]
  simp only [sqNode, sqBottomR, sqLeftR, sqRightR, sqIntR, sqTopR, sqPb_nz, sqPb_nx]
  rw [if_neg (by decide), if_neg (by decide), if_neg (by decide), if_pos (by decide)]
  unfold sqIntV
  rw [c3plateau 3 (by omega) 3 8 (by omega) (by omega) (by omega), c3plateau 3 (by omega) 3 9 (by omega) (by omega) (by omega), c3plateau 3 (by omega) 3 7 (by omega) (by omega) (by omega), c3plateau 3 (by omega) 4 8 (by omega) (by omega) (by omega), c3v3i2j8, sqPb_rx, sqPb_rz]
  norm_num

theorem c3v5i3j7 : val2 (sqRun sqPb 5).T 3 7 = (230425/2048) := by
  rw [show (5:ℕ) = 4 + 1 from rfl, c3Tsucc 4 (by omega),
    sqStepL_val sqPb _ 3 7 (by rw [sqPb_nz]; omega) (by rw [sqPb_nx]; omega)]
  simp only [sqNode, sqBottomR, sqLeftR, sqRightR, sqIntR, sqTopR, sqPb_nz, sqPb_nx]
  rw [if_neg (by decide), if_neg (by decide), if_neg (by decide), if_pos (by decide)]
  unfold sqIntV
  rw [c3v4i3j7, c3v4i3j8, c3v4i3j6, c3plateau 4 (by omega) 4 7 (by omega) (by omega) (by omega), c3v4i2j7, sqPb_rx, sqPb_rz]
  norm_num

theorem c3v5i4j6 : val2 (sqRun sqPb 5).T 4 6 = (1637775/16384) := by
  rw [show (5:ℕ) = 4 + 1 from rfl, c3Tsucc 4 (by omega),
    sqStepL_val sqPb _ 4 6 (by rw [sqPb_nz]; omega) (by rw [sqPb_nx]; omega)]
  simp only [sqNode, sqBottomR, sqLeftR, sqRightR, sqIntR, sqTopR, sqPb_nz, sqPb_nx]
  rw [if_neg (by decide), if_neg (by decide), if_neg (by decide), if_pos (by decide)]
  unfold sqIntV
  rw [c3plateau 4 (by omega) 4 6 (by omega) (by omega) (by omega), c3plateau 4 (by omega) 4 7 (by omega) (by omega) (by omega), c3plateau 4 (by omega) 4 5 (by omega) (by omega) (by omega), c3plateau 4 (by omega) 5 6 (by omega) (by omega) (by omega), c3v4i3j6, sqPb_rx, sqPb_rz]
  norm_num

theorem c3v5i4j7 : val2 (sqRun sqPb 5).T 4 7 = (1637775/16384) := by
  rw [show (5:ℕ) = 4 + 1 from rfl, c3Tsucc 4 (by omega),
    sqStepL_val sqPb _ 4 7 (by rw [sqPb_nz]; omega) (by rw [sqPb_nx]; omega)]
  simp only [sqNode, sqBottomR, sqLeftR, sqRightR, sqIntR, sqTopR, sqPb_nz, sqPb_nx]
  rw [if_neg (by decide), if_neg (by decide), if_neg (by decide), if_pos (by decide)]
  unfold sqIntV
  rw [c3plateau 4 (by omega) 4 7 (by omega) (by omega) (by omega), c3plateau 4 (by omega) 4 8 (by omega) (by omega) (by omega), c3plateau 4 (by omega) 4 6 (by omega) (by omega) (by omega), c3plateau 4 (by omega) 5 7 (by omega) (by omega) (by omega), c3v4i3j7, sqPb_rx, sqPb_rz]
  norm_num

theorem c3v5i4j8 : val2 (sqRun sqPb 5).T 4 8 = (1637775/16384) := by
  rw [show (5:ℕ) = 4 + 1 from rfl, c3Tsucc 4 (by omega),
    sqStepL_val sqPb _ 4 8 (by rw [sqPb_nz]; omega) (by rw [sqPb_nx]; omega)]
  simp only [sqNode, sqBottomR, sqLeftR, sqRightR, sqIntR, sqTopR, sqPb_nz, sqPb_nx]
  rw [if_neg (by decide), if_neg (by decide), if_neg (by decide), if_pos (by decide)]
  unfold sqIntV
  rw [c3plateau 4 (by omega) 4 8 (by omega) (by omega) (by omega), c3plateau 4 (by omega) 4 9 (by omega) (by omega) (by omega), c3plateau 4 (by omega) 4 7 (by omega) (by omega) (by omega), c3plateau 4 (by omega) 5 8 (by omega) (by omega) (by omega), c3v4i3j8, sqPb_rx, sqPb_rz]
  norm_num

theorem c3v6i4j7 : val2 (sqRun sqPb 6).T 4 7 = (13205325/131072) := by
  rw [show (6:ℕ) = 5 + 1 from rfl, c3Tsucc 5 (by omega),
    sqStepL_val sqPb _ 4 7 (by rw [sqPb_nz]; omega) (by rw [sqPb_nx]; omega)]
  simp only [sqNode, sqBottomR, sqLeftR, sqRightR, sqIntR, sqTopR, sqPb_nz, sqPb_nx]
  rw [if_neg (by decide), if_neg (by decide), if_neg (by decide), if_pos (by decide)]
  unfold sqIntV
  rw [c3v5i4j7, c3v5i4j8, c3v5i4j6, c3plateau 5 (by omega) 5 7 (by omega) (by omega) (by omega), c3v5i3j7, sqPb_rx, sqPb_rz]
  norm_num

theorem c3v6i5j6 : val2 (sqRun sqPb 6).T 5 6 = (26213775/262144) := by
  rw [show (6:ℕ) = 5 + 1 from rfl, c3Tsucc 5 (by omega),
    sqStepL_val sqPb _ 5 6 (by rw [sqPb_nz]; omega) (by rw [sqPb_nx]; omega)]
  simp only [sqNode, sqBottomR, sqLeftR, sqRightR, sqIntR, sqTopR, sqPb_nz, sqPb_nx]
  rw [if_neg (by decide), if_neg (by decide), if_neg (by decide), if_pos (by decide)]
  unfold sqIntV
  rw [c3plateau 5 (by omega) 5 6 (by omega) (by omega) (by omega), c3plateau 5 (by omega) 5 7 (by omega) (by omega) (by omega), c3plateau 5 (by omega) 5 5 (by omega) (by omega) (by omega), c3plateau 5 (by omega) 6 6 (by omega) (by omega) (by omega), c3v5i4j6, sqPb_rx, sqPb_rz]
  norm_num

theorem c3v6i5j7 : val2 (sqRun sqPb 6).T 5 7 = (26213775/262144) := by
  rw [show (6:ℕ) = 5 + 1 from rfl, c3Tsucc 5 (by omega),
    sqStepL_val sqPb _ 5 7 (by rw [sqPb_nz]; omega) (by rw [sqPb_nx]; omega)]
  simp only [sqNode, sqBottomR, sqLeftR, sqRightR, sqIntR, sqTopR, sqPb_nz, sqPb_nx]
  rw [if_neg (by decide), if_neg (by decide), if_neg (by decide), if_pos (by decide)]
  unfold sqIntV
  rw [c3plateau 5 (by omega) 5 7 (by omega) (by omega) (by omega), c3plateau 5 (by omega) 5 8 (by omega) (by omega) (by omega), c3plateau 5 (by omega) 5 6 (by omega) (by omega) (by omega), c3plateau 5 (by omega) 6 7 (by omega) (by omega) (by omega), c3v5i4j7, sqPb_rx, sqPb_rz]
  norm_num

theorem c3v6i5j8 : val2 (sqRun sqPb 6).T 5 8 = (26213775/262144) := by
  rw [show (6:ℕ) = 5 + 1 from rfl, c3Tsucc 5 (by omega),
    sqStepL_val sqPb _ 5 8 (by rw [sqPb_nz]; omega) (by rw [sqPb_nx]; omega)]
  simp only [sqNode, sqBottomR, sqLeftR, sqRightR, sqIntR, sqTopR, sqPb_nz, sqPb_nx]
  rw [if_neg (by decide), if_neg (by decide), if_neg (by decide), if_pos (by decide)]
  unfold sqIntV
  rw [c3plateau 5 (by omega) 5 8 (by omega) (by omega) (by omega), c3plateau 5 (by omega) 5 9 (by omega) (by omega) (by omega), c3plateau 5 (by omega) 5 7 (by omega) (by omega) (by omega), c3plateau 5 (by omega) 6 8 (by omega) (by omega) (by omega), c3v5i4j8, sqPb_rx, sqPb_rz]
  norm_num

theorem c3v7i5j7 : val2 (sqRun sqPb 7).T 5 7 = (104904475/1048576) := by
  rw [show (7:ℕ) = 6 + 1 from rfl, c3Tsucc 6 (by omega),
    sqStepL_val sqPb _ 5 7 (by rw [sqPb_nz]; omega) (by rw [sqPb_nx]; omega)]
  simp only [sqNode, sqBottomR, sqLeftR, sqRightR, sqIntR, sqTopR, sqPb_nz, sqPb_nx]
  rw [if_neg (by decide), if_neg (by decide), if_neg (by decide), if_pos (by decide)]
  unfold sqIntV
  rw [c3v6i5j7, c3v6i5j8, c3v6i5j6, c3plateau 6 (by omega) 6 7 (by omega) (by omega) (by omega), c3v6i4j7, sqPb_rx, sqPb_rz]
  norm_num

theorem c3v7i6j6 : val2 (sqRun sqPb 7).T 6 6 = (419429775/4194304) := by
  rw [show (7:ℕ) = 6 + 1 from rfl, c3Tsucc 6 (by omega),
    sqStepL_val sqPb _ 6 6 (by rw [sqPb_nz]; omega) (by rw [sqPb_nx]; omega)]
  simp only [sqNode, sqBottomR, sqLeftR, sqRightR, sqIntR, sqTopR, sqPb_nz, sqPb_nx]
  rw [if_neg (by decide), if_neg (by decide), if_neg (by decide), if_pos (by decide)]
  unfold sqIntV
  rw [c3plateau 6 (by omega) 6 6 (by omega) (by omega) (by omega), c3plateau 6 (by omega) 6 7 (by omega) (by omega) (by omega), c3plateau 6 (by omega) 6 5 (by omega) (by omega) (by omega), c3plateau 6 (by omega) 7 6 (by omega) (by omega) (by omega), c3v6i5j6, sqPb_rx, sqPb_rz]
  norm_num

theorem c3v7i6j7 : val2 (sqRun sqPb 7).T 6 7 = (419429775/4194304) := by
  rw [show (7:ℕ) = 6 + 1 from rfl, c3Tsucc 6 (by omega),
    sqStepL_val sqPb _ 6 7 (by rw [sqPb_nz]; omega) (by rw [sqPb_nx]; omega)]
  simp only [sqNode, sqBottomR, sqLeftR, sqRightR, sqIntR, sqTopR, sqPb_nz, sqPb_nx]
  rw [if_neg (by decide), if_neg (by decide), if_neg (by decide), if_pos (by decide)]
  unfold sqIntV
  rw [c3plateau 6 (by omega) 6 7 (by omega) (by omega) (by omega), c3plateau 6 (by omega) 6 8 (by omega) (by omega) (by omega), c3plateau 6 (by omega) 6 6 (by omega) (by omega) (by omega), c3plateau 6 (by omega) 7 7 (by omega) (by omega) (by omega), c3v6i5j7, sqPb_rx, sqPb_rz]
  norm_num

theorem c3v7i6j8 : val2 (sqRun sqPb 7).T 6 8 = (419429775/4194304) := by
  rw [show (7:ℕ) = 6 + 1 from rfl, c3Tsucc 6 (by omega),
    sqStepL_val sqPb _ 6 8 (by rw [sqPb_nz]; omega) (by rw [sqPb_nx]; omega)]
  simp only [sqNode, sqBottomR, sqLeftR, sqRightR, sqIntR, sqTopR, sqPb_nz, sqPb_nx]
  rw [if_neg (by decide), if_neg (by decide), if_neg (by decide), if_pos (by decide)]
  unfold sqIntV
  rw [c3plateau 6 (by omega) 6 8 (by omega) (by omega) (by omega), c3plateau 6 (by omega) 6 9 (by omega) (by omega) (by omega), c3plateau 6 (by omega) 6 7 (by omega) (by omega) (by omega), c3plateau 6 (by omega) 7 8 (by omega) (by omega) (by omega), c3v6i5j8, sqPb_rx, sqPb_rz]
  norm_num

theorem c3v8i6j7 : val2 (sqRun sqPb 8).T 6 7 = (3355532575/33554432) := by
  rw [show (8:ℕ) = 7 + 1 from rfl, c3Tsucc 7 (by omega),
    sqStepL_val sqPb _ 6 7 (by rw [sqPb_nz]; omega) (by rw [sqPb_nx]; omega)]
  simp only [sqNode, sqBottomR, sqLeftR, sqRightR, sqIntR, sqTopR, sqPb_nz, sqPb_nx]
  rw [if_neg (by decide), if_neg (by decide), if_neg (by decide), if_pos (by decide)]
  unfold sqIntV
  rw [c3v7i6j7, c3v7i6j8, c3v7i6j6, c3plateau 7 (by omega) 7 7 (by omega) (by omega) (by omega), c3v7i5j7, sqPb_rx, sqPb_rz]
  norm_num

theorem c3v8i7j6 : val2 (sqRun sqPb 8).T 7 6 = (6710885775/67108864) := by
  rw [show (8:ℕ) = 7 + 1 from rfl, c3Tsucc 7 (by omega),
    sqStepL_val sqPb _ 7 6 (by rw [sqPb_nz]; omega) (by rw [sqPb_nx]; omega)]
  simp only [sqNode, sqBottomR, sqLeftR, sqRightR, sqIntR, sqTopR, sqPb_nz, sqPb_nx]
  rw [if_neg (by decide), if_neg (by decide), if_neg (by decide), if_pos (by decide)]
  unfold sqIntV
  rw [c3plateau 7 (by omega) 7 6 (by omega) (by omega) (by omega), c3plateau 7 (by omega) 7 7 (by omega) (by omega) (by omega), c3plateau 7 (by omega) 7 5 (by omega) (by omega) (by omega), c3plateau 7 (by omega) 8 6 (by omega) (by omega) (by omega), c3v7i6j6, sqPb_rx, sqPb_rz]
  norm_num

theorem c3v8i7j7 : val2 (sqRun sqPb 8).T 7 7 = (6710885775/67108864) := by
  rw [show (8:ℕ) = 7 + 1 from rfl, c3Tsucc 7 (by omega),
    sqStepL_val sqPb _ 7 7 (by rw [sqPb_nz]; omega) (by rw [sqPb_nx]; omega)]
  simp only [sqNode, sqBottomR, sqLeftR, sqRightR, sqIntR, sqTopR, sqPb_nz, sqPb_nx]
  rw [if_neg (by decide), if_neg (by decide), if_neg (by decide), if_pos (by decide)]
  unfold sqIntV
  rw [c3plateau 7 (by omega) 7 7 (by omega) (by omega) (by omega), c3plateau 7 (by omega) 7 8 (by omega) (by omega) (by omega), c3plateau 7 (by omega) 7 6 (by omega) (by omega) (by omega), c3plateau 7 (by omega) 8 7 (by omega) (by omega) (by omega), c3v7i6j7, sqPb_rx, sqPb_rz]
  norm_num

theorem c3v8i7j8 : val2 (sqRun sqPb 8).T 7 8 = (6710885775/67108864) := by
  rw [show (8:ℕ) = 7 + 1 from rfl, c3Tsucc 7 (by omega),
    sqStepL_val sqPb _ 7 8 (by rw [sqPb_nz]; omega) (by rw [sqPb_nx]; omega)]
  simp only [sqNode, sqBottomR, sqLeftR, sqRightR, sqIntR, sqTopR, sqPb_nz, sqPb_nx]
  rw [if_neg (by decide), if_neg (by decide), if_neg (by decide), if_pos (by decide)]
  unfold sqIntV
  rw [c3plateau 7 (by omega) 7 8 (by omega) (by omega) (by omega), c3plateau 7 (by omega) 7 9 (by omega) (by omega) (by omega), c3plateau 7 (by omega) 7 7 (by omega) (by omega) (by omega), c3plateau 7 (by omega) 8 8 (by omega) (by omega) (by omega), c3v7i6j8, sqPb_rx, sqPb_rz]
  norm_num

theorem c3v9i7j7 : val2 (sqRun sqPb 9).T 7 7 = (6710897025/67108864) := by
  rw [show (9:ℕ) = 8 + 1 from rfl, c3Tsucc 8 (by omega),
    sqStepL_val sqPb _ 7 7 (by rw [sqPb_nz]; omega) (by rw [sqPb_nx]; omega)]
  simp only [sqNode, sqBottomR, sqLeftR, sqRightR, sqIntR, sqTopR, sqPb_nz, sqPb_nx]
  rw [if_neg (by decide), if_neg (by decide), if_neg (by decide), if_pos (by decide)]
  unfold sqIntV
  rw [c3v8i7j7, c3v8i7j8, c3v8i7j6, c3plateau 8 (by omega) 8 7 (by omega) (by omega) (by omega), c3v8i6j7, sqPb_rx, sqPb_rz]
  norm_num

theorem c3h1 : (sqRun sqPb 1).hist = [((1/2), 100)] := by
  rw [show (1:ℕ) = 0 + 1 from rfl, sqRun_succ]
  unfold sqNext
  rw [if_pos (by rw [c3t 0 (by omega)]; norm_num [show sqPb.tEnd = 100 from rfl])]
  simp only [sqBody]
  rw [← c3Tsucc 0 (by omega), show (0:ℕ) + 1 = 1 from rfl]
  rw [sqPb_center, c3plateau 1 (by omega) 7 7 (by omega) (by omega) (by omega)]
  rw [show (sqRun sqPb 0).hist = ([] : List (ℚ × ℚ)) from rfl]
  rw [c3t 0 (by omega), sqPb_dt]
  simp only [histUpd]
  norm_num

theorem c3h2 : (sqRun sqPb 2).hist = [(1, 100), ((1/2), 100)] := by
  rw [show (2:ℕ) = 1 + 1 from rfl, sqRun_succ]
  unfold sqNext
  rw [if_pos (by rw [c3t 1 (by omega)]; norm_num [show sqPb.tEnd = 100 from rfl])]
  simp only [sqBody]
  rw [← c3Tsucc 1 (by omega), show (1:ℕ) + 1 = 2 from rfl]
  rw [sqPb_center, c3plateau 2 (by omega) 7 7 (by omega) (by omega) (by omega)]
  rw [c3h1]
  rw [c3t 1 (by omega), sqPb_dt]
  simp only [histUpd]
  norm_num

theorem c3h3 : (sqRun sqPb 3).hist = [((3/2), 100), (1, 100), ((1/2), 100)] := by
  rw [show (3:ℕ) = 2 + 1 from rfl, sqRun_succ]
  unfold sqNext
  rw [if_pos (by rw [c3t 2 (by omega)]; norm_num [show sqPb.tEnd = 100 from rfl])]
  simp only [sqBody]
  rw [← c3Tsucc 2 (by omega), show (2:ℕ) + 1 = 3 from rfl]
  rw [sqPb_center, c3plateau 3 (by omega) 7 7 (by omega) (by omega) (by omega)]
  rw [c3h2]
  rw [c3t 2 (by omega), sqPb_dt]
  simp only [histUpd]
  norm_num

theorem c3h4 : (sqRun sqPb 4).hist = [(2, 100), ((3/2), 100), (1, 100), ((1/2), 100)] := by
  rw [show (4:ℕ) = 3 + 1 from rfl, sqRun_succ]
  unfold sqNext
  rw [if_pos (by rw [c3t 3 (by omega)]; norm_num [show sqPb.tEnd = 100 from rfl])]
  simp only [sqBody]
  rw [← c3Tsucc 3 (by omega), show (3:ℕ) + 1 = 4 from rfl]
  rw [sqPb_center, c3plateau 4 (by omega) 7 7 (by omega) (by omega) (by omega)]
  rw [c3h3]
  rw [c3t 3 (by omega), sqPb_dt]
  simp only [histUpd]
  norm_num

theorem c3h5 : (sqRun sqPb 5).hist = [((5/2), 100), (2, 100), ((3/2), 100), (1, 100), ((1/2), 100)] := by
  rw [show (5:ℕ) = 4 + 1 from rfl, sqRun_succ]
  unfold sqNext
  rw [if_pos (by rw [c3t 4 (by omega)]; norm_num [show sqPb.tEnd = 100 from rfl])]
  simp only [sqBody]
  rw [← c3Tsucc 4 (by omega), show (4:ℕ) + 1 = 5 from rfl]
  rw [sqPb_center, c3plateau 5 (by omega) 7 7 (by omega) (by omega) (by omega)]
  rw [c3h4]
  rw [c3t 4 (by omega), sqPb_dt]
  simp only [histUpd]
  norm_num

theorem c3h6 : (sqRun sqPb 6).hist = [(3, 100), ((5/2), 100), (2, 100), ((3/2), 100), (1, 100), ((1/2), 100)] := by
  rw [show (6:ℕ) = 5 + 1 from rfl, sqRun_succ]
  unfold sqNext
  rw [if_pos (by rw [c3t 5 (by omega)]; norm_num [show sqPb.tEnd = 100 from rfl])]
  simp only [sqBody]
  rw [← c3Tsucc 5 (by omega), show (5:ℕ) + 1 = 6 from rfl]
  rw [sqPb_center, c3plateau 6 (by omega) 7 7 (by omega) (by omega) (by omega)]
  rw [c3h5]
  rw [c3t 5 (by omega), sqPb_dt]
  simp only [histUpd]
  norm_num

theorem c3h7 : (sqRun sqPb 7).hist = [((7/2), 100), (3, 100), ((5/2), 100), (2, 100), ((3/2), 100), (1, 100), ((1/2), 100)] := by
  rw [show (7:ℕ) = 6 + 1 from rfl, sqRun_succ]
  unfold sqNext
  rw [if_pos (by rw [c3t 6 (by omega)]; norm_num [show sqPb.tEnd = 100 from rfl])]
  simp only [sqBody]
  rw [← c3Tsucc 6 (by omega), show (6:ℕ) + 1 = 7 from rfl]
  rw [sqPb_center, c3plateau 7 (by omega) 7 7 (by omega) (by omega) (by omega)]
  rw [c3h6]
  rw [c3t 6 (by omega), sqPb_dt]
  simp only [histUpd]
  norm_num

theorem c3h8 : (sqRun sqPb 8).hist = [(4, (6710885775/67108864)), ((7/2), 100), (3, 100), ((5/2), 100), (2, 100), ((3/2), 100), (1, 100), ((1/2), 100)] := by
  rw [show (8:ℕ) = 7 + 1 from rfl, sqRun_succ]
  unfold sqNext
  rw [if_pos (by rw [c3t 7 (by omega)]; norm_num [show sqPb.tEnd = 100 from rfl])]
  simp only [sqBody]
  rw [← c3Tsucc 7 (by omega), show (7:ℕ) + 1 = 8 from rfl]
  rw [sqPb_center, c3v8i7j7]
  rw [c3h7]
  rw [c3t 7 (by omega), sqPb_dt]
  simp only [histUpd]
  norm_num

theorem c3h9 : (sqRun sqPb 9).hist = [((9/2), (6710897025/67108864)), (4, (6710885775/67108864)), ((7/2), 100), (3, 100), ((5/2), 100), (2, 100), ((3/2), 100), (1, 100), ((1/2), 100)] := by
  rw [show (9:ℕ) = 8 + 1 from rfl, sqRun_succ]
  unfold sqNext
  rw [if_pos (by rw [c3t 8 (by omega)]; norm_num [show sqPb.tEnd = 100 from rfl])]
  simp only [sqBody]
  rw [← c3Tsucc 8 (by omega), show (8:ℕ) + 1 = 9 from rfl]
  rw [sqPb_center, c3v9i7j7]
  rw [c3h8]
  rw [c3t 8 (by omega), sqPb_dt]
  simp only [histUpd]
  norm_num
theorem cylPbr_nr : cylPbr.nr = 3 := rfl

theorem cylPbr_nz : cylPbr.nz = 3 := rfl

theorem cylPbr_tEnd : cylPbr.tEnd = 1000 := rfl

theorem cylPbr_dt : cylPbr.dt = 1/10 := by
  norm_num [CylP.dt, CylP.dr, CylP.dz, CylP.radius, CylP.alpha, CylP.nr, CylP.nz, cylPbr]

theorem cylPbr_val_init : ∀ a b, a < 3 → b < 3 → val2 (cylInit cylPbr) a b = 1 := by
  intro a b ha hb
  rw [cylInit_val cylPbr a b (by rw [cylPbr_nr]; omega) (by rw [cylPbr_nz]; omega)]
  rfl

theorem cylPbr_node : ∀ i j, i < 3 → j < 3 →
    cylNode cylPbr (val2 (cylInit cylPbr)) i j = 1 := by
  intro i j hi hj2
  simp only [cylNode, cylBotR, cylTopR, cylCLR, cylIntR, cylOutR, cylPbr_nr, cylPbr_nz]
  interval_cases i <;> interval_cases j <;>
    norm_num [cylBotV, cylTopV, cylCLV, cylIntV, cylOutV, cylPbr_nr, cylPbr_nz,
      cylPbr_val_init, show cylPbr.hj = 0 from rfl, show cylPbr.hn = 0 from rfl,
      show cylPbr.Tc = 0 from rfl]

theorem ofFn3_eq {α : Type} (f : Fin 3 → α) (a0 a1 a2 : α)
    (h0 : f 0 = a0) (h1 : f 1 = a1) (h2 : f 2 = a2) :
    List.ofFn f = [a0, a1, a2] := by
  rw [show List.ofFn f = [f 0, f 1, f 2] by simp [List.ofFn_succ], h0, h1, h2]

theorem cylPbr_constStep : cylStepL cylPbr (cylInit cylPbr) = cylInit cylPbr := by
  show List.ofFn _ = _
  rw [show cylInit cylPbr = [[1, 1, 1], [1, 1, 1], [1, 1, 1]] from rfl]
  exact ofFn3_eq _ _ _ _
    (ofFn3_eq _ _ _ _ (cylPbr_node 0 0 (by omega) (by omega))
      (cylPbr_node 0 1 (by omega) (by omega)) (cylPbr_node 0 2 (by omega) (by omega)))
    (ofFn3_eq _ _ _ _ (cylPbr_node 1 0 (by omega) (by omega))
      (cylPbr_node 1 1 (by omega) (by omega)) (cylPbr_node 1 2 (by omega) (by omega)))
    (ofFn3_eq _ _ _ _ (cylPbr_node 2 0 (by omega) (by omega))
      (cylPbr_node 2 1 (by omega) (by omega)) (cylPbr_node 2 2 (by omega) (by omega)))

theorem cylPbr_center1 : cylCenter cylPbr (cylInit cylPbr) = 1 := by
  unfold cylCenter
  rw [cylPbr_nr, cylPbr_nz]
  norm_num [cylPbr_val_init]
theorem c5s0 : cylRun cylPbr 0 = ⟨cylInit cylPbr, 0, [], false⟩ := rfl

theorem c5s1 : cylRun cylPbr 1 =
    ⟨cylInit cylPbr, (1/10), [((1/10), 1)], false⟩ := by
  rw [show (1:ℕ) = 0 + 1 from rfl, cylRun_succ, c5s0]
  unfold cylNext
  rw [if_pos (by norm_num [cylPbr_tEnd])]
  simp only [cylBody]
  rw [cylPbr_constStep, cylPbr_center1, cylPbr_dt]
  simp only [histUpd, cylBreak]
  norm_num [show cylPbr.Tc = 0 from rfl]

theorem c5s2 : cylRun cylPbr 2 =
    ⟨cylInit cylPbr, (1/5), [((1/10), 1)], false⟩ := by
  rw [show (2:ℕ) = 1 + 1 from rfl, cylRun_succ, c5s1]
  unfold cylNext
  rw [if_pos (by norm_num [cylPbr_tEnd])]
  simp only [cylBody]
  rw [cylPbr_constStep, cylPbr_center1, cylPbr_dt]
  simp only [histUpd, cylBreak]
  norm_num [show cylPbr.Tc = 0 from rfl]

theorem c5s3 : cylRun cylPbr 3 =
    ⟨cylInit cylPbr, (3/10), [((1/10), 1)], false⟩ := by
  rw [show (3:ℕ) = 2 + 1 from rfl, cylRun_succ, c5s2]
  unfold cylNext
  rw [if_pos (by norm_num [cylPbr_tEnd])]
  simp only [cylBody]
  rw [cylPbr_constStep, cylPbr_center1, cylPbr_dt]
  simp only [histUpd, cylBreak]
  norm_num [show cylPbr.Tc = 0 from rfl]

theorem c5s4 : cylRun cylPbr 4 =
    ⟨cylInit cylPbr, (2/5), [((1/10), 1)], false⟩ := by
  rw [show (4:ℕ) = 3 + 1 from rfl, cylRun_succ, c5s3]
  unfold cylNext
  rw [if_pos (by norm_num [cylPbr_tEnd])]
  simp only [cylBody]
  rw [cylPbr_constStep, cylPbr_center1, cylPbr_dt]
  simp only [histUpd, cylBreak]
  norm_num [show cylPbr.Tc = 0 from rfl]

theorem c5s5 : cylRun cylPbr 5 =
    ⟨cylInit cylPbr, (1/2), [((1/10), 1)], false⟩ := by
  rw [show (5:ℕ) = 4 + 1 from rfl, cylRun_succ, c5s4]
  unfold cylNext
  rw [if_pos (by norm_num [cylPbr_tEnd])]
  simp only [cylBody]
  rw [cylPbr_constStep, cylPbr_center1, cylPbr_dt]
  simp only [histUpd, cylBreak]
  norm_num [show cylPbr.Tc = 0 from rfl]

theorem c5s6 : cylRun cylPbr 6 =
    ⟨cylInit cylPbr, (3/5), [((3/5), 1), ((1/10), 1)], false⟩ := by
  rw [show (6:ℕ) = 5 + 1 from rfl, cylRun_succ, c5s5]
  unfold cylNext
  rw [if_pos (by norm_num [cylPbr_tEnd])]
  simp only [cylBody]
  rw [cylPbr_constStep, cylPbr_center1, cylPbr_dt]
  simp only [histUpd, cylBreak]
  norm_num [show cylPbr.Tc = 0 from rfl]

theorem c5s7 : cylRun cylPbr 7 =
    ⟨cylInit cylPbr, (7/10), [((3/5), 1), ((1/10), 1)], false⟩ := by
  rw [show (7:ℕ) = 6 + 1 from rfl, cylRun_succ, c5s6]
  unfold cylNext
  rw [if_pos (by norm_num [cylPbr_tEnd])]
  simp only [cylBody]
  rw [cylPbr_constStep, cylPbr_center1, cylPbr_dt]
  simp only [histUpd, cylBreak]
  norm_num [show cylPbr.Tc = 0 from rfl]

theorem c5s8 : cylRun cylPbr 8 =
    ⟨cylInit cylPbr, (4/5), [((3/5), 1), ((1/10), 1)], false⟩ := by
  rw [show (8:ℕ) = 7 + 1 from rfl, cylRun_succ, c5s7]
  unfold cylNext
  rw [if_pos (by norm_num [cylPbr_tEnd])]
  simp only [cylBody]
  rw [cylPbr_constStep, cylPbr_center1, cylPbr_dt]
  simp only [histUpd, cylBreak]
  norm_num [show cylPbr.Tc = 0 from rfl]

theorem c5s9 : cylRun cylPbr 9 =
    ⟨cylInit cylPbr, (9/10), [((3/5), 1), ((1/10), 1)], false⟩ := by
  rw [show (9:ℕ) = 8 + 1 from rfl, cylRun_succ, c5s8]
  unfold cylNext
  rw [if_pos (by norm_num [cylPbr_tEnd])]
  simp only [cylBody]
  rw [cylPbr_constStep, cylPbr_center1, cylPbr_dt]
  simp only [histUpd, cylBreak]
  norm_num [show cylPbr.Tc = 0 from rfl]

theorem c5s10 : cylRun cylPbr 10 =
    ⟨cylInit cylPbr, 1, [((3/5), 1), ((1/10), 1)], false⟩ := by
  rw [show (10:ℕ) = 9 + 1 from rfl, cylRun_succ, c5s9]
  unfold cylNext
  rw [if_pos (by norm_num [cylPbr_tEnd])]
  simp only [cylBody]
  rw [cylPbr_constStep, cylPbr_center1, cylPbr_dt]
  simp only [histUpd, cylBreak]
  norm_num [show cylPbr.Tc = 0 from rfl]

theorem c5s11 : cylRun cylPbr 11 =
    ⟨cylInit cylPbr, (11/10), [((11/10), 1), ((3/5), 1), ((1/10), 1)], false⟩ := by
  rw [show (11:ℕ) = 10 + 1 from rfl, cylRun_succ, c5s10]
  unfold cylNext
  rw [if_pos (by norm_num [cylPbr_tEnd])]
  simp only [cylBody]
  rw [cylPbr_constStep, cylPbr_center1, cylPbr_dt]
  simp only [histUpd, cylBreak]
  norm_num [show cylPbr.Tc = 0 from rfl]

theorem c5s12 : cylRun cylPbr 12 =
    ⟨cylInit cylPbr, (6/5), [((11/10), 1), ((3/5), 1), ((1/10), 1)], false⟩ := by
  rw [show (12:ℕ) = 11 + 1 from rfl, cylRun_succ, c5s11]
  unfold cylNext
  rw [if_pos (by norm_num [cylPbr_tEnd])]
  simp only [cylBody]
  rw [cylPbr_constStep, cylPbr_center1, cylPbr_dt]
  simp only [histUpd, cylBreak]
  norm_num [show cylPbr.Tc = 0 from rfl]

theorem c5s13 : cylRun cylPbr 13 =
    ⟨cylInit cylPbr, (13/10), [((11/10), 1), ((3/5), 1), ((1/10), 1)], false⟩ := by
  rw [show (13:ℕ) = 12 + 1 from rfl, cylRun_succ, c5s12]
  unfold cylNext
  rw [if_pos (by norm_num [cylPbr_tEnd])]
  simp only [cylBody]
  rw [cylPbr_constStep, cylPbr_center1, cylPbr_dt]
  simp only [histUpd, cylBreak]
  norm_num [show cylPbr.Tc = 0 from rfl]

theorem c5s14 : cylRun cylPbr 14 =
    ⟨cylInit cylPbr, (7/5), [((11/10), 1), ((3/5), 1), ((1/10), 1)], false⟩ := by
  rw [show (14:ℕ) = 13 + 1 from rfl, cylRun_succ, c5s13]
  unfold cylNext
  rw [if_pos (by norm_num [cylPbr_tEnd])]
  simp only [cylBody]
  rw [cylPbr_constStep, cylPbr_center1, cylPbr_dt]
  simp only [histUpd, cylBreak]
  norm_num [show cylPbr.Tc = 0 from rfl]

theorem c5s15 : cylRun cylPbr 15 =
    ⟨cylInit cylPbr, (3/2), [((11/10), 1), ((3/5), 1), ((1/10), 1)], false⟩ := by
  rw [show (15:ℕ) = 14 + 1 from rfl, cylRun_succ, c5s14]
  unfold cylNext
  rw [if_pos (by norm_num [cylPbr_tEnd])]
  simp only [cylBody]
  rw [cylPbr_constStep, cylPbr_center1, cylPbr_dt]
  simp only [histUpd, cylBreak]
  norm_num [show cylPbr.Tc = 0 from rfl]

theorem c5s16 : cylRun cylPbr 16 =
    ⟨cylInit cylPbr, (8/5), [((8/5), 1), ((11/10), 1), ((3/5), 1), ((1/10), 1)], false⟩ := by
  rw [show (16:ℕ) = 15 + 1 from rfl, cylRun_succ, c5s15]
  unfold cylNext
  rw [if_pos (by norm_num [cylPbr_tEnd])]
  simp only [cylBody]
  rw [cylPbr_constStep, cylPbr_center1, cylPbr_dt]
  simp only [histUpd, cylBreak]
  norm_num [show cylPbr.Tc = 0 from rfl]

theorem c5s17 : cylRun cylPbr 17 =
    ⟨cylInit cylPbr, (17/10), [((8/5), 1), ((11/10), 1), ((3/5), 1), ((1/10), 1)], false⟩ := by
  rw [show (17:ℕ) = 16 + 1 from rfl, cylRun_succ, c5s16]
  unfold cylNext
  rw [if_pos (by norm_num [cylPbr_tEnd])]
  simp only [cylBody]
  rw [cylPbr_constStep, cylPbr_center1, cylPbr_dt]
  simp only [histUpd, cylBreak]
  norm_num [show cylPbr.Tc = 0 from rfl]

theorem c5s18 : cylRun cylPbr 18 =
    ⟨cylInit cylPbr, (9/5), [((8/5), 1), ((11/10), 1), ((3/5), 1), ((1/10), 1)], false⟩ := by
  rw [show (18:ℕ) = 17 + 1 from rfl, cylRun_succ, c5s17]
  unfold cylNext
  rw [if_pos (by norm_num [cylPbr_tEnd])]
  simp only [cylBody]
  rw [cylPbr_constStep, cylPbr_center1, cylPbr_dt]
  simp only [histUpd, cylBreak]
  norm_num [show cylPbr.Tc = 0 from rfl]

theorem c5s19 : cylRun cylPbr 19 =
    ⟨cylInit cylPbr, (19/10), [((8/5), 1), ((11/10), 1), ((3/5), 1), ((1/10), 1)], false⟩ := by
  rw [show (19:ℕ) = 18 + 1 from rfl, cylRun_succ, c5s18]
  unfold cylNext
  rw [if_pos (by norm_num [cylPbr_tEnd])]
  simp only [cylBody]
  rw [cylPbr_constStep, cylPbr_center1, cylPbr_dt]
  simp only [histUpd, cylBreak]
  norm_num [show cylPbr.Tc = 0 from rfl]

theorem c5s20 : cylRun cylPbr 20 =
    ⟨cylInit cylPbr, 2, [((8/5), 1), ((11/10), 1), ((3/5), 1), ((1/10), 1)], false⟩ := by
  rw [show (20:ℕ) = 19 + 1 from rfl, cylRun_succ, c5s19]
  unfold cylNext
  rw [if_pos (by norm_num [cylPbr_tEnd])]
  simp only [cylBody]
  rw [cylPbr_constStep, cylPbr_center1, cylPbr_dt]
  simp only [histUpd, cylBreak]
  norm_num [show cylPbr.Tc = 0 from rfl]

theorem c5s21 : cylRun cylPbr 21 =
    ⟨cylInit cylPbr, (21/10), [((21/10), 1), ((8/5), 1), ((11/10), 1), ((3/5), 1), ((1/10), 1)], false⟩ := by
  rw [show (21:ℕ) = 20 + 1 from rfl, cylRun_succ, c5s20]
  unfold cylNext
  rw [if_pos (by norm_num [cylPbr_tEnd])]
  simp only [cylBody]
  rw [cylPbr_constStep, cylPbr_center1, cylPbr_dt]
  simp only [histUpd, cylBreak]
  norm_num [show cylPbr.Tc = 0 from rfl]

theorem c5s22 : cylRun cylPbr 22 =
    ⟨cylInit cylPbr, (11/5), [((21/10), 1), ((8/5), 1), ((11/10), 1), ((3/5), 1), ((1/10), 1)], false⟩ := by
  rw [show (22:ℕ) = 21 + 1 from rfl, cylRun_succ, c5s21]
  unfold cylNext
  rw [if_pos (by norm_num [cylPbr_tEnd])]
  simp only [cylBody]
  rw [cylPbr_constStep, cylPbr_center1, cylPbr_dt]
  simp only [histUpd, cylBreak]
  norm_num [show cylPbr.Tc = 0 from rfl]

theorem c5s23 : cylRun cylPbr 23 =
    ⟨cylInit cylPbr, (23/10), [((21/10), 1), ((8/5), 1), ((11/10), 1), ((3/5), 1), ((1/10), 1)], false⟩ := by
  rw [show (23:ℕ) = 22 + 1 from rfl, cylRun_succ, c5s22]
  unfold cylNext
  rw [if_pos (by norm_num [cylPbr_tEnd])]
  simp only [cylBody]
  rw [cylPbr_constStep, cylPbr_center1, cylPbr_dt]
  simp only [histUpd, cylBreak]
  norm_num [show cylPbr.Tc = 0 from rfl]

theorem c5s24 : cylRun cylPbr 24 =
    ⟨cylInit cylPbr, (12/5), [((21/10), 1), ((8/5), 1), ((11/10), 1), ((3/5), 1), ((1/10), 1)], false⟩ := by
  rw [show (24:ℕ) = 23 + 1 from rfl, cylRun_succ, c5s23]
  unfold cylNext
  rw [if_pos (by norm_num [cylPbr_tEnd])]
  simp only [cylBody]
  rw [cylPbr_constStep, cylPbr_center1, cylPbr_dt]
  simp only [histUpd, cylBreak]
  norm_num [show cylPbr.Tc = 0 from rfl]

theorem c5s25 : cylRun cylPbr 25 =
    ⟨cylInit cylPbr, (5/2), [((21/10), 1), ((8/5), 1), ((11/10), 1), ((3/5), 1), ((1/10), 1)], false⟩ := by
  rw [show (25:ℕ) = 24 + 1 from rfl, cylRun_succ, c5s24]
  unfold cylNext
  rw [if_pos (by norm_num [cylPbr_tEnd])]
  simp only [cylBody]
  rw [cylPbr_constStep, cylPbr_center1, cylPbr_dt]
  simp only [histUpd, cylBreak]
  norm_num [show cylPbr.Tc = 0 from rfl]

theorem c5s26 : cylRun cylPbr 26 =
    ⟨cylInit cylPbr, (13/5), [((13/5), 1), ((21/10), 1), ((8/5), 1), ((11/10), 1), ((3/5), 1), ((1/10), 1)], false⟩ := by
  rw [show (26:ℕ) = 25 + 1 from rfl, cylRun_succ, c5s25]
  unfold cylNext
  rw [if_pos (by norm_num [cylPbr_tEnd])]
  simp only [cylBody]
  rw [cylPbr_constStep, cylPbr_center1, cylPbr_dt]
  simp only [histUpd, cylBreak]
  norm_num [show cylPbr.Tc = 0 from rfl]

theorem c5s27 : cylRun cylPbr 27 =
    ⟨cylInit cylPbr, (27/10), [((13/5), 1), ((21/10), 1), ((8/5), 1), ((11/10), 1), ((3/5), 1), ((1/10), 1)], false⟩ := by
  rw [show (27:ℕ) = 26 + 1 from rfl, cylRun_succ, c5s26]
  unfold cylNext
  rw [if_pos (by norm_num [cylPbr_tEnd])]
  simp only [cylBody]
  rw [cylPbr_constStep, cylPbr_center1, cylPbr_dt]
  simp only [histUpd, cylBreak]
  norm_num [show cylPbr.Tc = 0 from rfl]

theorem c5s28 : cylRun cylPbr 28 =
    ⟨cylInit cylPbr, (14/5), [((13/5), 1), ((21/10), 1), ((8/5), 1), ((11/10), 1), ((3/5), 1), ((1/10), 1)], false⟩ := by
  rw [show (28:ℕ) = 27 + 1 from rfl, cylRun_succ, c5s27]
  unfold cylNext
  rw [if_pos (by norm_num [cylPbr_tEnd])]
  simp only [cylBody]
  rw [cylPbr_constStep, cylPbr_center1, cylPbr_dt]
  simp only [histUpd, cylBreak]
  norm_num [show cylPbr.Tc = 0 from rfl]

theorem c5s29 : cylRun cylPbr 29 =
    ⟨cylInit cylPbr, (29/10), [((13/5), 1), ((21/10), 1), ((8/5), 1), ((11/10), 1), ((3/5), 1), ((1/10), 1)], false⟩ := by
  rw [show (29:ℕ) = 28 + 1 from rfl, cylRun_succ, c5s28]
  unfold cylNext
  rw [if_pos (by norm_num [cylPbr_tEnd])]
  simp only [cylBody]
  rw [cylPbr_constStep, cylPbr_center1, cylPbr_dt]
  simp only [histUpd, cylBreak]
  norm_num [show cylPbr.Tc = 0 from rfl]

theorem c5s30 : cylRun cylPbr 30 =
    ⟨cylInit cylPbr, 3, [((13/5), 1), ((21/10), 1), ((8/5), 1), ((11/10), 1), ((3/5), 1), ((1/10), 1)], false⟩ := by
  rw [show (30:ℕ) = 29 + 1 from rfl, cylRun_succ, c5s29]
  unfold cylNext
  rw [if_pos (by norm_num [cylPbr_tEnd])]
  simp only [cylBody]
  rw [cylPbr_constStep, cylPbr_center1, cylPbr_dt]
  simp only [histUpd, cylBreak]
  norm_num [show cylPbr.Tc = 0 from rfl]

theorem c5s31 : cylRun cylPbr 31 =
    ⟨cylInit cylPbr, (31/10), [((31/10), 1), ((13/5), 1), ((21/10), 1), ((8/5), 1), ((11/10), 1), ((3/5), 1), ((1/10), 1)], false⟩ := by
  rw [show (31:ℕ) = 30 + 1 from rfl, cylRun_succ, c5s30]
  unfold cylNext
  rw [if_pos (by norm_num [cylPbr_tEnd])]
  simp only [cylBody]
  rw [cylPbr_constStep, cylPbr_center1, cylPbr_dt]
  simp only [histUpd, cylBreak]
  norm_num [show cylPbr.Tc = 0 from rfl]

theorem c5s32 : cylRun cylPbr 32 =
    ⟨cylInit cylPbr, (16/5), [((31/10), 1), ((13/5), 1), ((21/10), 1), ((8/5), 1), ((11/10), 1), ((3/5), 1), ((1/10), 1)], false⟩ := by
  rw [show (32:ℕ) = 31 + 1 from rfl, cylRun_succ, c5s31]
  unfold cylNext
  rw [if_pos (by norm_num [cylPbr_tEnd])]
  simp only [cylBody]
  rw [cylPbr_constStep, cylPbr_center1, cylPbr_dt]
  simp only [histUpd, cylBreak]
  norm_num [show cylPbr.Tc = 0 from rfl]

theorem c5s33 : cylRun cylPbr 33 =
    ⟨cylInit cylPbr, (33/10), [((31/10), 1), ((13/5), 1), ((21/10), 1), ((8/5), 1), ((11/10), 1), ((3/5), 1), ((1/10), 1)], false⟩ := by
  rw [show (33:ℕ) = 32 + 1 from rfl, cylRun_succ, c5s32]
  unfold cylNext
  rw [if_pos (by norm_num [cylPbr_tEnd])]
  simp only [cylBody]
  rw [cylPbr_constStep, cylPbr_center1, cylPbr_dt]
  simp only [histUpd, cylBreak]
  norm_num [show cylPbr.Tc = 0 from rfl]

theorem c5s34 : cylRun cylPbr 34 =
    ⟨cylInit cylPbr, (17/5), [((31/10), 1), ((13/5), 1), ((21/10), 1), ((8/5), 1), ((11/10), 1), ((3/5), 1), ((1/10), 1)], false⟩ := by
  rw [show (34:ℕ) = 33 + 1 from rfl, cylRun_succ, c5s33]
  unfold cylNext
  rw [if_pos (by norm_num [cylPbr_tEnd])]
  simp only [cylBody]
  rw [cylPbr_constStep, cylPbr_center1, cylPbr_dt]
  simp only [histUpd, cylBreak]
  norm_num [show cylPbr.Tc = 0 from rfl]

theorem c5s35 : cylRun cylPbr 35 =
    ⟨cylInit cylPbr, (7/2), [((31/10), 1), ((13/5), 1), ((21/10), 1), ((8/5), 1), ((11/10), 1), ((3/5), 1), ((1/10), 1)], false⟩ := by
  rw [show (35:ℕ) = 34 + 1 from rfl, cylRun_succ, c5s34]
  unfold cylNext
  rw [if_pos (by norm_num [cylPbr_tEnd])]
  simp only [cylBody]
  rw [cylPbr_constStep, cylPbr_center1, cylPbr_dt]
  simp only [histUpd, cylBreak]
  norm_num [show cylPbr.Tc = 0 from rfl]

theorem c5s36 : cylRun cylPbr 36 =
    ⟨cylInit cylPbr, (18/5), [((18/5), 1), ((31/10), 1), ((13/5), 1), ((21/10), 1), ((8/5), 1), ((11/10), 1), ((3/5), 1), ((1/10), 1)], false⟩ := by
  rw [show (36:ℕ) = 35 + 1 from rfl, cylRun_succ, c5s35]
  unfold cylNext
  rw [if_pos (by norm_num [cylPbr_tEnd])]
  simp only [cylBody]
  rw [cylPbr_constStep, cylPbr_center1, cylPbr_dt]
  simp only [histUpd, cylBreak]
  norm_num [show cylPbr.Tc = 0 from rfl]

theorem c5s37 : cylRun cylPbr 37 =
    ⟨cylInit cylPbr, (37/10), [((18/5), 1), ((31/10), 1), ((13/5), 1), ((21/10), 1), ((8/5), 1), ((11/10), 1), ((3/5), 1), ((1/10), 1)], false⟩ := by
  rw [show (37:ℕ) = 36 + 1 from rfl, cylRun_succ, c5s36]
  unfold cylNext
  rw [if_pos (by norm_num [cylPbr_tEnd])]
  simp only [cylBody]
  rw [cylPbr_constStep, cylPbr_center1, cylPbr_dt]
  simp only [histUpd, cylBreak]
  norm_num [show cylPbr.Tc = 0 from rfl]

theorem c5s38 : cylRun cylPbr 38 =
    ⟨cylInit cylPbr, (19/5), [((18/5), 1), ((31/10), 1), ((13/5), 1), ((21/10), 1), ((8/5), 1), ((11/10), 1), ((3/5), 1), ((1/10), 1)], false⟩ := by
  rw [show (38:ℕ) = 37 + 1 from rfl, cylRun_succ, c5s37]
  unfold cylNext
  rw [if_pos (by norm_num [cylPbr_tEnd])]
  simp only [cylBody]
  rw [cylPbr_constStep, cylPbr_center1, cylPbr_dt]
  simp only [histUpd, cylBreak]
  norm_num [show cylPbr.Tc = 0 from rfl]

theorem c5s39 : cylRun cylPbr 39 =
    ⟨cylInit cylPbr, (39/10), [((18/5), 1), ((31/10), 1), ((13/5), 1), ((21/10), 1), ((8/5), 1), ((11/10), 1), ((3/5), 1), ((1/10), 1)], false⟩ := by
  rw [show (39:ℕ) = 38 + 1 from rfl, cylRun_succ, c5s38]
  unfold cylNext
  rw [if_pos (by norm_num [cylPbr_tEnd])]
  simp only [cylBody]
  rw [cylPbr_constStep, cylPbr_center1, cylPbr_dt]
  simp only [histUpd, cylBreak]
  norm_num [show cylPbr.Tc = 0 from rfl]

theorem c5s40 : cylRun cylPbr 40 =
    ⟨cylInit cylPbr, 4, [((18/5), 1), ((31/10), 1), ((13/5), 1), ((21/10), 1), ((8/5), 1), ((11/10), 1), ((3/5), 1), ((1/10), 1)], false⟩ := by
  rw [show (40:ℕ) = 39 + 1 from rfl, cylRun_succ, c5s39]
  unfold cylNext
  rw [if_pos (by norm_num [cylPbr_tEnd])]
  simp only [cylBody]
  rw [cylPbr_constStep, cylPbr_center1, cylPbr_dt]
  simp only [histUpd, cylBreak]
  norm_num [show cylPbr.Tc = 0 from rfl]

theorem c5s41 : cylRun cylPbr 41 =
    ⟨cylInit cylPbr, (41/10), [((41/10), 1), ((18/5), 1), ((31/10), 1), ((13/5), 1), ((21/10), 1), ((8/5), 1), ((11/10), 1), ((3/5), 1), ((1/10), 1)], false⟩ := by
  rw [show (41:ℕ) = 40 + 1 from rfl, cylRun_succ, c5s40]
  unfold cylNext
  rw [if_pos (by norm_num [cylPbr_tEnd])]
  simp only [cylBody]
  rw [cylPbr_constStep, cylPbr_center1, cylPbr_dt]
  simp only [histUpd, cylBreak]
  norm_num [show cylPbr.Tc = 0 from rfl]

theorem c5s42 : cylRun cylPbr 42 =
    ⟨cylInit cylPbr, (21/5), [((41/10), 1), ((18/5), 1), ((31/10), 1), ((13/5), 1), ((21/10), 1), ((8/5), 1), ((11/10), 1), ((3/5), 1), ((1/10), 1)], false⟩ := by
  rw [show (42:ℕ) = 41 + 1 from rfl, cylRun_succ, c5s41]
  unfold cylNext
  rw [if_pos (by norm_num [cylPbr_tEnd])]
  simp only [cylBody]
  rw [cylPbr_constStep, cylPbr_center1, cylPbr_dt]
  simp only [histUpd, cylBreak]
  norm_num [show cylPbr.Tc = 0 from rfl]

theorem c5s43 : cylRun cylPbr 43 =
    ⟨cylInit cylPbr, (43/10), [((41/10), 1), ((18/5), 1), ((31/10), 1), ((13/5), 1), ((21/10), 1), ((8/5), 1), ((11/10), 1), ((3/5), 1), ((1/10), 1)], false⟩ := by
  rw [show (43:ℕ) = 42 + 1 from rfl, cylRun_succ, c5s42]
  unfold cylNext
  rw [if_pos (by norm_num [cylPbr_tEnd])]
  simp only [cylBody]
  rw [cylPbr_constStep, cylPbr_center1, cylPbr_dt]
  simp only [histUpd, cylBreak]
  norm_num [show cylPbr.Tc = 0 from rfl]

theorem c5s44 : cylRun cylPbr 44 =
    ⟨cylInit cylPbr, (22/5), [((41/10), 1), ((18/5), 1), ((31/10), 1), ((13/5), 1), ((21/10), 1), ((8/5), 1), ((11/10), 1), ((3/5), 1), ((1/10), 1)], false⟩ := by
  rw [show (44:ℕ) = 43 + 1 from rfl, cylRun_succ, c5s43]
  unfold cylNext
  rw [if_pos (by norm_num [cylPbr_tEnd])]
  simp only [cylBody]
  rw [cylPbr_constStep, cylPbr_center1, cylPbr_dt]
  simp only [histUpd, cylBreak]
  norm_num [show cylPbr.Tc = 0 from rfl]

theorem c5s45 : cylRun cylPbr 45 =
    ⟨cylInit cylPbr, (9/2), [((41/10), 1), ((18/5), 1), ((31/10), 1), ((13/5), 1), ((21/10), 1), ((8/5), 1), ((11/10), 1), ((3/5), 1), ((1/10), 1)], false⟩ := by
  rw [show (45:ℕ) = 44 + 1 from rfl, cylRun_succ, c5s44]
  unfold cylNext
  rw [if_pos (by norm_num [cylPbr_tEnd])]
  simp only [cylBody]
  rw [cylPbr_constStep, cylPbr_center1, cylPbr_dt]
  simp only [histUpd, cylBreak]
  norm_num [show cylPbr.Tc = 0 from rfl]

theorem c5s46 : cylRun cylPbr 46 =
    ⟨cylInit cylPbr, (23/5), [((23/5), 1), ((41/10), 1), ((18/5), 1), ((31/10), 1), ((13/5), 1), ((21/10), 1), ((8/5), 1), ((11/10), 1), ((3/5), 1), ((1/10), 1)], false⟩ := by
  rw [show (46:ℕ) = 45 + 1 from rfl, cylRun_succ, c5s45]
  unfold cylNext
  rw [if_pos (by norm_num [cylPbr_tEnd])]
  simp only [cylBody]
  rw [cylPbr_constStep, cylPbr_center1, cylPbr_dt]
  simp only [histUpd, cylBreak]
  norm_num [show cylPbr.Tc = 0 from rfl]

theorem c5s47 : cylRun cylPbr 47 =
    ⟨cylInit cylPbr, (47/10), [((23/5), 1), ((41/10), 1), ((18/5), 1), ((31/10), 1), ((13/5), 1), ((21/10), 1), ((8/5), 1), ((11/10), 1), ((3/5), 1), ((1/10), 1)], false⟩ := by
  rw [show (47:ℕ) = 46 + 1 from rfl, cylRun_succ, c5s46]
  unfold cylNext
  rw [if_pos (by norm_num [cylPbr_tEnd])]
  simp only [cylBody]
  rw [cylPbr_constStep, cylPbr_center1, cylPbr_dt]
  simp only [histUpd, cylBreak]
  norm_num [show cylPbr.Tc = 0 from rfl]

theorem c5s48 : cylRun cylPbr 48 =
    ⟨cylInit cylPbr, (24/5), [((23/5), 1), ((41/10), 1), ((18/5), 1), ((31/10), 1), ((13/5), 1), ((21/10), 1), ((8/5), 1), ((11/10), 1), ((3/5), 1), ((1/10), 1)], false⟩ := by
  rw [show (48:ℕ) = 47 + 1 from rfl, cylRun_succ, c5s47]
  unfold cylNext
  rw [if_pos (by norm_num [cylPbr_tEnd])]
  simp only [cylBody]
  rw [cylPbr_constStep, cylPbr_center1, cylPbr_dt]
  simp only [histUpd, cylBreak]
  norm_num [show cylPbr.Tc = 0 from rfl]

theorem c5s49 : cylRun cylPbr 49 =
    ⟨cylInit cylPbr, (49/10), [((23/5), 1), ((41/10), 1), ((18/5), 1), ((31/10), 1), ((13/5), 1), ((21/10), 1), ((8/5), 1), ((11/10), 1), ((3/5), 1), ((1/10), 1)], false⟩ := by
  rw [show (49:ℕ) = 48 + 1 from rfl, cylRun_succ, c5s48]
  unfold cylNext
  rw [if_pos (by norm_num [cylPbr_tEnd])]
  simp only [cylBody]
  rw [cylPbr_constStep, cylPbr_center1, cylPbr_dt]
  simp only [histUpd, cylBreak]
  norm_num [show cylPbr.Tc = 0 from rfl]

theorem c5s50 : cylRun cylPbr 50 =
    ⟨cylInit cylPbr, 5, [((23/5), 1), ((41/10), 1), ((18/5), 1), ((31/10), 1), ((13/5), 1), ((21/10), 1), ((8/5), 1), ((11/10), 1), ((3/5), 1), ((1/10), 1)], false⟩ := by
  rw [show (50:ℕ) = 49 + 1 from rfl, cylRun_succ, c5s49]
  unfold cylNext
  rw [if_pos (by norm_num [cylPbr_tEnd])]
  simp only [cylBody]
  rw [cylPbr_constStep, cylPbr_center1, cylPbr_dt]
  simp only [histUpd, cylBreak]
  norm_num [show cylPbr.Tc = 0 from rfl]

theorem c5s51 : cylRun cylPbr 51 =
    ⟨cylInit cylPbr, (51/10), [((51/10), 1), ((23/5), 1), ((41/10), 1), ((18/5), 1), ((31/10), 1), ((13/5), 1), ((21/10), 1), ((8/5), 1), ((11/10), 1), ((3/5), 1), ((1/10), 1)], false⟩ := by
  rw [show (51:ℕ) = 50 + 1 from rfl, cylRun_succ, c5s50]
  unfold cylNext
  rw [if_pos (by norm_num [cylPbr_tEnd])]
  simp only [cylBody]
  rw [cylPbr_constStep, cylPbr_center1, cylPbr_dt]
  simp only [histUpd, cylBreak]
  norm_num [show cylPbr.Tc = 0 from rfl]

theorem c5s52 : cylRun cylPbr 52 =
    ⟨cylInit cylPbr, (26/5), [((51/10), 1), ((23/5), 1), ((41/10), 1), ((18/5), 1), ((31/10), 1), ((13/5), 1), ((21/10), 1), ((8/5), 1), ((11/10), 1), ((3/5), 1), ((1/10), 1)], false⟩ := by
  rw [show (52:ℕ) = 51 + 1 from rfl, cylRun_succ, c5s51]
  unfold cylNext
  rw [if_pos (by norm_num [cylPbr_tEnd])]
  simp only [cylBody]
  rw [cylPbr_constStep, cylPbr_center1, cylPbr_dt]
  simp only [histUpd, cylBreak]
  norm_num [show cylPbr.Tc = 0 from rfl]

theorem c5s53 : cylRun cylPbr 53 =
    ⟨cylInit cylPbr, (53/10), [((51/10), 1), ((23/5), 1), ((41/10), 1), ((18/5), 1), ((31/10), 1), ((13/5), 1), ((21/10), 1), ((8/5), 1), ((11/10), 1), ((3/5), 1), ((1/10), 1)], false⟩ := by
  rw [show (53:ℕ) = 52 + 1 from rfl, cylRun_succ, c5s52]
  unfold cylNext
  rw [if_pos (by norm_num [cylPbr_tEnd])]
  simp only [cylBody]
  rw [cylPbr_constStep, cylPbr_center1, cylPbr_dt]
  simp only [histUpd, cylBreak]
  norm_num [show cylPbr.Tc = 0 from rfl]

theorem c5s54 : cylRun cylPbr 54 =
    ⟨cylInit cylPbr, (27/5), [((51/10), 1), ((23/5), 1), ((41/10), 1), ((18/5), 1), ((31/10), 1), ((13/5), 1), ((21/10), 1), ((8/5), 1), ((11/10), 1), ((3/5), 1), ((1/10), 1)], false⟩ := by
  rw [show (54:ℕ) = 53 + 1 from rfl, cylRun_succ, c5s53]
  unfold cylNext
  rw [if_pos (by norm_num [cylPbr_tEnd])]
  simp only [cylBody]
  rw [cylPbr_constStep, cylPbr_center1, cylPbr_dt]
  simp only [histUpd, cylBreak]
  norm_num [show cylPbr.Tc = 0 from rfl]

theorem c5s55 : cylRun cylPbr 55 =
    ⟨cylInit cylPbr, (11/2), [((51/10), 1), ((23/5), 1), ((41/10), 1), ((18/5), 1), ((31/10), 1), ((13/5), 1), ((21/10), 1), ((8/5), 1), ((11/10), 1), ((3/5), 1), ((1/10), 1)], false⟩ := by
  rw [show (55:ℕ) = 54 + 1 from rfl, cylRun_succ, c5s54]
  unfold cylNext
  rw [if_pos (by norm_num [cylPbr_tEnd])]
  simp only [cylBody]
  rw [cylPbr_constStep, cylPbr_center1, cylPbr_dt]
  simp only [histUpd, cylBreak]
  norm_num [show cylPbr.Tc = 0 from rfl]

theorem c5s56 : cylRun cylPbr 56 =
    ⟨cylInit cylPbr, (28/5), [((28/5), 1), ((51/10), 1), ((23/5), 1), ((41/10), 1), ((18/5), 1), ((31/10), 1), ((13/5), 1), ((21/10), 1), ((8/5), 1), ((11/10), 1), ((3/5), 1), ((1/10), 1)], false⟩ := by
  rw [show (56:ℕ) = 55 + 1 from rfl, cylRun_succ, c5s55]
  unfold cylNext
  rw [if_pos (by norm_num [cylPbr_tEnd])]
  simp only [cylBody]
  rw [cylPbr_constStep, cylPbr_center1, cylPbr_dt]
  simp only [histUpd, cylBreak]
  norm_num [show cylPbr.Tc = 0 from rfl]

theorem c5s57 : cylRun cylPbr 57 =
    ⟨cylInit cylPbr, (57/10), [((28/5), 1), ((51/10), 1), ((23/5), 1), ((41/10), 1), ((18/5), 1), ((31/10), 1), ((13/5), 1), ((21/10), 1), ((8/5), 1), ((11/10), 1), ((3/5), 1), ((1/10), 1)], false⟩ := by
  rw [show (57:ℕ) = 56 + 1 from rfl, cylRun_succ, c5s56]
  unfold cylNext
  rw [if_pos (by norm_num [cylPbr_tEnd])]
  simp only [cylBody]
  rw [cylPbr_constStep, cylPbr_center1, cylPbr_dt]
  simp only [histUpd, cylBreak]
  norm_num [show cylPbr.Tc = 0 from rfl]

theorem c5s58 : cylRun cylPbr 58 =
    ⟨cylInit cylPbr, (29/5), [((28/5), 1), ((51/10), 1), ((23/5), 1), ((41/10), 1), ((18/5), 1), ((31/10), 1), ((13/5), 1), ((21/10), 1), ((8/5), 1), ((11/10), 1), ((3/5), 1), ((1/10), 1)], false⟩ := by
  rw [show (58:ℕ) = 57 + 1 from rfl, cylRun_succ, c5s57]
  unfold cylNext
  rw [if_pos (by norm_num [cylPbr_tEnd])]
  simp only [cylBody]
  rw [cylPbr_constStep, cylPbr_center1, cylPbr_dt]
  simp only [histUpd, cylBreak]
  norm_num [show cylPbr.Tc = 0 from rfl]

theorem c5s59 : cylRun cylPbr 59 =
    ⟨cylInit cylPbr, (59/10), [((28/5), 1), ((51/10), 1), ((23/5), 1), ((41/10), 1), ((18/5), 1), ((31/10), 1), ((13/5), 1), ((21/10), 1), ((8/5), 1), ((11/10), 1), ((3/5), 1), ((1/10), 1)], false⟩ := by
  rw [show (59:ℕ) = 58 + 1 from rfl, cylRun_succ, c5s58]
  unfold cylNext
  rw [if_pos (by norm_num [cylPbr_tEnd])]
  simp only [cylBody]
  rw [cylPbr_constStep, cylPbr_center1, cylPbr_dt]
  simp only [histUpd, cylBreak]
  norm_num [show cylPbr.Tc = 0 from rfl]

theorem c5s60 : cylRun cylPbr 60 =
    ⟨cylInit cylPbr, 6, [((28/5), 1), ((51/10), 1), ((23/5), 1), ((41/10), 1), ((18/5), 1), ((31/10), 1), ((13/5), 1), ((21/10), 1), ((8/5), 1), ((11/10), 1), ((3/5), 1), ((1/10), 1)], false⟩ := by
  rw [show (60:ℕ) = 59 + 1 from rfl, cylRun_succ, c5s59]
  unfold cylNext
  rw [if_pos (by norm_num [cylPbr_tEnd])]
  simp only [cylBody]
  rw [cylPbr_constStep, cylPbr_center1, cylPbr_dt]
  simp only [histUpd, cylBreak]
  norm_num [show cylPbr.Tc = 0 from rfl]

theorem c5s61 : cylRun cylPbr 61 =
    ⟨cylInit cylPbr, (61/10), [((61/10), 1), ((28/5), 1), ((51/10), 1), ((23/5), 1), ((41/10), 1), ((18/5), 1), ((31/10), 1), ((13/5), 1), ((21/10), 1), ((8/5), 1), ((11/10), 1), ((3/5), 1), ((1/10), 1)], false⟩ := by
  rw [show (61:ℕ) = 60 + 1 from rfl, cylRun_succ, c5s60]
  unfold cylNext
  rw [if_pos (by norm_num [cylPbr_tEnd])]
  simp only [cylBody]
  rw [cylPbr_constStep, cylPbr_center1, cylPbr_dt]
  simp only [histUpd, cylBreak]
  norm_num [show cylPbr.Tc = 0 from rfl]

theorem c5s62 : cylRun cylPbr 62 =
    ⟨cylInit cylPbr, (31/5), [((61/10), 1), ((28/5), 1), ((51/10), 1), ((23/5), 1), ((41/10), 1), ((18/5), 1), ((31/10), 1), ((13/5), 1), ((21/10), 1), ((8/5), 1), ((11/10), 1), ((3/5), 1), ((1/10), 1)], false⟩ := by
  rw [show (62:ℕ) = 61 + 1 from rfl, cylRun_succ, c5s61]
  unfold cylNext
  rw [if_pos (by norm_num [cylPbr_tEnd])]
  simp only [cylBody]
  rw [cylPbr_constStep, cylPbr_center1, cylPbr_dt]
  simp only [histUpd, cylBreak]
  norm_num [show cylPbr.Tc = 0 from rfl]

theorem c5s63 : cylRun cylPbr 63 =
    ⟨cylInit cylPbr, (63/10), [((61/10), 1), ((28/5), 1), ((51/10), 1), ((23/5), 1), ((41/10), 1), ((18/5), 1), ((31/10), 1), ((13/5), 1), ((21/10), 1), ((8/5), 1), ((11/10), 1), ((3/5), 1), ((1/10), 1)], false⟩ := by
  rw [show (63:ℕ) = 62 + 1 from rfl, cylRun_succ, c5s62]
  unfold cylNext
  rw [if_pos (by norm_num [cylPbr_tEnd])]
  simp only [cylBody]
  rw [cylPbr_constStep, cylPbr_center1, cylPbr_dt]
  simp only [histUpd, cylBreak]
  norm_num [show cylPbr.Tc = 0 from rfl]

theorem c5s64 : cylRun cylPbr 64 =
    ⟨cylInit cylPbr, (32/5), [((61/10), 1), ((28/5), 1), ((51/10), 1), ((23/5), 1), ((41/10), 1), ((18/5), 1), ((31/10), 1), ((13/5), 1), ((21/10), 1), ((8/5), 1), ((11/10), 1), ((3/5), 1), ((1/10), 1)], false⟩ := by
  rw [show (64:ℕ) = 63 + 1 from rfl, cylRun_succ, c5s63]
  unfold cylNext
  rw [if_pos (by norm_num [cylPbr_tEnd])]
  simp only [cylBody]
  rw [cylPbr_constStep, cylPbr_center1, cylPbr_dt]
  simp only [histUpd, cylBreak]
  norm_num [show cylPbr.Tc = 0 from rfl]

theorem c5s65 : cylRun cylPbr 65 =
    ⟨cylInit cylPbr, (13/2), [((61/10), 1), ((28/5), 1), ((51/10), 1), ((23/5), 1), ((41/10), 1), ((18/5), 1), ((31/10), 1), ((13/5), 1), ((21/10), 1), ((8/5), 1), ((11/10), 1), ((3/5), 1), ((1/10), 1)], false⟩ := by
  rw [show (65:ℕ) = 64 + 1 from rfl, cylRun_succ, c5s64]
  unfold cylNext
  rw [if_pos (by norm_num [cylPbr_tEnd])]
  simp only [cylBody]
  rw [cylPbr_constStep, cylPbr_center1, cylPbr_dt]
  simp only [histUpd, cylBreak]
  norm_num [show cylPbr.Tc = 0 from rfl]

theorem c5s66 : cylRun cylPbr 66 =
    ⟨cylInit cylPbr, (33/5), [((33/5), 1), ((61/10), 1), ((28/5), 1), ((51/10), 1), ((23/5), 1), ((41/10), 1), ((18/5), 1), ((31/10), 1), ((13/5), 1), ((21/10), 1), ((8/5), 1), ((11/10), 1), ((3/5), 1), ((1/10), 1)], false⟩ := by
  rw [show (66:ℕ) = 65 + 1 from rfl, cylRun_succ, c5s65]
  unfold cylNext
  rw [if_pos (by norm_num [cylPbr_tEnd])]
  simp only [cylBody]
  rw [cylPbr_constStep, cylPbr_center1, cylPbr_dt]
  simp only [histUpd, cylBreak]
  norm_num [show cylPbr.Tc = 0 from rfl]

theorem c5s67 : cylRun cylPbr 67 =
    ⟨cylInit cylPbr, (67/10), [((33/5), 1), ((61/10), 1), ((28/5), 1), ((51/10), 1), ((23/5), 1), ((41/10), 1), ((18/5), 1), ((31/10), 1), ((13/5), 1), ((21/10), 1), ((8/5), 1), ((11/10), 1), ((3/5), 1), ((1/10), 1)], false⟩ := by
  rw [show (67:ℕ) = 66 + 1 from rfl, cylRun_succ, c5s66]
  unfold cylNext
  rw [if_pos (by norm_num [cylPbr_tEnd])]
  simp only [cylBody]
  rw [cylPbr_constStep, cylPbr_center1, cylPbr_dt]
  simp only [histUpd, cylBreak]
  norm_num [show cylPbr.Tc = 0 from rfl]

theorem c5s68 : cylRun cylPbr 68 =
    ⟨cylInit cylPbr, (34/5), [((33/5), 1), ((61/10), 1), ((28/5), 1), ((51/10), 1), ((23/5), 1), ((41/10), 1), ((18/5), 1), ((31/10), 1), ((13/5), 1), ((21/10), 1), ((8/5), 1), ((11/10), 1), ((3/5), 1), ((1/10), 1)], false⟩ := by
  rw [show (68:ℕ) = 67 + 1 from rfl, cylRun_succ, c5s67]
  unfold cylNext
  rw [if_pos (by norm_num [cylPbr_tEnd])]
  simp only [cylBody]
  rw [cylPbr_constStep, cylPbr_center1, cylPbr_dt]
  simp only [histUpd, cylBreak]
  norm_num [show cylPbr.Tc = 0 from rfl]

theorem c5s69 : cylRun cylPbr 69 =
    ⟨cylInit cylPbr, (69/10), [((33/5), 1), ((61/10), 1), ((28/5), 1), ((51/10), 1), ((23/5), 1), ((41/10), 1), ((18/5), 1), ((31/10), 1), ((13/5), 1), ((21/10), 1), ((8/5), 1), ((11/10), 1), ((3/5), 1), ((1/10), 1)], false⟩ := by
  rw [show (69:ℕ) = 68 + 1 from rfl, cylRun_succ, c5s68]
  unfold cylNext
  rw [if_pos (by norm_num [cylPbr_tEnd])]
  simp only [cylBody]
  rw [cylPbr_constStep, cylPbr_center1, cylPbr_dt]
  simp only [histUpd, cylBreak]
  norm_num [show cylPbr.Tc = 0 from rfl]

theorem c5s70 : cylRun cylPbr 70 =
    ⟨cylInit cylPbr, 7, [((33/5), 1), ((61/10), 1), ((28/5), 1), ((51/10), 1), ((23/5), 1), ((41/10), 1), ((18/5), 1), ((31/10), 1), ((13/5), 1), ((21/10), 1), ((8/5), 1), ((11/10), 1), ((3/5), 1), ((1/10), 1)], false⟩ := by
  rw [show (70:ℕ) = 69 + 1 from rfl, cylRun_succ, c5s69]
  unfold cylNext
  rw [if_pos (by norm_num [cylPbr_tEnd])]
  simp only [cylBody]
  rw [cylPbr_constStep, cylPbr_center1, cylPbr_dt]
  simp only [histUpd, cylBreak]
  norm_num [show cylPbr.Tc = 0 from rfl]

theorem c5s71 : cylRun cylPbr 71 =
    ⟨cylInit cylPbr, (71/10), [((71/10), 1), ((33/5), 1), ((61/10), 1), ((28/5), 1), ((51/10), 1), ((23/5), 1), ((41/10), 1), ((18/5), 1), ((31/10), 1), ((13/5), 1), ((21/10), 1), ((8/5), 1), ((11/10), 1), ((3/5), 1), ((1/10), 1)], false⟩ := by
  rw [show (71:ℕ) = 70 + 1 from rfl, cylRun_succ, c5s70]
  unfold cylNext
  rw [if_pos (by norm_num [cylPbr_tEnd])]
  simp only [cylBody]
  rw [cylPbr_constStep, cylPbr_center1, cylPbr_dt]
  simp only [histUpd, cylBreak]
  norm_num [show cylPbr.Tc = 0 from rfl]

theorem c5s72 : cylRun cylPbr 72 =
    ⟨cylInit cylPbr, (36/5), [((71/10), 1), ((33/5), 1), ((61/10), 1), ((28/5), 1), ((51/10), 1), ((23/5), 1), ((41/10), 1), ((18/5), 1), ((31/10), 1), ((13/5), 1), ((21/10), 1), ((8/5), 1), ((11/10), 1), ((3/5), 1), ((1/10), 1)], false⟩ := by
  rw [show (72:ℕ) = 71 + 1 from rfl, cylRun_succ, c5s71]
  unfold cylNext
  rw [if_pos (by norm_num [cylPbr_tEnd])]
  simp only [cylBody]
  rw [cylPbr_constStep, cylPbr_center1, cylPbr_dt]
  simp only [histUpd, cylBreak]
  norm_num [show cylPbr.Tc = 0 from rfl]

theorem c5s73 : cylRun cylPbr 73 =
    ⟨cylInit cylPbr, (73/10), [((71/10), 1), ((33/5), 1), ((61/10), 1), ((28/5), 1), ((51/10), 1), ((23/5), 1), ((41/10), 1), ((18/5), 1), ((31/10), 1), ((13/5), 1), ((21/10), 1), ((8/5), 1), ((11/10), 1), ((3/5), 1), ((1/10), 1)], false⟩ := by
  rw [show (73:ℕ) = 72 + 1 from rfl, cylRun_succ, c5s72]
  unfold cylNext
  rw [if_pos (by norm_num [cylPbr_tEnd])]
  simp only [cylBody]
  rw [cylPbr_constStep, cylPbr_center1, cylPbr_dt]
  simp only [histUpd, cylBreak]
  norm_num [show cylPbr.Tc = 0 from rfl]

theorem c5s74 : cylRun cylPbr 74 =
    ⟨cylInit cylPbr, (37/5), [((71/10), 1), ((33/5), 1), ((61/10), 1), ((28/5), 1), ((51/10), 1), ((23/5), 1), ((41/10), 1), ((18/5), 1), ((31/10), 1), ((13/5), 1), ((21/10), 1), ((8/5), 1), ((11/10), 1), ((3/5), 1), ((1/10), 1)], false⟩ := by
  rw [show (74:ℕ) = 73 + 1 from rfl, cylRun_succ, c5s73]
  unfold cylNext
  rw [if_pos (by norm_num [cylPbr_tEnd])]
  simp only [cylBody]
  rw [cylPbr_constStep, cylPbr_center1, cylPbr_dt]
  simp only [histUpd, cylBreak]
  norm_num [show cylPbr.Tc = 0 from rfl]

theorem c5s75 : cylRun cylPbr 75 =
    ⟨cylInit cylPbr, (15/2), [((71/10), 1), ((33/5), 1), ((61/10), 1), ((28/5), 1), ((51/10), 1), ((23/5), 1), ((41/10), 1), ((18/5), 1), ((31/10), 1), ((13/5), 1), ((21/10), 1), ((8/5), 1), ((11/10), 1), ((3/5), 1), ((1/10), 1)], false⟩ := by
  rw [show (75:ℕ) = 74 + 1 from rfl, cylRun_succ, c5s74]
  unfold cylNext
  rw [if_pos (by norm_num [cylPbr_tEnd])]
  simp only [cylBody]
  rw [cylPbr_constStep, cylPbr_center1, cylPbr_dt]
  simp only [histUpd, cylBreak]
  norm_num [show cylPbr.Tc = 0 from rfl]

theorem c5s76 : cylRun cylPbr 76 =
    ⟨cylInit cylPbr, (38/5), [((38/5), 1), ((71/10), 1), ((33/5), 1), ((61/10), 1), ((28/5), 1), ((51/10), 1), ((23/5), 1), ((41/10), 1), ((18/5), 1), ((31/10), 1), ((13/5), 1), ((21/10), 1), ((8/5), 1), ((11/10), 1), ((3/5), 1), ((1/10), 1)], false⟩ := by
  rw [show (76:ℕ) = 75 + 1 from rfl, cylRun_succ, c5s75]
  unfold cylNext
  rw [if_pos (by norm_num [cylPbr_tEnd])]
  simp only [cylBody]
  rw [cylPbr_constStep, cylPbr_center1, cylPbr_dt]
  simp only [histUpd, cylBreak]
  norm_num [show cylPbr.Tc = 0 from rfl]

theorem c5s77 : cylRun cylPbr 77 =
    ⟨cylInit cylPbr, (77/10), [((38/5), 1), ((71/10), 1), ((33/5), 1), ((61/10), 1), ((28/5), 1), ((51/10), 1), ((23/5), 1), ((41/10), 1), ((18/5), 1), ((31/10), 1), ((13/5), 1), ((21/10), 1), ((8/5), 1), ((11/10), 1), ((3/5), 1), ((1/10), 1)], false⟩ := by
  rw [show (77:ℕ) = 76 + 1 from rfl, cylRun_succ, c5s76]
  unfold cylNext
  rw [if_pos (by norm_num [cylPbr_tEnd])]
  simp only [cylBody]
  rw [cylPbr_constStep, cylPbr_center1, cylPbr_dt]
  simp only [histUpd, cylBreak]
  norm_num [show cylPbr.Tc = 0 from rfl]

theorem c5s78 : cylRun cylPbr 78 =
    ⟨cylInit cylPbr, (39/5), [((38/5), 1), ((71/10), 1), ((33/5), 1), ((61/10), 1), ((28/5), 1), ((51/10), 1), ((23/5), 1), ((41/10), 1), ((18/5), 1), ((31/10), 1), ((13/5), 1), ((21/10), 1), ((8/5), 1), ((11/10), 1), ((3/5), 1), ((1/10), 1)], false⟩ := by
  rw [show (78:ℕ) = 77 + 1 from rfl, cylRun_succ, c5s77]
  unfold cylNext
  rw [if_pos (by norm_num [cylPbr_tEnd])]
  simp only [cylBody]
  rw [cylPbr_constStep, cylPbr_center1, cylPbr_dt]
  simp only [histUpd, cylBreak]
  norm_num [show cylPbr.Tc = 0 from rfl]

theorem c5s79 : cylRun cylPbr 79 =
    ⟨cylInit cylPbr, (79/10), [((38/5), 1), ((71/10), 1), ((33/5), 1), ((61/10), 1), ((28/5), 1), ((51/10), 1), ((23/5), 1), ((41/10), 1), ((18/5), 1), ((31/10), 1), ((13/5), 1), ((21/10), 1), ((8/5), 1), ((11/10), 1), ((3/5), 1), ((1/10), 1)], false⟩ := by
  rw [show (79:ℕ) = 78 + 1 from rfl, cylRun_succ, c5s78]
  unfold cylNext
  rw [if_pos (by norm_num [cylPbr_tEnd])]
  simp only [cylBody]
  rw [cylPbr_constStep, cylPbr_center1, cylPbr_dt]
  simp only [histUpd, cylBreak]
  norm_num [show cylPbr.Tc = 0 from rfl]

theorem c5s80 : cylRun cylPbr 80 =
    ⟨cylInit cylPbr, 8, [((38/5), 1), ((71/10), 1), ((33/5), 1), ((61/10), 1), ((28/5), 1), ((51/10), 1), ((23/5), 1), ((41/10), 1), ((18/5), 1), ((31/10), 1), ((13/5), 1), ((21/10), 1), ((8/5), 1), ((11/10), 1), ((3/5), 1), ((1/10), 1)], false⟩ := by
  rw [show (80:ℕ) = 79 + 1 from rfl, cylRun_succ, c5s79]
  unfold cylNext
  rw [if_pos (by norm_num [cylPbr_tEnd])]
  simp only [cylBody]
  rw [cylPbr_constStep, cylPbr_center1, cylPbr_dt]
  simp only [histUpd, cylBreak]
  norm_num [show cylPbr.Tc = 0 from rfl]

theorem c5s81 : cylRun cylPbr 81 =
    ⟨cylInit cylPbr, (81/10), [((81/10), 1), ((38/5), 1), ((71/10), 1), ((33/5), 1), ((61/10), 1), ((28/5), 1), ((51/10), 1), ((23/5), 1), ((41/10), 1), ((18/5), 1), ((31/10), 1), ((13/5), 1), ((21/10), 1), ((8/5), 1), ((11/10), 1), ((3/5), 1), ((1/10), 1)], false⟩ := by
  rw [show (81:ℕ) = 80 + 1 from rfl, cylRun_succ, c5s80]
  unfold cylNext
  rw [if_pos (by norm_num [cylPbr_tEnd])]
  simp only [cylBody]
  rw [cylPbr_constStep, cylPbr_center1, cylPbr_dt]
  simp only [histUpd, cylBreak]
  norm_num [show cylPbr.Tc = 0 from rfl]

theorem c5s82 : cylRun cylPbr 82 =
    ⟨cylInit cylPbr, (41/5), [((81/10), 1), ((38/5), 1), ((71/10), 1), ((33/5), 1), ((61/10), 1), ((28/5), 1), ((51/10), 1), ((23/5), 1), ((41/10), 1), ((18/5), 1), ((31/10), 1), ((13/5), 1), ((21/10), 1), ((8/5), 1), ((11/10), 1), ((3/5), 1), ((1/10), 1)], false⟩ := by
  rw [show (82:ℕ) = 81 + 1 from rfl, cylRun_succ, c5s81]
  unfold cylNext
  rw [if_pos (by norm_num [cylPbr_tEnd])]
  simp only [cylBody]
  rw [cylPbr_constStep, cylPbr_center1, cylPbr_dt]
  simp only [histUpd, cylBreak]
  norm_num [show cylPbr.Tc = 0 from rfl]

theorem c5s83 : cylRun cylPbr 83 =
    ⟨cylInit cylPbr, (83/10), [((81/10), 1), ((38/5), 1), ((71/10), 1), ((33/5), 1), ((61/10), 1), ((28/5), 1), ((51/10), 1), ((23/5), 1), ((41/10), 1), ((18/5), 1), ((31/10), 1), ((13/5), 1), ((21/10), 1), ((8/5), 1), ((11/10), 1), ((3/5), 1), ((1/10), 1)], false⟩ := by
  rw [show (83:ℕ) = 82 + 1 from rfl, cylRun_succ, c5s82]
  unfold cylNext
  rw [if_pos (by norm_num [cylPbr_tEnd])]
  simp only [cylBody]
  rw [cylPbr_constStep, cylPbr_center1, cylPbr_dt]
  simp only [histUpd, cylBreak]
  norm_num [show cylPbr.Tc = 0 from rfl]

theorem c5s84 : cylRun cylPbr 84 =
    ⟨cylInit cylPbr, (42/5), [((81/10), 1), ((38/5), 1), ((71/10), 1), ((33/5), 1), ((61/10), 1), ((28/5), 1), ((51/10), 1), ((23/5), 1), ((41/10), 1), ((18/5), 1), ((31/10), 1), ((13/5), 1), ((21/10), 1), ((8/5), 1), ((11/10), 1), ((3/5), 1), ((1/10), 1)], false⟩ := by
  rw [show (84:ℕ) = 83 + 1 from rfl, cylRun_succ, c5s83]
  unfold cylNext
  rw [if_pos (by norm_num [cylPbr_tEnd])]
  simp only [cylBody]
  rw [cylPbr_constStep, cylPbr_center1, cylPbr_dt]
  simp only [histUpd, cylBreak]
  norm_num [show cylPbr.Tc = 0 from rfl]

theorem c5s85 : cylRun cylPbr 85 =
    ⟨cylInit cylPbr, (17/2), [((81/10), 1), ((38/5), 1), ((71/10), 1), ((33/5), 1), ((61/10), 1), ((28/5), 1), ((51/10), 1), ((23/5), 1), ((41/10), 1), ((18/5), 1), ((31/10), 1), ((13/5), 1), ((21/10), 1), ((8/5), 1), ((11/10), 1), ((3/5), 1), ((1/10), 1)], false⟩ := by
  rw [show (85:ℕ) = 84 + 1 from rfl, cylRun_succ, c5s84]
  unfold cylNext
  rw [if_pos (by norm_num [cylPbr_tEnd])]
  simp only [cylBody]
  rw [cylPbr_constStep, cylPbr_center1, cylPbr_dt]
  simp only [histUpd, cylBreak]
  norm_num [show cylPbr.Tc = 0 from rfl]

theorem c5s86 : cylRun cylPbr 86 =
    ⟨cylInit cylPbr, (43/5), [((43/5), 1), ((81/10), 1), ((38/5), 1), ((71/10), 1), ((33/5), 1), ((61/10), 1), ((28/5), 1), ((51/10), 1), ((23/5), 1), ((41/10), 1), ((18/5), 1), ((31/10), 1), ((13/5), 1), ((21/10), 1), ((8/5), 1), ((11/10), 1), ((3/5), 1), ((1/10), 1)], false⟩ := by
  rw [show (86:ℕ) = 85 + 1 from rfl, cylRun_succ, c5s85]
  unfold cylNext
  rw [if_pos (by norm_num [cylPbr_tEnd])]
  simp only [cylBody]
  rw [cylPbr_constStep, cylPbr_center1, cylPbr_dt]
  simp only [histUpd, cylBreak]
  norm_num [show cylPbr.Tc = 0 from rfl]

theorem c5s87 : cylRun cylPbr 87 =
    ⟨cylInit cylPbr, (87/10), [((43/5), 1), ((81/10), 1), ((38/5), 1), ((71/10), 1), ((33/5), 1), ((61/10), 1), ((28/5), 1), ((51/10), 1), ((23/5), 1), ((41/10), 1), ((18/5), 1), ((31/10), 1), ((13/5), 1), ((21/10), 1), ((8/5), 1), ((11/10), 1), ((3/5), 1), ((1/10), 1)], false⟩ := by
  rw [show (87:ℕ) = 86 + 1 from rfl, cylRun_succ, c5s86]
  unfold cylNext
  rw [if_pos (by norm_num [cylPbr_tEnd])]
  simp only [cylBody]
  rw [cylPbr_constStep, cylPbr_center1, cylPbr_dt]
  simp only [histUpd, cylBreak]
  norm_num [show cylPbr.Tc = 0 from rfl]

theorem c5s88 : cylRun cylPbr 88 =
    ⟨cylInit cylPbr, (44/5), [((43/5), 1), ((81/10), 1), ((38/5), 1), ((71/10), 1), ((33/5), 1), ((61/10), 1), ((28/5), 1), ((51/10), 1), ((23/5), 1), ((41/10), 1), ((18/5), 1), ((31/10), 1), ((13/5), 1), ((21/10), 1), ((8/5), 1), ((11/10), 1), ((3/5), 1), ((1/10), 1)], false⟩ := by
  rw [show (88:ℕ) = 87 + 1 from rfl, cylRun_succ, c5s87]
  unfold cylNext
  rw [if_pos (by norm_num [cylPbr_tEnd])]
  simp only [cylBody]
  rw [cylPbr_constStep, cylPbr_center1, cylPbr_dt]
  simp only [histUpd, cylBreak]
  norm_num [show cylPbr.Tc = 0 from rfl]

theorem c5s89 : cylRun cylPbr 89 =
    ⟨cylInit cylPbr, (89/10), [((43/5), 1), ((81/10), 1), ((38/5), 1), ((71/10), 1), ((33/5), 1), ((61/10), 1), ((28/5), 1), ((51/10), 1), ((23/5), 1), ((41/10), 1), ((18/5), 1), ((31/10), 1), ((13/5), 1), ((21/10), 1), ((8/5), 1), ((11/10), 1), ((3/5), 1), ((1/10), 1)], false⟩ := by
  rw [show (89:ℕ) = 88 + 1 from rfl, cylRun_succ, c5s88]
  unfold cylNext
  rw [if_pos (by norm_num [cylPbr_tEnd])]
  simp only [cylBody]
  rw [cylPbr_constStep, cylPbr_center1, cylPbr_dt]
  simp only [histUpd, cylBreak]
  norm_num [show cylPbr.Tc = 0 from rfl]

theorem c5s90 : cylRun cylPbr 90 =
    ⟨cylInit cylPbr, 9, [((43/5), 1), ((81/10), 1), ((38/5), 1), ((71/10), 1), ((33/5), 1), ((61/10), 1), ((28/5), 1), ((51/10), 1), ((23/5), 1), ((41/10), 1), ((18/5), 1), ((31/10), 1), ((13/5), 1), ((21/10), 1), ((8/5), 1), ((11/10), 1), ((3/5), 1), ((1/10), 1)], false⟩ := by
  rw [show (90:ℕ) = 89 + 1 from rfl, cylRun_succ, c5s89]
  unfold cylNext
  rw [if_pos (by norm_num [cylPbr_tEnd])]
  simp only [cylBody]
  rw [cylPbr_constStep, cylPbr_center1, cylPbr_dt]
  simp only [histUpd, cylBreak]
  norm_num [show cylPbr.Tc = 0 from rfl]

theorem c5s91 : cylRun cylPbr 91 =
    ⟨cylInit cylPbr, (91/10), [((91/10), 1), ((43/5), 1), ((81/10), 1), ((38/5), 1), ((71/10), 1), ((33/5), 1), ((61/10), 1), ((28/5), 1), ((51/10), 1), ((23/5), 1), ((41/10), 1), ((18/5), 1), ((31/10), 1), ((13/5), 1), ((21/10), 1), ((8/5), 1), ((11/10), 1), ((3/5), 1), ((1/10), 1)], false⟩ := by
  rw [show (91:ℕ) = 90 + 1 from rfl, cylRun_succ, c5s90]
  unfold cylNext
  rw [if_pos (by norm_num [cylPbr_tEnd])]
  simp only [cylBody]
  rw [cylPbr_constStep, cylPbr_center1, cylPbr_dt]
  simp only [histUpd, cylBreak]
  norm_num [show cylPbr.Tc = 0 from rfl]

theorem c5s92 : cylRun cylPbr 92 =
    ⟨cylInit cylPbr, (46/5), [((91/10), 1), ((43/5), 1), ((81/10), 1), ((38/5), 1), ((71/10), 1), ((33/5), 1), ((61/10), 1), ((28/5), 1), ((51/10), 1), ((23/5), 1), ((41/10), 1), ((18/5), 1), ((31/10), 1), ((13/5), 1), ((21/10), 1), ((8/5), 1), ((11/10), 1), ((3/5), 1), ((1/10), 1)], false⟩ := by
  rw [show (92:ℕ) = 91 + 1 from rfl, cylRun_succ, c5s91]
  unfold cylNext
  rw [if_pos (by norm_num [cylPbr_tEnd])]
  simp only [cylBody]
  rw [cylPbr_constStep, cylPbr_center1, cylPbr_dt]
  simp only [histUpd, cylBreak]
  norm_num [show cylPbr.Tc = 0 from rfl]

theorem c5s93 : cylRun cylPbr 93 =
    ⟨cylInit cylPbr, (93/10), [((91/10), 1), ((43/5), 1), ((81/10), 1), ((38/5), 1), ((71/10), 1), ((33/5), 1), ((61/10), 1), ((28/5), 1), ((51/10), 1), ((23/5), 1), ((41/10), 1), ((18/5), 1), ((31/10), 1), ((13/5), 1), ((21/10), 1), ((8/5), 1), ((11/10), 1), ((3/5), 1), ((1/10), 1)], false⟩ := by
  rw [show (93:ℕ) = 92 + 1 from rfl, cylRun_succ, c5s92]
  unfold cylNext
  rw [if_pos (by norm_num [cylPbr_tEnd])]
  simp only [cylBody]
  rw [cylPbr_constStep, cylPbr_center1, cylPbr_dt]
  simp only [histUpd, cylBreak]
  norm_num [show cylPbr.Tc = 0 from rfl]

theorem c5s94 : cylRun cylPbr 94 =
    ⟨cylInit cylPbr, (47/5), [((91/10), 1), ((43/5), 1), ((81/10), 1), ((38/5), 1), ((71/10), 1), ((33/5), 1), ((61/10), 1), ((28/5), 1), ((51/10), 1), ((23/5), 1), ((41/10), 1), ((18/5), 1), ((31/10), 1), ((13/5), 1), ((21/10), 1), ((8/5), 1), ((11/10), 1), ((3/5), 1), ((1/10), 1)], false⟩ := by
  rw [show (94:ℕ) = 93 + 1 from rfl, cylRun_succ, c5s93]
  unfold cylNext
  rw [if_pos (by norm_num [cylPbr_tEnd])]
  simp only [cylBody]
  rw [cylPbr_constStep, cylPbr_center1, cylPbr_dt]
  simp only [histUpd, cylBreak]
  norm_num [show cylPbr.Tc = 0 from rfl]

theorem c5s95 : cylRun cylPbr 95 =
    ⟨cylInit cylPbr, (19/2), [((91/10), 1), ((43/5), 1), ((81/10), 1), ((38/5), 1), ((71/10), 1), ((33/5), 1), ((61/10), 1), ((28/5), 1), ((51/10), 1), ((23/5), 1), ((41/10), 1), ((18/5), 1), ((31/10), 1), ((13/5), 1), ((21/10), 1), ((8/5), 1), ((11/10), 1), ((3/5), 1), ((1/10), 1)], false⟩ := by
  rw [show (95:ℕ) = 94 + 1 from rfl, cylRun_succ, c5s94]
  unfold cylNext
  rw [if_pos (by norm_num [cylPbr_tEnd])]
  simp only [cylBody]
  rw [cylPbr_constStep, cylPbr_center1, cylPbr_dt]
  simp only [histUpd, cylBreak]
  norm_num [show cylPbr.Tc = 0 from rfl]

theorem c5s96 : cylRun cylPbr 96 =
    ⟨cylInit cylPbr, (48/5), [((48/5), 1), ((91/10), 1), ((43/5), 1), ((81/10), 1), ((38/5), 1), ((71/10), 1), ((33/5), 1), ((61/10), 1), ((28/5), 1), ((51/10), 1), ((23/5), 1), ((41/10), 1), ((18/5), 1), ((31/10), 1), ((13/5), 1), ((21/10), 1), ((8/5), 1), ((11/10), 1), ((3/5), 1), ((1/10), 1)], false⟩ := by
  rw [show (96:ℕ) = 95 + 1 from rfl, cylRun_succ, c5s95]
  unfold cylNext
  rw [if_pos (by norm_num [cylPbr_tEnd])]
  simp only [cylBody]
  rw [cylPbr_constStep, cylPbr_center1, cylPbr_dt]
  simp only [histUpd, cylBreak]
  norm_num [show cylPbr.Tc = 0 from rfl]

theorem c5s97 : cylRun cylPbr 97 =
    ⟨cylInit cylPbr, (97/10), [((48/5), 1), ((91/10), 1), ((43/5), 1), ((81/10), 1), ((38/5), 1), ((71/10), 1), ((33/5), 1), ((61/10), 1), ((28/5), 1), ((51/10), 1), ((23/5), 1), ((41/10), 1), ((18/5), 1), ((31/10), 1), ((13/5), 1), ((21/10), 1), ((8/5), 1), ((11/10), 1), ((3/5), 1), ((1/10), 1)], false⟩ := by
  rw [show (97:ℕ) = 96 + 1 from rfl, cylRun_succ, c5s96]
  unfold cylNext
  rw [if_pos (by norm_num [cylPbr_tEnd])]
  simp only [cylBody]
  rw [cylPbr_constStep, cylPbr_center1, cylPbr_dt]
  simp only [histUpd, cylBreak]
  norm_num [show cylPbr.Tc = 0 from rfl]

theorem c5s98 : cylRun cylPbr 98 =
    ⟨cylInit cylPbr, (49/5), [((48/5), 1), ((91/10), 1), ((43/5), 1), ((81/10), 1), ((38/5), 1), ((71/10), 1), ((33/5), 1), ((61/10), 1), ((28/5), 1), ((51/10), 1), ((23/5), 1), ((41/10), 1), ((18/5), 1), ((31/10), 1), ((13/5), 1), ((21/10), 1), ((8/5), 1), ((11/10), 1), ((3/5), 1), ((1/10), 1)], false⟩ := by
  rw [show (98:ℕ) = 97 + 1 from rfl, cylRun_succ, c5s97]
  unfold cylNext
  rw [if_pos (by norm_num [cylPbr_tEnd])]
  simp only [cylBody]
  rw [cylPbr_constStep, cylPbr_center1, cylPbr_dt]
  simp only [histUpd, cylBreak]
  norm_num [show cylPbr.Tc = 0 from rfl]

theorem c5s99 : cylRun cylPbr 99 =
    ⟨cylInit cylPbr, (99/10), [((48/5), 1), ((91/10), 1), ((43/5), 1), ((81/10), 1), ((38/5), 1), ((71/10), 1), ((33/5), 1), ((61/10), 1), ((28/5), 1), ((51/10), 1), ((23/5), 1), ((41/10), 1), ((18/5), 1), ((31/10), 1), ((13/5), 1), ((21/10), 1), ((8/5), 1), ((11/10), 1), ((3/5), 1), ((1/10), 1)], false⟩ := by
  rw [show (99:ℕ) = 98 + 1 from rfl, cylRun_succ, c5s98]
  unfold cylNext
  rw [if_pos (by norm_num [cylPbr_tEnd])]
  simp only [cylBody]
  rw [cylPbr_constStep, cylPbr_center1, cylPbr_dt]
  simp only [histUpd, cylBreak]
  norm_num [show cylPbr.Tc = 0 from rfl]

theorem c5s100 : cylRun cylPbr 100 =
    ⟨cylInit cylPbr, 10, [((48/5), 1), ((91/10), 1), ((43/5), 1), ((81/10), 1), ((38/5), 1), ((71/10), 1), ((33/5), 1), ((61/10), 1), ((28/5), 1), ((51/10), 1), ((23/5), 1), ((41/10), 1), ((18/5), 1), ((31/10), 1), ((13/5), 1), ((21/10), 1), ((8/5), 1), ((11/10), 1), ((3/5), 1), ((1/10), 1)], false⟩ := by
  rw [show (100:ℕ) = 99 + 1 from rfl, cylRun_succ, c5s99]
  unfold cylNext
  rw [if_pos (by norm_num [cylPbr_tEnd])]
  simp only [cylBody]
  rw [cylPbr_constStep, cylPbr_center1, cylPbr_dt]
  simp only [histUpd, cylBreak]
  norm_num [show cylPbr.Tc = 0 from rfl]

theorem c5s101 : cylRun cylPbr 101 =
    ⟨cylInit cylPbr, (101/10), [((101/10), 1), ((48/5), 1), ((91/10), 1), ((43/5), 1), ((81/10), 1), ((38/5), 1), ((71/10), 1), ((33/5), 1), ((61/10), 1), ((28/5), 1), ((51/10), 1), ((23/5), 1), ((41/10), 1), ((18/5), 1), ((31/10), 1), ((13/5), 1), ((21/10), 1), ((8/5), 1), ((11/10), 1), ((3/5), 1), ((1/10), 1)], true⟩ := by
  rw [show (101:ℕ) = 100 + 1 from rfl, cylRun_succ, c5s100]
  unfold cylNext
  rw [if_pos (by norm_num [cylPbr_tEnd])]
  simp only [cylBody]
  rw [cylPbr_constStep, cylPbr_center1, cylPbr_dt]
  simp only [histUpd, cylBreak]
  norm_num [show cylPbr.Tc = 0 from rfl]

theorem c5s102 : cylRun cylPbr 102 = cylRun cylPbr 101 := by
  rw [show (102:ℕ) = 101 + 1 from rfl, cylRun_succ, c5s101]
  unfold cylNext
  rw [if_neg (by norm_num)]
theorem sqPst_dt : sqPst.dt = 1/2 := by
  norm_num [SqP.dt, SqP.dx, SqP.dz, SqP.alpha, SqP.nz, SqP.nx, sqPst]

theorem sqPst_stable : SqStable sqPst := by
  unfold SqStable SqP.rx SqP.rz SqP.Hj SqP.Hnx SqP.Hnz
  rw [sqPst_dt]
  norm_num [SqP.dx, SqP.dz, SqP.alpha, SqP.nz, SqP.nx, sqPst]

theorem cylPst_dt : cylPst.dt = 1/10 := by
  norm_num [CylP.dt, CylP.dr, CylP.dz, CylP.radius, CylP.alpha, CylP.nr, CylP.nz, cylPst]

theorem cylPst_stable : CylStable cylPst := by
  unfold CylStable
  rw [cylPst_dt]
  norm_num [CylP.alpha, CylP.dr, CylP.dz, CylP.radius, CylP.nr, CylP.nz, cylPst]

theorem conPst_np : conPst.np = 25 := rfl

theorem conPst_dx : conPst.dx = 2 := by
  rw [ConP.dx, conPst_np]
  norm_num [conPst]

theorem conPst_alpha : conPst.alpha = 1 := by
  norm_num [ConP.alpha, conPst]

theorem conPst_dt : conPst.dt = 0.3 := by
  rw [ConP.dt, conPst_dx, conPst_alpha]
  rw [show (0.3 : ℝ) * 2 ^ 2 / (4 * 1) = 0.3 from by norm_num]
  exact max_eq_right (by norm_num)

theorem conPst_stable : ConStable conPst := by
  unfold ConStable
  rw [conPst_dt, conPst_dx, conPst_alpha]
  norm_num [show conPst.hn = 1 from rfl, show conPst.hj = 1 from rfl,
    show conPst.k = 1 from rfl, show conPst.Tc = 0 from rfl,
    show conPst.Ti = 100 from rfl]

theorem sqPfine_dxz : sqPfine.dx = 1/1000 ∧ sqPfine.dz = 1/1000 := by
  constructor
  · norm_num [SqP.dx, SqP.nx, sqPfine]
  · norm_num [SqP.dz, SqP.nz, sqPfine]

theorem sqPfine_dt : sqPfine.dt = 1/1000 := by
  rw [SqP.dt, sqPfine_dxz.1, sqPfine_dxz.2]
  rw [show (0.25 : ℚ) * min ((1/1000 : ℚ) ^ 2) ((1/1000 : ℚ) ^ 2) /
    (4 * sqPfine.alpha) = 1/16000000 from by
      norm_num [SqP.alpha, sqPfine]]
  rw [max_eq_left (by norm_num)]
  norm_num
/-- C1 counterexample: with the valid material `k = rho = cp = 1` and a
14 mm square at the Low 15x15 grid, the unclamped candidate step is
`6.25e-8 s`, the selected `dt` is clamped up to the floor `0.001 s`, and the
claimed bound `0.25*min(dx^2,dz^2)/(2*alpha) = 1.25e-7 s` is violated. -/
theorem C1_counterexample :
    (0 < sqPfine.k ∧ 0 < sqPfine.rho ∧ 0 < sqPfine.cp) ∧
      0.25 * min (sqPfine.dx ^ 2) (sqPfine.dz ^ 2) / (2 * sqPfine.alpha) <
        sqPfine.dt := by
  refine ⟨by norm_num [sqPfine], ?_⟩
  rw [sqPfine_dt, sqPfine_dxz.1, sqPfine_dxz.2]
  norm_num [SqP.alpha, sqPfine]

/-- C1 (amended): whenever the 0.001 s floor clamp is not engaged — the
unclamped candidate `C*min(spacing^2)/(4*alpha)` is at least 0.001 s — the
selected `dt` of each solver satisfies the explicit-scheme bound
`dt <= C*min(spacing^2)/(n*alpha)` with `C = 0.25, 0.1, 0.3` and
`n = 2, 2, 1`; when the candidate falls below the floor the selected `dt`
is 0.001 s and may exceed the bound. -/
theorem C1_dt_stability (psq : SqP) (pcy : CylP) (pco : ConP)
    (hsa : 0 < psq.alpha)
    (hsf : 0.001 ≤ 0.25 * min (psq.dx ^ 2) (psq.dz ^ 2) / (4 * psq.alpha))
    (hca : 0 < pcy.alpha)
    (hcf : 0.001 ≤ min (0.1 * min (pcy.dr ^ 2) (pcy.dz ^ 2) / (4 * pcy.alpha)) 0.1)
    (hoa : 0 < pco.alpha)
    (hof : (0.001 : ℝ) ≤ 0.3 * pco.dx ^ 2 / (4 * pco.alpha)) :
    psq.dt ≤ 0.25 * min (psq.dx ^ 2) (psq.dz ^ 2) / (2 * psq.alpha) ∧
      pcy.dt ≤ 0.1 * min (pcy.dr ^ 2) (pcy.dz ^ 2) / (2 * pcy.alpha) ∧
      pco.dt ≤ 0.3 * pco.dx ^ 2 / (1 * pco.alpha) := by
  refine ⟨?_, ?_, ?_⟩
  · rw [SqP.dt, max_eq_right hsf]
    exact div_le_div_of_nonneg_left
      (mul_nonneg (by norm_num) (le_min (sq_nonneg _) (sq_nonneg _)))
      (by linarith) (by linarith)
  · rw [CylP.dt, max_eq_right hcf]
    have h1 : min (0.1 * min (pcy.dr ^ 2) (pcy.dz ^ 2) / (4 * pcy.alpha)) 0.1 ≤
        0.1 * min (pcy.dr ^ 2) (pcy.dz ^ 2) / (4 * pcy.alpha) := min_le_left _ _
    have h2 : 0.1 * min (pcy.dr ^ 2) (pcy.dz ^ 2) / (4 * pcy.alpha) ≤
        0.1 * min (pcy.dr ^ 2) (pcy.dz ^ 2) / (2 * pcy.alpha) :=
      div_le_div_of_nonneg_left
        (mul_nonneg (by norm_num) (le_min (sq_nonneg _) (sq_nonneg _)))
        (by linarith) (by linarith)
    linarith
  · rw [ConP.dt, max_eq_right hof]
    exact div_le_div_of_nonneg_left (mul_nonneg (by norm_num) (sq_nonneg _))
      (by linarith) (by linarith)

theorem C1_dt_stability_witness :
    sqPst.dt ≤ 0.25 * min (sqPst.dx ^ 2) (sqPst.dz ^ 2) / (2 * sqPst.alpha) ∧
      cylPst.dt ≤ 0.1 * min (cylPst.dr ^ 2) (cylPst.dz ^ 2) / (2 * cylPst.alpha) ∧
      conPst.dt ≤ 0.3 * conPst.dx ^ 2 / (1 * conPst.alpha) :=
  C1_dt_stability sqPst cylPst conPst
    (by norm_num [SqP.alpha, sqPst])
    (by norm_num [SqP.dx, SqP.dz, SqP.alpha, SqP.nz, SqP.nx, sqPst])
    (by norm_num [CylP.alpha, cylPst])
    (by norm_num [CylP.dr, CylP.dz, CylP.radius, CylP.alpha, CylP.nr, CylP.nz, cylPst])
    (by rw [conPst_alpha]; norm_num)
    (by rw [conPst_dx, conPst_alpha]; norm_num)

/-- C2 counterexample: the inputs are valid (positive material constants,
nonnegative convection coefficients, `T_init = 100 > T_coolant = 0`,
`t_end = 10 > 0`), yet after one integration step the square solver's
bottom-row node holds -2400 °C, more than 50 °C below the coolant
temperature: the dt floor clamp makes the bottom-face update coefficient
`1 - 2*rz*(1+Hj) = -24.125` and the scheme overshoots. -/
theorem C2_counterexample :
    (0 < sqPa.k ∧ 0 < sqPa.rho ∧ 0 < sqPa.cp ∧ 0 ≤ sqPa.hj ∧ 0 ≤ sqPa.hn ∧
      sqPa.Tc < sqPa.Ti ∧ 0 < sqPa.tEnd) ∧
      val2 (sqRun sqPa 1).T 0 0 < sqPa.Tc - 50 := by
  refine ⟨by norm_num [sqPa], ?_⟩
  rw [sqPa_val]
  norm_num [sqPa]

/-- C2 (amended): under the discrete maximum-principle coefficient
conditions (`SqStable`, `CylStable`, `ConStable`: every per-node update is
a convex combination of old values and `T_coolant`), every temperature held
in any of the three solvers' grids at any step stays within
`[T_coolant, T_init]` exactly. -/
theorem C2_temperature_box (psq : SqP) (pcy : CylP) (pco : ConP)
    (h1 : SqStable psq) (h2 : CylStable pcy) (h3 : ConStable pco) :
    (∀ n i j, i < psq.nz → j < psq.nx →
        psq.Tc ≤ val2 (sqRun psq n).T i j ∧ val2 (sqRun psq n).T i j ≤ psq.Ti) ∧
      (∀ n i j, i < pcy.nr → j < pcy.nz →
        pcy.Tc ≤ val2 (cylRun pcy n).T i j ∧ val2 (cylRun pcy n).T i j ≤ pcy.Ti) ∧
      (∀ n i, i < pco.np →
        pco.Tc ≤ val1 (conRun pco n).T i ∧ val1 (conRun pco n).T i ≤ pco.Ti) :=
  ⟨fun n i j hi hj2 => sqRun_box psq h1 n i j hi hj2,
   fun n i j hi hj2 => cylRun_box pcy h2 n i j hi hj2,
   fun n i hi => conRun_box pco h3 n i hi⟩

theorem C2_temperature_box_witness :
    (∀ n i j, i < sqPst.nz → j < sqPst.nx →
        sqPst.Tc ≤ val2 (sqRun sqPst n).T i j ∧ val2 (sqRun sqPst n).T i j ≤ sqPst.Ti) ∧
      (∀ n i j, i < cylPst.nr → j < cylPst.nz →
        cylPst.Tc ≤ val2 (cylRun cylPst n).T i j ∧
          val2 (cylRun cylPst n).T i j ≤ cylPst.Ti) ∧
      (∀ n i, i < conPst.np →
        conPst.Tc ≤ val1 (conRun conPst n).T i ∧ val1 (conRun conPst n).T i ≤ conPst.Ti) :=
  C2_temperature_box sqPst cylPst conPst sqPst_stable cylPst_stable conPst_stable

/-- C3 counterexample: with valid inputs (nonnegative coefficients,
`T_init = 100 > T_coolant = 0`) and the reachable Low-tier 15x15 grid, the
square solver's stored history is not monotone: the sample stored at
`t = 4.5 s` (about 100.00016 °C) exceeds the sample stored at `t = 4 s`
(about 99.99999 °C); the history is stored newest-first, so the violating
pair is the first two entries. -/
theorem C3_counterexample :
    (0 ≤ sqPb.hj ∧ 0 ≤ sqPb.hn ∧ sqPb.Tc < sqPb.Ti) ∧
      ¬ List.Chain' (fun a b : ℚ × ℚ => a.2 ≤ b.2) (sqRun sqPb 9).hist := by
  refine ⟨by norm_num [sqPb], ?_⟩
  intro hch
  rw [c3h9, List.chain'_cons] at hch
  have h1 := hch.1
  norm_num at h1

/-- C3 (amended): under the discrete maximum-principle coefficient
conditions the stored history of each solver is monotonically
non-increasing (histories are stored newest-first, so each stored sample is
at most the previously stored one). -/
theorem C3_center_monotone (psq : SqP) (pcy : CylP) (pco : ConP)
    (h1 : SqStable psq) (h2 : CylStable pcy) (h3 : ConStable pco) :
    (∀ n, List.Chain' (fun a b : ℚ × ℚ => a.2 ≤ b.2) (sqRun psq n).hist) ∧
      (∀ n, List.Chain' (fun a b : ℚ × ℚ => a.2 ≤ b.2) (cylRun pcy n).hist) ∧
      (∀ n, List.Chain' (fun a b : ℝ × ℝ => a.2 ≤ b.2) (conRun pco n).hist) :=
  ⟨fun n => (sqRun_hist_inv psq h1 n).2, fun n => (cylRun_hist_inv pcy h2 n).2,
   fun n => (conRun_hist_inv pco h3 n).2⟩

theorem C3_center_monotone_witness :
    (∀ n, List.Chain' (fun a b : ℚ × ℚ => a.2 ≤ b.2) (sqRun sqPst n).hist) ∧
      (∀ n, List.Chain' (fun a b : ℚ × ℚ => a.2 ≤ b.2) (cylRun cylPst n).hist) ∧
      (∀ n, List.Chain' (fun a b : ℝ × ℝ => a.2 ≤ b.2) (conRun conPst n).hist) :=
  C3_center_monotone sqPst cylPst conPst sqPst_stable cylPst_stable conPst_stable

/-- C4: in the cylindrical solver every interior axial node of the
centerline row `r = 0` is updated by exactly the L'Hopital limiting form
`T + alpha*dt*(2*(T[1,j]-T[0,j])/dr^2 + (T[0,j+1]-2*T[0,j]+T[0,j-1])/dz^2)`. -/
theorem C4_centerline_update (p : CylP) (L : List (List ℚ)) (j : ℕ)
    (h1 : 1 ≤ j) (h2 : j ≤ p.nz - 2) :
    val2 (cylStepL p L) 0 j =
      val2 L 0 j + p.alpha * p.dt *
        (2 * (val2 L 1 j - val2 L 0 j) / p.dr ^ 2 +
          (val2 L 0 (j + 1) - 2 * val2 L 0 j + val2 L 0 (j - 1)) / p.dz ^ 2) := by
  have h3r := p.three_le_nr
  have h3z := p.three_le_nz_cyl
  rw [cylStepL_val p L 0 j (by omega) (by omega)]
  unfold cylNode
  rw [if_neg (show ¬ cylBotR p 0 j from by unfold cylBotR; omega),
    if_neg (show ¬ cylTopR p 0 j from by unfold cylTopR; omega),
    if_pos (show cylCLR p 0 j from by unfold cylCLR; omega)]
  rfl

theorem C4_centerline_update_witness :
    val2 (cylStepL cylPst (cylInit cylPst)) 0 1 =
      val2 (cylInit cylPst) 0 1 + cylPst.alpha * cylPst.dt *
        (2 * (val2 (cylInit cylPst) 1 1 - val2 (cylInit cylPst) 0 1) / cylPst.dr ^ 2 +
          (val2 (cylInit cylPst) 0 (1 + 1) - 2 * val2 (cylInit cylPst) 0 1 +
            val2 (cylInit cylPst) 0 (1 - 1)) / cylPst.dz ^ 2) :=
  C4_centerline_update cylPst (cylInit cylPst) 1 (by decide) (by decide)

/-- C5: the cylindrical solver stops before `t_end` only via the break
test — whenever the run is stopped (`done`), the post-step time exceeds the
10 s warm-up, at least two samples are stored, the two most recent stored
samples differ by less than 0.1 °C, and the most recent is below
`T_coolant + 50` — and otherwise the state keeps advancing at cadence `dt`
until the elapsed time reaches `t_end`: a frozen state means the break was
taken or `t_end ≤ t`. -/
theorem C5_early_termination (p : CylP) (n : ℕ) :
    ((cylRun p n).done = true →
        10 < (cylRun p n).t ∧ 1 < (cylRun p n).hist.length ∧
          |((cylRun p n).hist.headD (0, 0)).2 - ((cylRun p n).hist.getD 1 (0, 0)).2| < 0.1 ∧
          ((cylRun p n).hist.headD (0, 0)).2 < p.Tc + 50) ∧
      ((cylRun p n).t = (n : ℚ) * p.dt ∨ p.tEnd ≤ (cylRun p n).t ∨
        (cylRun p n).done = true) ∧
      (cylRun p (n + 1) = cylRun p n →
        (cylRun p n).done = true ∨ p.tEnd ≤ (cylRun p n).t) :=
  ⟨cylRun_done_conds p n, cylRun_t_invariant p n, cylRun_frozen p n⟩

theorem C5_early_termination_witness :
    (10 < (cylRun cylPbr 101).t ∧ 1 < (cylRun cylPbr 101).hist.length ∧
      |((cylRun cylPbr 101).hist.headD (0, 0)).2 -
        ((cylRun cylPbr 101).hist.getD 1 (0, 0)).2| < 0.1 ∧
      ((cylRun cylPbr 101).hist.headD (0, 0)).2 < cylPbr.Tc + 50) ∧
      ((cylRun cylPbr 101).done = true ∨ cylPbr.tEnd ≤ (cylRun cylPbr 101).t) :=
  ⟨(C5_early_termination cylPbr 101).1 (by rw [c5s101]),
   (C5_early_termination cylPbr 101).2.2 c5s102⟩

/-- C6: each step of the square and cylindrical solvers is a synchronous
Jacobi sweep — applying the slice/loop writes in program order (`sqImp`,
`cylImp`) or in the reverse order (`sqImpRev`, `cylImpRev`), with every
right-hand side reading the old field, gives the same per-node pure
function of the old field (`sqNode`, `cylNode`), which is exactly what the
list-grid step applies at every in-range node. -/
theorem C6_jacobi_step (psq : SqP) (pcy : CylP) (f g : ℕ → ℕ → ℚ)
    (L M : List (List ℚ)) (i j : ℕ) :
    sqImp psq f i j = sqNode psq f i j ∧ sqImpRev psq f i j = sqNode psq f i j ∧
      cylImp pcy g i j = cylNode pcy g i j ∧
      cylImpRev pcy g i j = cylNode pcy g i j ∧
      (i < psq.nz → j < psq.nx →
        val2 (sqStepL psq L) i j = sqNode psq (val2 L) i j) ∧
      (i < pcy.nr → j < pcy.nz →
        val2 (cylStepL pcy M) i j = cylNode pcy (val2 M) i j) :=
  ⟨sqImp_eq_sqNode psq f i j, sqImpRev_eq_sqNode psq f i j,
   cylImp_eq_cylNode pcy g i j, cylImpRev_eq_cylNode pcy g i j,
   fun hi hj2 => sqStepL_val psq L i j hi hj2,
   fun hi hj2 => cylStepL_val pcy M i j hi hj2⟩

/-- C7 counterexample: the top-left corner node `(nz-1, 0)` is a boundary
node written by none of the four face updates, and after one step (with
nonzero convection coefficients everywhere) it still holds its initial
value `T_init` unchanged. -/
theorem C7_counterexample :
    sqBoundary sqPst 14 0 ∧ ¬ coveredSq sqPst 14 0 ∧
      val2 (sqRun sqPst 1).T 14 0 = sqPst.Ti := by
  refine ⟨by decide, by decide, ?_⟩
  have hT : (sqRun sqPst 1).T = sqStepL sqPst (sqInit sqPst) := by
    rw [show (1 : ℕ) = 0 + 1 from rfl, sqRun_succ]
    unfold sqNext
    rw [if_pos (by norm_num [show (sqRun sqPst 0).t = 0 from rfl,
      show sqPst.tEnd = 10 from rfl])]
    rfl
  rw [hT, sqStepL_val sqPst _ 14 0 (by decide) (by decide)]
  unfold sqNode
  rw [if_neg (by decide), if_neg (by decide), if_neg (by decide),
    if_neg (by decide), if_neg (by decide)]
  exact sqInit_val sqPst 14 0 (by decide) (by decide)

/-- C7 (amended): a boundary node of the square grid is written by one of
the four face updates exactly when it is not one of the two top corners
`(nz-1, 0)` and `(nz-1, nx-1)`; an uncovered boundary node keeps its
previous value unchanged in every step. -/
theorem C7_boundary_coverage (p : SqP) (i j : ℕ) (hb : sqBoundary p i j) :
    (coveredSq p i j ↔ ¬(i = p.nz - 1 ∧ (j = 0 ∨ j = p.nx - 1))) ∧
      (¬ coveredSq p i j → ∀ f : ℕ → ℕ → ℚ, sqNode p f i j = f i j) := by
  have h3z := p.three_le_nz_sq
  have h3x := p.three_le_nx
  obtain ⟨hiz, hjx, hedge⟩ := hb
  constructor
  · unfold coveredSq sqBottomR sqLeftR sqRightR sqTopR
    omega
  · intro hnc f
    unfold coveredSq at hnc
    push_neg at hnc
    obtain ⟨hb1, hb2, hb3, hb4⟩ := hnc
    have hInt : ¬ sqIntR p i j := by
      unfold sqIntR
      omega
    unfold sqNode
    rw [if_neg hb1, if_neg hb2, if_neg hb3, if_neg hInt, if_neg hb4]

theorem C7_boundary_coverage_witness :
    (coveredSq sqPst 14 0 ↔ ¬(14 = sqPst.nz - 1 ∧ (0 = 0 ∨ 0 = sqPst.nx - 1))) ∧
      (¬ coveredSq sqPst 14 0 → ∀ f : ℕ → ℕ → ℚ, sqNode sqPst f 14 0 = f 14 0) :=
  C7_boundary_coverage sqPst 14 0 (by decide)

/-- C8: the jet-cooled tip node (the last axial node) of the conical solver
is updated by exactly `T_new = T_coolant + (T_old - T_coolant)*exp(-h_jet*dx/k)`
at every step, no other per-step update touches it, and consequently the
tip trajectory follows the closed-form geometric relaxation
`T_coolant + (T_init - T_coolant)*exp(-h_jet*dx/k)^m` for the entire run
(the run's grid after `n` loop iterations is some `m ≤ n` iterations of the
step map applied to the initial grid). -/
theorem C8_tip_exponential (p : ConP) (n : ℕ) :
    (∀ L : List ℝ, val1 (conStepL p L) (p.np - 1) =
        p.Tc + (val1 L (p.np - 1) - p.Tc) * Real.exp (-(p.hj * p.dx / p.k))) ∧
      (∀ m, val1 ((conStepL p)^[m] (conInit p)) (p.np - 1) =
        p.Tc + (p.Ti - p.Tc) * Real.exp (-(p.hj * p.dx / p.k)) ^ m) ∧
      (∃ m, m ≤ n ∧ (conRun p n).T = (conStepL p)^[m] (conInit p)) :=
  ⟨conTip_step p, conTip_iter p, conRun_T_iterate p n⟩

/-- C9: for each of the three solvers the stored history (newest sample
first) is append-only across iterations (the old history is a suffix of the
new one, so no stored entry is ever mutated), consecutive stored times are
at least 0.5 s apart and strictly increasing, and when `t_end > 0` the very
first loop iteration unconditionally stores the first sample, after which
the history is never empty. -/
theorem C9_history_sampling (psq : SqP) (pcy : CylP) (pco : ConP) (n : ℕ) :
    ((sqRun psq n).hist <:+ (sqRun psq (n + 1)).hist ∧
      List.Chain' (fun a b => b.1 + 0.5 ≤ a.1) (sqRun psq n).hist ∧
      List.Chain' (fun a b => b.1 < a.1) (sqRun psq n).hist ∧
      (0 < psq.tEnd →
        (sqRun psq 1).hist = [(psq.dt, sqCenter psq (sqStepL psq (sqInit psq)))]) ∧
      (0 < psq.tEnd → 1 ≤ n → (sqRun psq n).hist ≠ [])) ∧
      ((cylRun pcy n).hist <:+ (cylRun pcy (n + 1)).hist ∧
        List.Chain' (fun a b => b.1 + 0.5 ≤ a.1) (cylRun pcy n).hist ∧
        List.Chain' (fun a b => b.1 < a.1) (cylRun pcy n).hist ∧
        (0 < pcy.tEnd →
          (cylRun pcy 1).hist = [(pcy.dt, cylCenter pcy (cylStepL pcy (cylInit pcy)))]) ∧
        (0 < pcy.tEnd → 1 ≤ n → (cylRun pcy n).hist ≠ [])) ∧
      ((conRun pco n).hist <:+ (conRun pco (n + 1)).hist ∧
        List.Chain' (fun a b => b.1 + 0.5 ≤ a.1) (conRun pco n).hist ∧
        List.Chain' (fun a b => b.1 < a.1) (conRun pco n).hist ∧
        (0 < pco.tEnd →
          (conRun pco 1).hist = [(pco.dt, conCenter pco (conStepL pco (conInit pco)))]) ∧
        (0 < pco.tEnd → 1 ≤ n → (conRun pco n).hist ≠ [])) := by
  refine ⟨⟨sqRun_hist_suffix psq n, sqRun_hist_gap psq n, ?_,
      sqRun_first_sample psq, fun h0 h1 => sqRun_hist_ne psq h0 n h1⟩,
    ⟨cylRun_hist_suffix pcy n, cylRun_hist_gap pcy n, ?_,
      cylRun_first_sample pcy, fun h0 h1 => cylRun_hist_ne pcy h0 n h1⟩,
    ⟨conRun_hist_suffix pco n, conRun_hist_gap pco n, ?_,
      conRun_first_sample pco, fun h0 h1 => conRun_hist_ne pco h0 n h1⟩⟩
  · exact (sqRun_hist_gap psq n).imp (fun a b hab => by linarith)
  · exact (cylRun_hist_gap pcy n).imp (fun a b hab => by linarith)
  · exact (conRun_hist_gap pco n).imp (fun a b hab => by linarith)

/-- C10: the history returned by the conical solver is independent of the
cone half-angle and the cylinder diameter — two runs agreeing on material,
cooling, duration and resolution, and on the sum cylinder height + cone
height, return identical states (times, temperatures and grids) whatever
their `cyl_diameter` and `cone_angle`. -/
theorem C10_geometry_independence
    (k rho cp hj hn Tc Ti tEnd cd1 ch1 coh1 ang1 cd2 ch2 coh2 ang2 : ℝ)
    (npArg n : ℕ) (hsum : ch1 + coh1 = ch2 + coh2) :
    conSim k rho cp hj hn Tc Ti tEnd cd1 ch1 coh1 ang1 npArg n =
      conSim k rho cp hj hn Tc Ti tEnd cd2 ch2 coh2 ang2 npArg n := by
  unfold conSim
  rw [hsum]

theorem C10_geometry_independence_witness :
    conSim 1 1 1 1 1 0 100 10 1 1 2 30 25 7 =
      conSim 1 1 1 1 1 0 100 10 5 2 1 60 25 7 :=
  C10_geometry_independence 1 1 1 1 1 0 100 10 1 1 2 30 5 2 1 60 25 7 (by norm_num)
